import Mathlib

/-!
# go_auth_template: credential and token lifecycle

A shallow embedding of the HTTP handlers of `handlers/auth.go`,
`handlers/emailverification.go`, `handlers/profile.go` and of
`helpers/users/get_id_from_token.go`.

* The relational store is an explicit value `DB`: one list of rows per table.
  Every SQL statement of the sources is a function on those lists.
* `http.ResponseWriter` is the value `ResponseWriter`; `WriteHeader` keeps the
  first status written, as `net/http` does.
* Library calls (`sha256.Sum256`, `strings.ToLower`, `mail.ParseAddress`,
  `argon2id`) are the fields of `Lib`; what varies from request to request
  (clock, random token, generated id, store and mail failures) is `Env`.
* A request is handled at one instant `env.now`, which is both the store's
  `NOW()` and the clock read by `time.Since`.
-/

namespace GoAuth

/-! ## Time -/

/-! Timestamps and durations are integers, counted in microseconds. -/

/-- One second. -/
def Second : Int := 1000000

/-- One minute. -/
def Minute : Int := 60 * Second

/-- Go `time.Hour`. -/
def Hour : Int := 60 * Minute

/-- SQL `INTERVAL '1 day'`, Go `24*time.Hour`. -/
def Day : Int := 24 * Hour

/-- SQL `INTERVAL '1 week'`. -/
def Week : Int := 7 * Day

/-! ## Collaborators -/

/-- A byte slice holding a digest (`[]byte`), as a list of bytes. -/
abbrev Digest := List Nat

/-- Constant `sha256.Size`: the size of a SHA-256 checksum in bytes. -/
def Size : Nat := 32

/-- Pure library functions the handlers call. -/
structure Lib where
  /-- Function `sha256.Sum256` applied to the bytes of a string; its result type
  is the array `[Size]byte`. -/
  Sum256 : String → { sum : List Nat // sum.length = Size }
  /-- Function `strings.ToLower`. -/
  ToLower : String → String
  /-- Function `strings.TrimSpace`. -/
  TrimSpace : String → String
  /-- Whether `mail.ParseAddress` returns no error. -/
  ParseAddress : String → Bool
  /-- Function `argon2id.ComparePasswordAndHash`; `none` is its error result. -/
  ComparePasswordAndHash : String → String → Option Bool
  /-- SQL function `LOWER`. -/
  LOWER : String → String
  /-- The text `encoding/json` writes for a string value: quoted and escaped. -/
  jsonString : String → String

/-- What one request observes of the outside world. -/
structure Env where
  /-- The instant of the request. -/
  now : Int
  /-- Whether the k-th store statement issued by the handler fails with an
  error other than `sql.ErrNoRows`. -/
  dbErr : Nat → Bool
  /-- Result of `gonanoid.New(128)`; `none` is its error result. -/
  New : Option String
  /-- Result of `sf.NextID()`, a 63-bit Sonyflake id; `none` is its error result. -/
  NextID : Option Nat
  /-- Result of `argon2id.CreateHash` on a password; `none` is its error. -/
  CreateHash : String → Option String
  /-- Whether the outbound mail is delivered without error. -/
  mailOk : Bool
  /-- Whether the insert made by `logs.Err` fails. -/
  logErr : Bool
  /-- Whether writing the JSON body to the client fails. -/
  encodeErr : Bool := false

/-! ## Data model -/

/-- Row of `users`. -/
structure User where
  id : Int
  name : String
  email : String
  password_hash : String
  email_verified : Bool
deriving DecidableEq, Repr

/-- Row of `sessions`. -/
structure Session where
  id : String
  user_id : Int
  token_hash : Digest
  created_at : Int
  last_used_at : Int
deriving DecidableEq, Repr

/-- Row of `verification_tokens`. -/
structure VerificationToken where
  user_id : Int
  token_hash : Digest
  created_at : Int
deriving DecidableEq, Repr

/-- Row of `reset_tokens`. -/
structure ResetToken where
  user_id : Int
  token_hash : Digest
  created_at : Int
deriving DecidableEq, Repr

/-- Row of `email_change_tokens`. -/
structure EmailChangeToken where
  user_id : Int
  token_hash : Digest
  new_email : String
  created_at : Int
deriving DecidableEq, Repr

/-- Row of `errors`, the audit log written by `logs.Err` (operation name,
message and acting user; error text, stack trace and context are not kept). -/
structure ErrorRow where
  name : String
  message : String
  user_id : Int
deriving DecidableEq, Repr

/-- The relational store. -/
structure DB where
  users : List User := []
  sessions : List Session := []
  verification_tokens : List VerificationToken := []
  reset_tokens : List ResetToken := []
  email_change_tokens : List EmailChangeToken := []
  errors : List ErrorRow := []
deriving DecidableEq, Repr

/-- The `http.ResponseWriter` of a request: the status written so far, if any,
and the body. -/
structure ResponseWriter where
  status : Option Nat := none
  body : String := ""
deriving DecidableEq, Repr

/-- Method `w.WriteHeader(code)`: the first status written is the one sent. -/
def ResponseWriter.WriteHeader (w : ResponseWriter) (code : Nat) : ResponseWriter :=
  match w.status with
  | none => { w with status := some code }
  | some _ => w

/-- The status the client receives: 200 when the handler wrote none. -/
def ResponseWriter.code (w : ResponseWriter) : Nat :=
  w.status.getD 200

/-- Kind of outbound mail (`SendVerification`, `SendReset`, `SendEmailChange`). -/
inductive MailKind where
  | verification
  | reset
  | emailChange
deriving DecidableEq, Repr

/-- An outbound notification: its kind, the address, and the raw token embedded
in the link. -/
structure Mail where
  kind : MailKind
  address : String
  rawToken : String
deriving DecidableEq, Repr

/-- What a handler leaves behind: the response, the store, and the notification
it attempted, if any. -/
structure Outcome where
  w : ResponseWriter
  db : DB
  mail : Option Mail := none
deriving DecidableEq, Repr

/-! ## helpers/logs/error.go -/

/-- Function `logs.Err`: one row appended to `errors`, unless that insert fails. -/
def Err (env : Env) (db : DB) (name msg : String) (userID : Int) : DB :=
  if env.logErr then db
  else { db with errors := db.errors ++ [{ name := name, message := msg, user_id := userID }] }

/-! ## helpers/users/get_id_from_token.go -/

/-- Function `HashToken`: SHA-256 of the token, `sum[:]`. -/
def HashToken (L : Lib) (token : String) : Digest :=
  (L.Sum256 token).val

/-- The `WHERE` clause of `GetId`:
`token_hash = $1 AND last_used_at >= NOW() - INTERVAL '1 week'`. -/
def sessionLive (now : Int) (token : Digest) (r : Session) : Bool :=
  decide (r.token_hash = token) && decide (r.last_used_at ≥ now - Week)

/-- The statement of `GetId`,
`UPDATE sessions SET last_used_at = NOW() WHERE ... RETURNING user_id`:
the rows after the update. -/
def touchSessions (now : Int) (token : Digest) (rows : List Session) : List Session :=
  rows.map fun r => if sessionLive now token r then { r with last_used_at := now } else r

/-- Function `GetId`: the user id (`none` when it returns an error), the
response writer and the store afterwards. `QueryRow(...).Scan` reads the first
returned row. -/
def GetId (L : Lib) (env : Env) (rawToken : String) (w : ResponseWriter) (db : DB) :
    Option Int × ResponseWriter × DB :=
  let token := HashToken L rawToken
  if env.dbErr 0 then
    (none, w.WriteHeader 500, db)
  else
    match db.sessions.find? (sessionLive env.now token) with
    | none => (none, w.WriteHeader 401, db)
    | some r => (some r.user_id, w, { db with sessions := touchSessions env.now token db.sessions })

/-! ## Request helpers -/

/-- Function `strings.TrimPrefix`. -/
def TrimPrefix (s pre : String) : String :=
  if pre.data.isPrefixOf s.data then String.mk (s.data.drop pre.data.length) else s

/-- The bearer token of a request: `strings.TrimPrefix(r.Header.Get("Authorization"), "Bearer ")`. -/
def bearer (authorization : String) : String :=
  TrimPrefix authorization "Bearer "

/-! ## handlers/auth.go: TokenCheckHandler -/

/-- Handler `TokenCheckHandler`:
`SELECT EXISTS (SELECT 1 FROM sessions WHERE token_hash = $1)`. -/
def TokenCheckHandler (L : Lib) (env : Env) (db : DB) (authorization : String) : Outcome :=
  let w : ResponseWriter := {}
  let rawToken := bearer authorization
  let token := HashToken L rawToken
  if env.dbErr 0 then
    { w := w.WriteHeader 500, db := Err env db "DB err" "Failed to query the DB" 0 }
  else
    let exists_ := db.sessions.any fun r => decide (r.token_hash = token)
    if !exists_ then
      { w := w.WriteHeader 401, db := db }
    else
      { w := w.WriteHeader 204, db := db }

/-! ## Store statements on the purpose-token tables -/

/-- Modelled from the spec: the table declarations are not among the sources.
A row inserted without `created_at` gets the time of the insert (the spec's
"new timestamp" of an issued token), which is the column default this value
stands for. -/
def defaultCreatedAt (now : Int) : Int := now

/-- Modelled from the spec: the table declarations are not among the sources.
A row inserted into `users` without `email_verified` is unverified (the spec:
the verified flag "flips once, false→true"). -/
def defaultEmailVerified : Bool := false

/-- The shape of the three token upserts, `INSERT ... ON CONFLICT (user_id) DO
UPDATE SET ...`: when a row of the account exists it is updated in place,
otherwise the new row is inserted. -/
def upsert {α : Type} (key : α → Int) (userID : Int) (update : α → α) (new : α)
    (rows : List α) : List α :=
  if rows.any (fun r => decide (key r = userID)) then
    rows.map fun r => if key r = userID then update r else r
  else
    rows ++ [new]

/-- Statement `INSERT INTO verification_tokens (user_id, token_hash) VALUES ($1, $2)
ON CONFLICT (user_id) DO UPDATE SET token_hash = EXCLUDED.token_hash, created_at = NOW()`. -/
def upsertVerificationToken (now : Int) (userID : Int) (tokenHash : Digest)
    (rows : List VerificationToken) : List VerificationToken :=
  upsert (fun r => r.user_id) userID
    (fun r => { r with token_hash := tokenHash, created_at := now })
    { user_id := userID, token_hash := tokenHash, created_at := defaultCreatedAt now } rows

/-- Statement `INSERT INTO reset_tokens (user_id, token_hash) VALUES ($1, $2)
ON CONFLICT (user_id) DO UPDATE SET token_hash = EXCLUDED.token_hash, created_at = NOW()`. -/
def upsertResetToken (now : Int) (userID : Int) (tokenHash : Digest)
    (rows : List ResetToken) : List ResetToken :=
  upsert (fun r => r.user_id) userID
    (fun r => { r with token_hash := tokenHash, created_at := now })
    { user_id := userID, token_hash := tokenHash, created_at := defaultCreatedAt now } rows

/-- Statement `INSERT INTO email_change_tokens (user_id, token_hash, new_email)
VALUES ($1, $2, $3) ON CONFLICT (user_id) DO UPDATE SET token_hash = EXCLUDED.token_hash,
new_email = EXCLUDED.new_email, created_at = NOW()`. -/
def upsertEmailChangeToken (now : Int) (userID : Int) (tokenHash : Digest) (email : String)
    (rows : List EmailChangeToken) : List EmailChangeToken :=
  upsert (fun r => r.user_id) userID
    (fun r => { r with token_hash := tokenHash, new_email := email, created_at := now })
    { user_id := userID, token_hash := tokenHash, new_email := email,
      created_at := defaultCreatedAt now } rows

/-! ## Request payloads -/

/-- The `Payload` of `RegistrationHandler`. -/
structure RegistrationPayload where
  Name : String
  Email : String
  Password : String
deriving DecidableEq, Repr

/-- The `Payload` of the handlers that take an email. -/
structure EmailPayload where
  Email : String
deriving DecidableEq, Repr

/-- The `Payload` of `PasswordResetHandler`. -/
structure PasswordPayload where
  Password : String
deriving DecidableEq, Repr

/-- Go `len` of a string: its length in bytes. -/
def len (s : String) : Nat := s.utf8ByteSize

/-! ## handlers/emailverification.go -/

/-- Handler `EmailVerificationHandler`. -/
def EmailVerificationHandler (L : Lib) (env : Env) (db : DB) (rawToken : String) : Outcome :=
  let w : ResponseWriter := {}
  let token := HashToken L rawToken
  -- DELETE FROM verification_tokens WHERE token_hash = $1 RETURNING user_id
  if env.dbErr 0 then
    { w := w.WriteHeader 500, db := Err env db "DB err" "Failed to query the DB" 0 }
  else
    match db.verification_tokens.find? (fun r => decide (r.token_hash = token)) with
    | none => { w := w.WriteHeader 404, db := db }
    | some row =>
      let userID := row.user_id
      let rows := db.verification_tokens.filter (fun r => !decide (r.token_hash = token))
      let db := { db with verification_tokens := rows }
      -- UPDATE users SET email_verified = TRUE WHERE id = $1
      if env.dbErr 1 then
        { w := w.WriteHeader 500, db := Err env db "DB err" "Failed to query the DB" userID }
      else
        let rows := db.users.map (fun u => if u.id = userID then { u with email_verified := true } else u)
        let db := { db with users := rows }
        { w := w.WriteHeader 204, db := db }

/-- Handler `ResendEmailVerificationHandler`; `body` is `none` when decoding fails. -/
def ResendEmailVerificationHandler (L : Lib) (env : Env) (db : DB)
    (body : Option EmailPayload) : Outcome :=
  let w : ResponseWriter := {}
  match body with
  | none => { w := w.WriteHeader 400, db := db }
  | some p =>
    let email := L.TrimSpace (L.ToLower p.Email)
    if !L.ParseAddress email then
      { w := w.WriteHeader 422, db := db }
    -- SELECT id, email_verified FROM users WHERE email = $1
    else if env.dbErr 0 then
      { w := w.WriteHeader 500, db := Err env db "DB err" "Failed to query the DB" 0 }
    else
      match db.users.find? (fun u => decide (u.email = email)) with
      | none => { w := w.WriteHeader 204, db := db }
      | some u =>
        let userID := u.id
        if u.email_verified then
          { w := w.WriteHeader 204, db := db }
        -- SELECT created_at FROM verification_tokens WHERE user_id = $1
        else if env.dbErr 1 then
          { w := w.WriteHeader 500, db := Err env db "DB err" "Failed to query the DB" userID }
        else
          let lastSent := (db.verification_tokens.find? fun r => decide (r.user_id = userID)).map
            fun r => r.created_at
          if lastSent.any (fun t => decide (env.now - t < Hour)) then
            { w := w.WriteHeader 204, db := db }
          else
            match env.New with
            | none =>
              { w := w.WriteHeader 500,
                db := Err env db "Gonanoid gen err" "Gonanoid failed to generate the token" userID }
            | some rawToken =>
              let tokenHash := HashToken L rawToken
              -- INSERT INTO verification_tokens ... ON CONFLICT (user_id) DO UPDATE ...
              if env.dbErr 2 then
                { w := w.WriteHeader 500,
                  db := Err env db "DB err" "Failed to query the DB" userID }
              else
                let rows := upsertVerificationToken env.now userID tokenHash db.verification_tokens
                let db := { db with verification_tokens := rows }
                -- go func() { email2.SendVerification(email, u) ... }()
                let db := if env.mailOk then db else Err env db "SMTP err" "Failed to send mail" userID
                { w := w.WriteHeader 204, db := db,
                  mail := some { kind := .verification, address := email, rawToken := rawToken } }

/-! ## handlers/auth.go -/

/-- Handler `RegistrationHandler`; `body` is `none` when decoding fails. -/
def RegistrationHandler (L : Lib) (env : Env) (db : DB)
    (body : Option RegistrationPayload) : Outcome :=
  let w : ResponseWriter := {}
  match body with
  | none => { w := w.WriteHeader 400, db := db }
  | some p =>
    let email := L.TrimSpace (L.ToLower p.Email)
    if !L.ParseAddress email then
      { w := w.WriteHeader 422, db := db }
    else if len p.Name > 64 || len email > 254 || len p.Password < 8 then
      { w := w.WriteHeader 422, db := db }
    else
      match env.CreateHash p.Password with
      | none =>
        { w := w.WriteHeader 500, db := Err env db "Argon2id" "Failed to create password hash" 0 }
      | some hash =>
        match env.NextID with
        | none =>
          { w := w.WriteHeader 500,
            db := Err env db "Sonyflake ID gen" "Failed to generate sonyflake ID" 0 }
        | some id =>
          -- INSERT INTO users (id, name, email, password_hash) ... ON CONFLICT (email) DO NOTHING
          if env.dbErr 0 then
            { w := w.WriteHeader 500,
              db := Err env db "User creation" "Failed to insert the user into the database" 0 }
          else if db.users.any (fun u => decide (u.email = email)) then
            { w := w.WriteHeader 409, db := db }
          else
            let db := { db with users := db.users ++
              [{ id := Int.ofNat id, name := p.Name, email := email, password_hash := hash,
                 email_verified := defaultEmailVerified }] }
            match env.New with
            | none =>
              { w := w.WriteHeader 500,
                db := Err env db "Gonanoid generation"
                  "Gonanoid failed to generate the email verification token." 0 }
            | some rawToken =>
              let tokenHash := HashToken L rawToken
              -- INSERT INTO verification_tokens ... ON CONFLICT (user_id) DO UPDATE ...
              if env.dbErr 1 then
                { w := w.WriteHeader 500,
                  db := Err env db "Verification token storage"
                    "Failed to store the verification token in the database." 0 }
              else
                let rows := upsertVerificationToken env.now (Int.ofNat id) tokenHash db.verification_tokens
                let db := { db with verification_tokens := rows }
                let mail : Mail := { kind := .verification, address := email, rawToken := rawToken }
                -- err = email2.SendVerification(email, u)
                if !env.mailOk then
                  { w := w.WriteHeader 500,
                    db := Err env db "Email sending error" "Failed to send the verification email"
                      (Int.ofNat id),
                    mail := some mail }
                else
                  { w := w.WriteHeader 201, db := db, mail := some mail }

/-- Handler `SendPasswordResetHandler`; `body` is `none` when decoding fails. -/
def SendPasswordResetHandler (L : Lib) (env : Env) (db : DB)
    (body : Option EmailPayload) : Outcome :=
  let w : ResponseWriter := {}
  match body with
  | none => { w := w.WriteHeader 400, db := db }
  | some p =>
    let email := L.TrimSpace (L.ToLower p.Email)
    if !L.ParseAddress email then
      { w := w.WriteHeader 422, db := db }
    -- SELECT id FROM users WHERE email = $1
    else if env.dbErr 0 then
      { w := w.WriteHeader 500, db := Err env db "DB err" "Failed to query the DB" 0 }
    else
      match db.users.find? (fun u => decide (u.email = email)) with
      | none => { w := w.WriteHeader 204, db := db }
      | some u =>
        let userID := u.id
        -- SELECT created_at FROM reset_tokens WHERE user_id = $1
        if env.dbErr 1 then
          { w := w.WriteHeader 500, db := Err env db "DB err" "Failed to query the DB" userID }
        else
          let lastSent := (db.reset_tokens.find? fun r => decide (r.user_id = userID)).map
            fun r => r.created_at
          if lastSent.any (fun t => decide (env.now - t < Hour)) then
            { w := w.WriteHeader 204, db := db }
          else
            match env.New with
            | none =>
              { w := w.WriteHeader 500,
                db := Err env db "Gonanoid err" "Gonanoid failed to generate the token" userID }
            | some rawToken =>
              let tokenHash := HashToken L rawToken
              -- INSERT INTO reset_tokens ... ON CONFLICT (user_id) DO UPDATE ...
              if env.dbErr 2 then
                { w := w.WriteHeader 500,
                  db := Err env db "DB err" "Failed to store the token in the DB" userID }
              else
                let rows := upsertResetToken env.now userID tokenHash db.reset_tokens
                let db := { db with reset_tokens := rows }
                -- go func() { email2.SendReset(email, u) ... }()
                let db := if env.mailOk then db else Err env db "SMTP err" "Failed to send mail" userID
                { w := w.WriteHeader 204, db := db,
                  mail := some { kind := .reset, address := email, rawToken := rawToken } }

/-- Handler `PasswordResetHandler`; `body` is `none` when decoding fails. -/
def PasswordResetHandler (L : Lib) (env : Env) (db : DB) (rawToken : String)
    (body : Option PasswordPayload) : Outcome :=
  let w : ResponseWriter := {}
  let tokenHash := HashToken L rawToken
  match body with
  | none => { w := w.WriteHeader 400, db := db }
  | some p =>
    if len p.Password < 8 then
      { w := w.WriteHeader 422, db := db }
    -- SELECT user_id FROM reset_tokens
    -- WHERE token_hash = $1 AND created_at >= NOW() - INTERVAL '1 day'
    else if env.dbErr 0 then
      { w := w.WriteHeader 500, db := Err env db "DB err" "Failed to query the DB" 0 }
    else
      match db.reset_tokens.find? (fun r =>
          decide (r.token_hash = tokenHash) && decide (r.created_at ≥ env.now - Day)) with
      | none => { w := w.WriteHeader 404, db := db }
      | some row =>
        let userID := row.user_id
        match env.CreateHash p.Password with
        | none =>
          { w := w.WriteHeader 500,
            db := Err env db "Argon2id err" "Argon2id failed to create hash" userID }
        | some hash =>
          -- UPDATE users SET password_hash = $1 WHERE id = $2
          if env.dbErr 1 then
            { w := w.WriteHeader 500,
              db := Err env db "DB err" "Failed to update the user" userID }
          else
            let rows := db.users.map (fun u => if u.id = userID then { u with password_hash := hash } else u)
            let db := { db with users := rows }
            -- DELETE FROM reset_tokens WHERE user_id = $1
            if env.dbErr 2 then
              { w := w.WriteHeader 500,
                db := Err env db "DB err" "Failed to delete reset token from DB" userID }
            else
              let rows := db.reset_tokens.filter (fun r => !decide (r.user_id = userID))
              let db := { db with reset_tokens := rows }
              -- DELETE FROM sessions WHERE user_id = $1
              if env.dbErr 3 then
                { w := w.WriteHeader 500,
                  db := Err env db "DB err" "Failed to delete all sessions from DB" userID }
              else
                let rows := db.sessions.filter (fun r => !decide (r.user_id = userID))
                let db := { db with sessions := rows }
                { w := w.WriteHeader 204, db := db }

/-! ## handlers/profile.go -/

/-- The query of `RequestEmailChangeHandler` that checks whether the address is
taken: by another account, or by another account's email-change token not
older than one day. -/
def emailTaken (L : Lib) (now : Int) (db : DB) (email : String) (userID : Int) : Bool :=
  db.users.any (fun u => decide (L.LOWER u.email = L.LOWER email) && decide (u.id ≠ userID))
  ||
  db.email_change_tokens.any (fun r =>
    decide (L.LOWER r.new_email = L.LOWER email)
      && decide (r.created_at + Day ≥ now)
      && decide (r.user_id ≠ userID))

/-- Handler `RequestEmailChangeHandler`; `body` is `none` when decoding fails. -/
def RequestEmailChangeHandler (L : Lib) (env : Env) (db : DB) (authorization : String)
    (body : Option EmailPayload) : Outcome :=
  let w : ResponseWriter := {}
  let token := bearer authorization
  if token = "" then
    { w := w.WriteHeader 401, db := db }
  else
    match GetId L env token w db with
    | (none, w, db) => { w := w, db := db }
    | (some userID, w, db) =>
      match body with
      | none => { w := w.WriteHeader 400, db := db }
      | some p =>
        let email := L.TrimSpace (L.ToLower p.Email)
        if len email > 254 then
          { w := w.WriteHeader 422, db := db }
        else if !L.ParseAddress email then
          { w := w.WriteHeader 422, db := db }
        -- SELECT email FROM users WHERE id = $1
        else if env.dbErr 1 then
          { w := w.WriteHeader 500, db := Err env db "DB err" "Failed to query DB." userID }
        else
          match db.users.find? (fun u => decide (u.id = userID)) with
          | none =>
            { w := w.WriteHeader 500, db := Err env db "DB err" "Failed to query DB." userID }
          | some u =>
            let userEmail := u.email
            if email = userEmail then
              { w := w.WriteHeader 409, db := db }
            -- SELECT EXISTS (... users ...) OR EXISTS (... email_change_tokens ...)
            else if env.dbErr 2 then
              { w := w.WriteHeader 500, db := Err env db "DB err" "Failed to query the DB." userID }
            else if emailTaken L env.now db email userID then
              { w := w.WriteHeader 409, db := db }
            else
              match env.New with
              | none =>
                { w := w.WriteHeader 500,
                  db := Err env db "Token gen err" "Gonanoid failed to generate a token." userID }
              | some rawToken =>
                let tokenHash := HashToken L rawToken
                -- INSERT INTO email_change_tokens ... ON CONFLICT (user_id) DO UPDATE ...
                if env.dbErr 3 then
                  { w := w.WriteHeader 500,
                    db := Err env db "DB err" "Failed to query the DB." userID }
                else
                  let rows := upsertEmailChangeToken env.now userID tokenHash email db.email_change_tokens
                  let db := { db with email_change_tokens := rows }
                  -- go func() { email2.SendEmailChange(email, u) ... }()
                  let db :=
                    if env.mailOk then db else Err env db "SMTP err" "Failed to send mail" userID
                  { w := w.WriteHeader 204, db := db,
                    mail := some { kind := .emailChange, address := email, rawToken := rawToken } }

/-- Handler `UpdateEmail`. -/
def UpdateEmail (L : Lib) (env : Env) (db : DB) (rawChangeToken : String) : Outcome :=
  let w : ResponseWriter := {}
  let changeTokenHash := HashToken L rawChangeToken
  -- DELETE FROM email_change_tokens WHERE token_hash = $1
  -- RETURNING new_email, created_at, user_id
  if env.dbErr 0 then
    { w := w.WriteHeader 500, db := Err env db "DB err" "Failed to query the DB." 0 }
  else
    match db.email_change_tokens.find? (fun r => decide (r.token_hash = changeTokenHash)) with
    | none => { w := w.WriteHeader 404, db := db }
    | some row =>
      let newEmail := row.new_email
      let tokenCreatedAt := row.created_at
      let userID := row.user_id
      let rows := db.email_change_tokens.filter (fun r => !decide (r.token_hash = changeTokenHash))
      let db := { db with email_change_tokens := rows }
      if env.now - tokenCreatedAt > 24 * Hour then
        { w := w.WriteHeader 410, db := db }
      -- SELECT EXISTS (SELECT 1 FROM users WHERE email = $1)
      else if env.dbErr 1 then
        { w := w.WriteHeader 500, db := Err env db "DB err" "Failed to query the DB." userID }
      else if db.users.any (fun u => decide (u.email = newEmail)) then
        { w := w.WriteHeader 409, db := db }
      -- UPDATE users SET email = $1 WHERE id = $2
      else if env.dbErr 2 then
        { w := w.WriteHeader 500, db := Err env db "DB err" "Failed to query the DB." userID }
      else
        let rows := db.users.map (fun u => if u.id = userID then { u with email := newEmail } else u)
        let db := { db with users := rows }
        { w := w.WriteHeader 204, db := db }

/-! ## handlers/auth.go: login, password change, logout -/

/-- The `Payload` of `LoginHandler`. -/
structure LoginPayload where
  Email : String
  Password : String
deriving DecidableEq, Repr

/-- The `Payload` of `PasswordChangeHandler`. -/
structure PasswordChangePayload where
  Password : String
  NewPassword : String
deriving DecidableEq, Repr

/-- The `Payload` of `UpdateProfileHandler`. -/
structure NamePayload where
  Name : String
deriving DecidableEq, Repr

/-- Modelled from the spec: the table declarations are not among the sources.
A session row inserted without `last_used_at` gets the time of the insert (the
spec: a session is stored "with `created_at = last_used_at = now`"). -/
def defaultLastUsedAt (now : Int) : Int := now

/-- Function `strconv.FormatUint(n, 10)`. -/
def FormatUint (n : Nat) : String := Nat.repr n

/-- The body `json.NewEncoder(w).Encode(map[string]interface{}{"token": rawToken})` writes. -/
def tokenBody (L : Lib) (rawToken : String) : String :=
  "\x7b\"token\":" ++ L.jsonString rawToken ++ "\x7d\n"

/-- Handler `LoginHandler`; `body` is `none` when decoding fails. -/
def LoginHandler (L : Lib) (env : Env) (db : DB) (body : Option LoginPayload) : Outcome :=
  let w : ResponseWriter := {}
  match body with
  | none => { w := w.WriteHeader 400, db := db }
  | some p =>
    if len p.Email > 254 || len p.Password < 8 then
      { w := w.WriteHeader 422, db := db }
    else
      let email := L.TrimSpace (L.ToLower p.Email)
      if !L.ParseAddress email then
        { w := w.WriteHeader 422, db := db }
      -- SELECT id, password_hash, email_verified FROM users WHERE email = $1
      else if env.dbErr 0 then
        { w := w.WriteHeader 500,
          db := Err env db "User data select" "Failed to fetch the user's data from the db." 0 }
      else
        match db.users.find? (fun u => decide (u.email = email)) with
        | none => { w := w.WriteHeader 401, db := db }
        | some u =>
          let userID := u.id
          match L.ComparePasswordAndHash p.Password u.password_hash with
          | none =>
            { w := w.WriteHeader 500,
              db := Err env db "Argon2id comparison" "Argon2id failed to compare the passwords"
                userID }
          | some matched =>
            if !matched then
              { w := w.WriteHeader 401, db := db }
            else if !u.email_verified then
              { w := w.WriteHeader 403, db := db }
            else
              match env.New with
              | none =>
                { w := w.WriteHeader 500,
                  db := Err env db "Session token generation error"
                    "Gonanoid failed to generate the session token." userID }
              | some rawToken =>
                let tokenHash := HashToken L rawToken
                match env.NextID with
                | none =>
                  { w := w.WriteHeader 500,
                    db := Err env db "Sonyflake ID gen"
                      "Sonyflake failed to generate the session ID." userID }
                | some idInt =>
                  let id := FormatUint idInt
                  -- INSERT INTO sessions (id, user_id, token_hash) VALUES ($1, $2, $3)
                  if env.dbErr 1 then
                    { w := w.WriteHeader 500,
                      db := Err env db "Session storage error"
                        "Failed to store the session in the db" userID }
                  else
                    let rows := db.sessions ++
                      [{ id := id, user_id := userID, token_hash := tokenHash,
                         created_at := defaultCreatedAt env.now,
                         last_used_at := defaultLastUsedAt env.now }]
                    let db := { db with sessions := rows }
                    let w := w.WriteHeader 200
                    if env.encodeErr then
                      { w := w.WriteHeader 500,
                        db := Err env db "Token return fail" "Failed to return the token" userID }
                    else
                      { w := { w with body := tokenBody L rawToken }, db := db }

/-- Handler `PasswordChangeHandler`; `body` is `none` when decoding fails. -/
def PasswordChangeHandler (L : Lib) (env : Env) (db : DB) (authorization : String)
    (body : Option PasswordChangePayload) : Outcome :=
  let w : ResponseWriter := {}
  let rawToken := bearer authorization
  match GetId L env rawToken w db with
  | (none, w, db) => { w := w, db := db }
  | (some userID, w, db) =>
    match body with
    | none => { w := w.WriteHeader 400, db := db }
    | some p =>
      if len p.Password < 8 || len p.NewPassword < 8 then
        { w := w.WriteHeader 422, db := db }
      -- SELECT password_hash FROM users WHERE id = $1
      else if env.dbErr 1 then
        { w := w.WriteHeader 500, db := Err env db "DB err" "Failed to query the DB" userID }
      else
        match db.users.find? (fun u => decide (u.id = userID)) with
        | none =>
          { w := w.WriteHeader 500, db := Err env db "DB err" "Failed to query the DB" userID }
        | some u =>
          let currentHash := u.password_hash
          match L.ComparePasswordAndHash p.Password currentHash with
          | none =>
            -- the handler returns here without writing a status
            { w := w, db := Err env db "Argon2id err" "Argon2id failed to compare password" userID }
          | some matched =>
            if !matched then
              { w := w.WriteHeader 401, db := db }
            else
              match env.CreateHash p.NewPassword with
              | none =>
                { w := w.WriteHeader 500,
                  db := Err env db "Argon2id err" "Argon2id failed to create hash" userID }
              | some hash =>
                -- UPDATE users SET password_hash = $1 WHERE id = $2
                if env.dbErr 2 then
                  { w := w.WriteHeader 500,
                    db := Err env db "DB err" "Failed to update the user" userID }
                else
                  let rows := db.users.map
                    (fun u => if u.id = userID then { u with password_hash := hash } else u)
                  let db := { db with users := rows }
                  -- DELETE FROM sessions WHERE user_id = $1
                  if env.dbErr 3 then
                    { w := w.WriteHeader 500,
                      db := Err env db "DB err" "Failed to delete sessions" userID }
                  else
                    let rows := db.sessions.filter (fun r => !decide (r.user_id = userID))
                    let db := { db with sessions := rows }
                    { w := w.WriteHeader 204, db := db }

/-- Handler `LogoutHandler`. -/
def LogoutHandler (L : Lib) (env : Env) (db : DB) (authorization : String) : Outcome :=
  let w : ResponseWriter := {}
  let token := bearer authorization
  if token = "" then
    { w := w.WriteHeader 401, db := db }
  else
    let tokenHash := HashToken L token
    -- DELETE FROM sessions WHERE token_hash = $1
    if env.dbErr 0 then
      { w := w.WriteHeader 204, db := Err env db "DB err" "Failed to query the DB." 0 }
    else
      let rows := db.sessions.filter (fun r => !decide (r.token_hash = tokenHash))
      let db := { db with sessions := rows }
      { w := w.WriteHeader 204, db := db }

/-! ## handlers/profile.go: profile -/

/-- The body `json.NewEncoder(w).Encode(map[string]interface{}{"user": u})` writes;
the id is scanned into a string. -/
def userBody (L : Lib) (u : User) : String :=
  "\x7b\"user\":\x7b\"id\":" ++ L.jsonString (toString u.id)
    ++ ",\"name\":" ++ L.jsonString u.name
    ++ ",\"email\":" ++ L.jsonString u.email ++ "\x7d\x7d\n"

/-- Handler `ProfileHandler`. -/
def ProfileHandler (L : Lib) (env : Env) (db : DB) (authorization : String) : Outcome :=
  let w : ResponseWriter := {}
  let token := bearer authorization
  if token = "" then
    { w := w.WriteHeader 401, db := db }
  else
    match GetId L env token w db with
    | (none, w, db) => { w := w, db := db }
    | (some userID, w, db) =>
      -- SELECT id, name, email FROM users WHERE id = $1
      if env.dbErr 1 then
        { w := w.WriteHeader 500, db := Err env db "DB err" "Failed to query the DB." userID }
      else
        match db.users.find? (fun u => decide (u.id = userID)) with
        | none =>
          { w := w.WriteHeader 500, db := Err env db "DB err" "Failed to query the DB." userID }
        | some u =>
          let w := w.WriteHeader 200
          if env.encodeErr then
            { w := w, db := Err env db "Return err" "Failed to return the data." userID }
          else
            { w := { w with body := userBody L u }, db := db }

/-- Handler `UpdateProfileHandler`; `body` is `none` when decoding fails. -/
def UpdateProfileHandler (L : Lib) (env : Env) (db : DB) (authorization : String)
    (body : Option NamePayload) : Outcome :=
  let w : ResponseWriter := {}
  let token := bearer authorization
  if token = "" then
    { w := w.WriteHeader 401, db := db }
  else
    match GetId L env token w db with
    | (none, w, db) => { w := w, db := db }
    | (some userID, w, db) =>
      match body with
      | none => { w := w.WriteHeader 400, db := db }
      | some p =>
        if len p.Name > 64 then
          { w := w.WriteHeader 422, db := db }
        -- UPDATE users SET name = $1 WHERE id = $2
        else if env.dbErr 1 then
          { w := w.WriteHeader 500, db := Err env db "DB err" "Failed to query the DB." userID }
        else
          let rows := db.users.map (fun u => if u.id = userID then { u with name := p.Name } else u)
          let db := { db with users := rows }
          { w := w.WriteHeader 204, db := db }

/-! ## mw/maxsize.go -/

/-- What `MaxBody` reads of a request, and the cap it puts on the body. -/
structure HTTPRequest where
  Method : String
  ContentLength : Int
  /-- The limit of the `http.MaxBytesReader` wrapped around the body, if any. -/
  MaxBytes : Option Int := none
deriving DecidableEq, Repr

/-- Middleware `MaxBody(n)(next)`, serving one request. -/
def MaxBody (n : Int) (next : ResponseWriter → HTTPRequest → ResponseWriter)
    (w : ResponseWriter) (r : HTTPRequest) : ResponseWriter :=
  if r.Method = "POST" ∨ r.Method = "PUT" ∨ r.Method = "PATCH" then
    if r.ContentLength > n ∧ r.ContentLength ≠ -1 then
      w.WriteHeader 413
    else
      next w { r with MaxBytes := some n }
  else
    next w r

/-! ## Handlers as sequences of store statements

For concurrent requests the unit of atomicity is one store statement. The
three consuming handlers are written here statement by statement. -/

/-- A handler in progress: either it has returned, or its next action is one
store statement, after which it continues according to what the statement read. -/
inductive Prog where
  | ret (w : ResponseWriter)
  | exec (stmt : DB → DB) (next : DB → Prog)

/-- One statement of a handler in progress; a returned handler stays as it is. -/
def Prog.step : Prog → DB → Prog × DB
  | .ret w, db => (.ret w, db)
  | .exec stmt next, db => (next db, stmt db)

/-- A handler run to its end without interruption: the response and the store. -/
def Prog.run : Prog → DB → ResponseWriter × DB
  | .ret w, db => (w, db)
  | .exec stmt next, db => (next db).run (stmt db)

/-- Function `logs.Err` followed by `w.WriteHeader(code)` and `return`. -/
def failWith (env : Env) (w : ResponseWriter) (code : Nat) (name msg : String) (userID : Int) :
    Prog :=
  .exec (fun db => Err env db name msg userID) (fun _ => .ret (w.WriteHeader code))

/-- `EmailVerificationHandler` after its `DELETE ... RETURNING` returned `userID`. -/
def EmailVerificationMark (env : Env) (w : ResponseWriter) (userID : Int) : Prog :=
  -- UPDATE users SET email_verified = TRUE WHERE id = $1
  .exec
    (fun db =>
      if env.dbErr 1 then db
      else
        let rows := db.users.map (fun u => if u.id = userID then { u with email_verified := true } else u)
        { db with users := rows })
    (fun _ =>
      if env.dbErr 1 then failWith env w 500 "DB err" "Failed to query the DB" userID
      else .ret (w.WriteHeader 204))

/-- `EmailVerificationHandler`, statement by statement. -/
def EmailVerificationProg (L : Lib) (env : Env) (rawToken : String) : Prog :=
  let w : ResponseWriter := {}
  let token := HashToken L rawToken
  -- DELETE FROM verification_tokens WHERE token_hash = $1 RETURNING user_id
  .exec
    (fun db =>
      if env.dbErr 0 then db
      else { db with verification_tokens :=
        db.verification_tokens.filter (fun r => !decide (r.token_hash = token)) })
    (fun db =>
      if env.dbErr 0 then failWith env w 500 "DB err" "Failed to query the DB" 0
      else
        match db.verification_tokens.find? (fun r => decide (r.token_hash = token)) with
        | none => .ret (w.WriteHeader 404)
        | some row => EmailVerificationMark env w row.user_id)

/-- `UpdateEmail` after the address was found free. -/
def UpdateEmailWrite (env : Env) (w : ResponseWriter) (row : EmailChangeToken) : Prog :=
  -- UPDATE users SET email = $1 WHERE id = $2
  .exec
    (fun db =>
      if env.dbErr 2 then db
      else
        let rows := db.users.map (fun u => if u.id = row.user_id then { u with email := row.new_email } else u)
        { db with users := rows })
    (fun _ =>
      if env.dbErr 2 then failWith env w 500 "DB err" "Failed to query the DB." row.user_id
      else .ret (w.WriteHeader 204))

/-- `UpdateEmail` after its `DELETE ... RETURNING` returned `row`. -/
def UpdateEmailCheck (env : Env) (w : ResponseWriter) (row : EmailChangeToken) : Prog :=
  if env.now - row.created_at > 24 * Hour then
    .ret (w.WriteHeader 410)
  else
    -- SELECT EXISTS (SELECT 1 FROM users WHERE email = $1)
    .exec (fun db => db)
      (fun db =>
        if env.dbErr 1 then failWith env w 500 "DB err" "Failed to query the DB." row.user_id
        else if db.users.any (fun u => decide (u.email = row.new_email)) then
          .ret (w.WriteHeader 409)
        else UpdateEmailWrite env w row)

/-- `UpdateEmail`, statement by statement. -/
def UpdateEmailProg (L : Lib) (env : Env) (rawChangeToken : String) : Prog :=
  let w : ResponseWriter := {}
  let changeTokenHash := HashToken L rawChangeToken
  -- DELETE FROM email_change_tokens WHERE token_hash = $1 RETURNING new_email, created_at, user_id
  .exec
    (fun db =>
      if env.dbErr 0 then db
      else { db with email_change_tokens :=
        db.email_change_tokens.filter (fun r => !decide (r.token_hash = changeTokenHash)) })
    (fun db =>
      if env.dbErr 0 then failWith env w 500 "DB err" "Failed to query the DB." 0
      else
        match db.email_change_tokens.find? (fun r => decide (r.token_hash = changeTokenHash)) with
        | none => .ret (w.WriteHeader 404)
        | some row => UpdateEmailCheck env w row)

/-- `PasswordResetHandler` after the new password was hashed: its three writes. -/
def PasswordResetWrite (env : Env) (w : ResponseWriter) (userID : Int) (hash : String) : Prog :=
  -- UPDATE users SET password_hash = $1 WHERE id = $2
  .exec
    (fun db =>
      if env.dbErr 1 then db
      else
        let rows := db.users.map (fun u => if u.id = userID then { u with password_hash := hash } else u)
        { db with users := rows })
    (fun _ =>
      if env.dbErr 1 then failWith env w 500 "DB err" "Failed to update the user" userID
      else
        -- DELETE FROM reset_tokens WHERE user_id = $1
        .exec
          (fun db =>
            if env.dbErr 2 then db
            else { db with reset_tokens :=
              db.reset_tokens.filter (fun r => !decide (r.user_id = userID)) })
          (fun _ =>
            if env.dbErr 2 then
              failWith env w 500 "DB err" "Failed to delete reset token from DB" userID
            else
              -- DELETE FROM sessions WHERE user_id = $1
              .exec
                (fun db =>
                  if env.dbErr 3 then db
                  else { db with sessions :=
                    db.sessions.filter (fun r => !decide (r.user_id = userID)) })
                (fun _ =>
                  if env.dbErr 3 then
                    failWith env w 500 "DB err" "Failed to delete all sessions from DB" userID
                  else .ret (w.WriteHeader 204))))

/-- `PasswordResetHandler`, statement by statement; `body` is `none` when
decoding fails. -/
def PasswordResetProg (L : Lib) (env : Env) (rawToken : String)
    (body : Option PasswordPayload) : Prog :=
  let w : ResponseWriter := {}
  let tokenHash := HashToken L rawToken
  match body with
  | none => .ret (w.WriteHeader 400)
  | some p =>
    if len p.Password < 8 then
      .ret (w.WriteHeader 422)
    else
      -- SELECT user_id FROM reset_tokens
      -- WHERE token_hash = $1 AND created_at >= NOW() - INTERVAL '1 day'
      .exec (fun db => db)
        (fun db =>
          if env.dbErr 0 then failWith env w 500 "DB err" "Failed to query the DB" 0
          else
            match db.reset_tokens.find? (fun r =>
                decide (r.token_hash = tokenHash) && decide (r.created_at ≥ env.now - Day)) with
            | none => .ret (w.WriteHeader 404)
            | some row =>
              match env.CreateHash p.Password with
              | none =>
                failWith env w 500 "Argon2id err" "Argon2id failed to create hash" row.user_id
              | some hash => PasswordResetWrite env w row.user_id hash)

/-- Two handlers in progress served concurrently under a schedule: `true` lets
the first one execute its next statement, `false` the second one; when the
schedule ends, each runs to its end, the first one first. The result is the
two responses and the store. -/
def concurrent : List Bool → Prog → Prog → DB → ResponseWriter × ResponseWriter × DB
  | [], p, q, db => ((p.run db).1, (q.run (p.run db).2).1, (q.run (p.run db).2).2)
  | true :: sched, p, q, db => concurrent sched (p.step db).1 q (p.step db).2
  | false :: sched, p, q, db => concurrent sched p (q.step db).1 (q.step db).2

/-! ## Runs -/

/-- The environment `env` moved to the instant `t`. -/
def Env.at (env : Env) (t : Int) : Env :=
  { env with now := t }

/-- Successive calls of `GetId` with one raw token, at the given instants, each
on the store the previous one left: the results, and the final store. -/
def validations (L : Lib) (env : Env) (rawToken : String) :
    DB → List Int → List (Option Int) × DB
  | db, [] => ([], db)
  | db, t :: ts =>
    let r := GetId L (env.at t) rawToken {} db
    let rest := validations L env rawToken r.2.2 ts
    (r.1 :: rest.1, rest.2)

/-- The state of a session right after a successful validation at `T`: some
row carries the digest with `last_used_at = T`, and every row carrying the
digest was either refreshed at `T` or had already lapsed at `T`. -/
def FreshAt (token : Digest) (T : Int) (rows : List Session) : Prop :=
  (∃ r ∈ rows, r.token_hash = token ∧ r.last_used_at = T) ∧
  ∀ r ∈ rows, r.token_hash = token → r.last_used_at = T ∨ Week < T - r.last_used_at

/-! ## Requests and runs of the service -/

/-- A request to one of the endpoints. -/
inductive Request where
  | register (body : Option RegistrationPayload)
  | resendVerification (body : Option EmailPayload)
  | verify (rawToken : String)
  | requestReset (body : Option EmailPayload)
  | reset (rawToken : String) (body : Option PasswordPayload)
  | requestEmailChange (authorization : String) (body : Option EmailPayload)
  | updateEmail (rawToken : String)
  | tokenCheck (authorization : String)
  | login (body : Option LoginPayload)
  | logout (authorization : String)
  | changePassword (authorization : String) (body : Option PasswordChangePayload)
  | profile (authorization : String)
  | updateProfile (authorization : String) (body : Option NamePayload)

/-- The routing of `routes.NewRouter`: the handler each request reaches. -/
def handle (L : Lib) (env : Env) (db : DB) : Request → Outcome
  | .register body => RegistrationHandler L env db body
  | .resendVerification body => ResendEmailVerificationHandler L env db body
  | .verify rawToken => EmailVerificationHandler L env db rawToken
  | .requestReset body => SendPasswordResetHandler L env db body
  | .reset rawToken body => PasswordResetHandler L env db rawToken body
  | .requestEmailChange authorization body => RequestEmailChangeHandler L env db authorization body
  | .updateEmail rawToken => UpdateEmail L env db rawToken
  | .tokenCheck authorization => TokenCheckHandler L env db authorization
  | .login body => LoginHandler L env db body
  | .logout authorization => LogoutHandler L env db authorization
  | .changePassword authorization body => PasswordChangeHandler L env db authorization body
  | .profile authorization => ProfileHandler L env db authorization
  | .updateProfile authorization body => UpdateProfileHandler L env db authorization body

/-- The store after a sequence of requests, each with its own environment. -/
def run (L : Lib) : DB → List (Env × Request) → DB
  | db, [] => db
  | db, (env, req) :: rest => run L (handle L env db req).db rest

/-- No request of the sequence, run from `db`, stores a token whose digest is
`h`: a handler records the token it stored in the notification it attempts. -/
def issuesNone (L : Lib) (h : Digest) : DB → List (Env × Request) → Prop
  | _, [] => True
  | db, (env, req) :: rest =>
    (∀ m, (handle L env db req).mail = some m → HashToken L m.rawToken ≠ h) ∧
    issuesNone L h (handle L env db req).db rest

/-- Where the rows of the purpose-token tables come from: after a request, a
row was there before, or it carries the digest of the token just issued. -/
def Provenance (L : Lib) (db : DB) (o : Outcome) : Prop :=
  (∀ x ∈ o.db.verification_tokens, x ∈ db.verification_tokens ∨
    ∃ m, o.mail = some m ∧ x.token_hash = HashToken L m.rawToken)
  ∧ (∀ x ∈ o.db.reset_tokens, x ∈ db.reset_tokens ∨
    ∃ m, o.mail = some m ∧ x.token_hash = HashToken L m.rawToken)
  ∧ (∀ x ∈ o.db.email_change_tokens, x ∈ db.email_change_tokens ∨
    ∃ m, o.mail = some m ∧ x.token_hash = HashToken L m.rawToken)

/-- At most one row per account id in each of the three purpose-token tables. -/
def OneRowPerAccount (db : DB) : Prop :=
  ∀ u : Int,
    (db.verification_tokens.map fun r => r.user_id).count u ≤ 1 ∧
    (db.reset_tokens.map fun r => r.user_id).count u ≤ 1 ∧
    (db.email_change_tokens.map fun r => r.user_id).count u ≤ 1

/-! ## Sample collaborators, for evaluating the handlers on concrete requests -/

/-- A library instance. The handlers only compare digests for equality, so a
stand-in serves for SHA-256: the digest of a string is the list of its first 32
character codes, padded with zeros (distinct for the short tokens used below).
Strings are taken already trimmed and in lower case, addresses are accepted
when they contain `@`, a password digest is the password itself, and the JSON
text of a string is the string between quotes. -/
def sampleLib : Lib where
  Sum256 := fun s =>
    ⟨(s.data.map Char.toNat ++ List.replicate 32 0).take 32, by simp [Size]⟩
  ToLower := fun s => s
  TrimSpace := fun s => s
  ParseAddress := fun s => s.data.contains '@'
  ComparePasswordAndHash := fun p h => some (decide (h = p))
  LOWER := fun s => s
  jsonString := fun s => "\"" ++ s ++ "\""

/-- An environment at instant `t` in which no collaborator fails and the token
generator returns `tok`. -/
def sampleEnv (t : Int) (tok : String) : Env where
  now := t
  dbErr := fun _ => false
  New := some tok
  NextID := some 1
  CreateHash := fun p => some p
  mailOk := true
  logErr := false

/-- A store with one session of account 7, for the raw token `tok`, created
and last used at instant 0. -/
def sessionDB : DB where
  sessions := [{ id := "1", user_id := 7, token_hash := HashToken sampleLib "tok",
                 created_at := 0, last_used_at := 0 }]

/-- The account of Ada: id 7, not yet verified. -/
def ada : User where
  id := 7
  name := "Ada"
  email := "ada@x.com"
  password_hash := "password1"
  email_verified := false

/-- A store with one unverified account, Ada (id 7), and one session of hers for
the raw token `tok`, last used at instant 0. -/
def adaDB : DB where
  users := [ada]
  sessions := [{ id := "1", user_id := 7, token_hash := HashToken sampleLib "tok",
                 created_at := 0, last_used_at := 0 }]

/-- The store `adaDB` in which Ada has a pending email-change token towards
`new1@x.com`, for the raw token `t1`, created at instant 0. -/
def adaChangeDB : DB :=
  { adaDB with
    email_change_tokens :=
      [{ user_id := 7, token_hash := HashToken sampleLib "t1", new_email := "new1@x.com",
         created_at := 0 }] }

/-- The store `adaDB` in which Ada has a pending reset token for the raw token
`t1`, created at instant 0. -/
def adaResetDB : DB :=
  { adaDB with
    reset_tokens := [{ user_id := 7, token_hash := HashToken sampleLib "t1", created_at := 0 }] }

/-- The account emails of the store are pairwise distinct ignoring case. -/
def EmailsUnique (L : Lib) (db : DB) : Prop :=
  db.users.Pairwise (fun u v => L.ToLower u.email ≠ L.ToLower v.email)

/-- The state invariant behind email uniqueness: every account email and every
pending email-change target is in lower case (the handlers store normalised
addresses only), account ids are pairwise distinct, and account emails are
pairwise distinct ignoring case. -/
def EmailInv (L : Lib) (db : DB) : Prop :=
  (∀ u ∈ db.users, L.ToLower u.email = u.email)
  ∧ (∀ r ∈ db.email_change_tokens, L.ToLower r.new_email = r.new_email)
  ∧ db.users.Pairwise (fun u v => u.id ≠ v.id)
  ∧ EmailsUnique L db

/-- The id generator of the request returns an id no account of the store has,
as Sonyflake ids are unique. -/
def freshId (env : Env) (db : DB) : Prop :=
  ∀ n, env.NextID = some n → ∀ u ∈ db.users, u.id ≠ Int.ofNat n

/-- Every registration of the sequence, run from `db`, is made with a fresh id. -/
def freshIds (L : Lib) : DB → List (Env × Request) → Prop
  | _, [] => True
  | db, (env, req) :: rest =>
    ((∃ body, req = Request.register body) → freshId env db) ∧
    freshIds L (handle L env db req).db rest

/-- A second account, Bob: id 8. -/
def bob : User where
  id := 8
  name := "Bob"
  email := "bob@x.com"
  password_hash := "password8"
  email_verified := true

/-- The store `adaChangeDB` (Ada has a pending email change towards `new1@x.com`
created at instant 0) with the account of Bob and a session of his for the raw
token `tokb`, last used at instant 0. -/
def adaBobDB : DB :=
  { adaChangeDB with
    users := [ada, bob]
    sessions :=
      [{ id := "1", user_id := 7, token_hash := HashToken sampleLib "tok",
         created_at := 0, last_used_at := 0 },
       { id := "2", user_id := 8, token_hash := HashToken sampleLib "tokb",
         created_at := 0, last_used_at := 0 }] }

/-- The library `sampleLib` with a comparison that fails on a malformed digest:
the digest `corrupt` is not a digest the comparison can decode. -/
def strictLib : Lib :=
  { sampleLib with
    ComparePasswordAndHash := fun p h => if h = "corrupt" then none else some (decide (h = p)) }

/-- The store `adaDB` in which Ada is verified and her stored digest is
malformed. -/
def adaCorruptDB : DB :=
  { adaDB with users := [{ ada with email_verified := true, password_hash := "corrupt" }] }

/-- The store contents apart from the audit log (table `errors`, written by
`logs.Err`). -/
def DB.contents (db : DB) : DB :=
  { db with errors := [] }

/-- The upper-case ASCII letters with their lower-case forms. -/
def asciiLower : List (Char × Char) :=
  [('A', 'a'), ('B', 'b'), ('C', 'c'), ('D', 'd'), ('E', 'e'), ('F', 'f'), ('G', 'g'),
   ('H', 'h'), ('I', 'i'), ('J', 'j'), ('K', 'k'), ('L', 'l'), ('M', 'm'), ('N', 'n'),
   ('O', 'o'), ('P', 'p'), ('Q', 'q'), ('R', 'r'), ('S', 's'), ('T', 't'), ('U', 'u'),
   ('V', 'v'), ('W', 'w'), ('X', 'x'), ('Y', 'y'), ('Z', 'z')]

/-- Lower case of a character, for ASCII letters. -/
def lowerChar (c : Char) : Char :=
  ((asciiLower.find? (fun p => p.1 == c)).map Prod.snd).getD c

/-- Lower case of a string, for ASCII letters. -/
def lowerString (s : String) : String :=
  String.mk (s.data.map lowerChar)

/-- A string without its leading and trailing blanks. -/
def trimBlanks (s : String) : String :=
  String.mk (((s.data.dropWhile (fun c => c == ' ')).reverse.dropWhile (fun c => c == ' ')).reverse)

/-- The library `sampleLib` with case folding and trimming that act on ASCII
text: `ToLower` and `LOWER` lower the letters `A` to `Z`, `TrimSpace` removes
leading and trailing blanks. -/
def lowerLib : Lib :=
  { sampleLib with ToLower := lowerString, TrimSpace := trimBlanks, LOWER := lowerString }

/-- A store whose one account holds an address that is not in lower case. -/
def adaUpperDB : DB where
  users := [{ ada with email := "Ada@x.com" }]

/-- A store with the accounts of Ada and Bob, both addresses in lower case, in
which Bob has a pending email-change token, for the raw token `t1`, whose target
is not in lower case. -/
def upperTargetDB : DB where
  users := [ada, bob]
  email_change_tokens :=
    [{ user_id := 8, token_hash := HashToken sampleLib "t1", new_email := "ADA@x.com",
       created_at := 0 }]

/-- A store in which two accounts with distinct addresses share the id 7, and a
pending email-change token of that id, for the raw token `t1`. -/
def sharedIdDB : DB where
  users := [ada, { ada with name := "Eve", email := "eve@x.com" }]
  email_change_tokens :=
    [{ user_id := 7, token_hash := HashToken sampleLib "t1", new_email := "new1@x.com",
       created_at := 0 }]

/-! # Properties -/

/-! ## Sessions -/

theorem sessionLive_iff (now : Int) (token : Digest) (r : Session) :
    sessionLive now token r = true ↔ r.token_hash = token ∧ now - r.last_used_at ≤ Week := by
  simp only [sessionLive, Bool.and_eq_true, decide_eq_true_eq]
  constructor
  · rintro ⟨h1, h2⟩; exact ⟨h1, by omega⟩
  · rintro ⟨h1, h2⟩; exact ⟨h1, by omega⟩

theorem Week_pos : 0 < Week := by decide

theorem GetId_of_find_some (L : Lib) (env : Env) (rawToken : String) (w : ResponseWriter)
    (db : DB) (r : Session) (hdb : env.dbErr 0 = false)
    (h : db.sessions.find? (sessionLive env.now (HashToken L rawToken)) = some r) :
    GetId L env rawToken w db
      = (some r.user_id, w,
          { db with sessions := touchSessions env.now (HashToken L rawToken) db.sessions }) := by
  simp [GetId, hdb, h]

theorem GetId_of_find_none (L : Lib) (env : Env) (rawToken : String) (w : ResponseWriter)
    (db : DB) (hdb : env.dbErr 0 = false)
    (h : db.sessions.find? (sessionLive env.now (HashToken L rawToken)) = none) :
    GetId L env rawToken w db = (none, w.WriteHeader 401, db) := by
  simp [GetId, hdb, h]

theorem touchSessions_eq_map (now : Int) (token : Digest) (rows : List Session) :
    touchSessions now token rows
      = rows.map (fun r =>
          if r.token_hash = token ∧ now - r.last_used_at ≤ Week then
            { r with last_used_at := now }
          else r) := by
  unfold touchSessions
  apply List.map_congr_left
  intro r _
  by_cases h : sessionLive now token r = true
  · rw [if_pos h, if_pos ((sessionLive_iff now token r).1 h)]
  · rw [if_neg h, if_neg (fun h2 => h ((sessionLive_iff now token r).2 h2))]

theorem freshAt_touch (token : Digest) (T : Int) (rows : List Session)
    (h : ∃ r ∈ rows, sessionLive T token r = true) :
    FreshAt token T (touchSessions T token rows) := by
  obtain ⟨r, hr, hl⟩ := h
  constructor
  · refine ⟨{ r with last_used_at := T }, ?_, ?_, rfl⟩
    · unfold touchSessions
      exact List.mem_map.2 ⟨r, hr, by rw [if_pos hl]⟩
    · exact ((sessionLive_iff T token r).1 hl).1
  · intro x hx htok
    unfold touchSessions at hx
    obtain ⟨y, _, hxy⟩ := List.mem_map.1 hx
    by_cases hy : sessionLive T token y = true
    · rw [if_pos hy] at hxy
      left; rw [← hxy]
    · rw [if_neg hy] at hxy
      subst hxy
      right
      have : ¬ (y.token_hash = token ∧ T - y.last_used_at ≤ Week) :=
        fun h2 => hy ((sessionLive_iff T token y).2 h2)
      by_contra hcon
      exact this ⟨htok, by omega⟩

theorem freshAt_live (token : Digest) (T t : Int) (rows : List Session)
    (h : FreshAt token T rows) (hgap : t - T < Week) :
    ∃ r ∈ rows, sessionLive t token r = true := by
  obtain ⟨⟨r, hr, htok, hlast⟩, _⟩ := h
  exact ⟨r, hr, (sessionLive_iff t token r).2 ⟨htok, by omega⟩⟩

theorem freshAt_lapsed (token : Digest) (T t : Int) (rows : List Session)
    (h : FreshAt token T rows) (hgap : Week < t - T) :
    rows.find? (sessionLive t token) = none := by
  rw [List.find?_eq_none]
  intro r hr hl
  have h2 := (sessionLive_iff t token r).1 hl
  have hW := Week_pos
  rcases h.2 r hr h2.1 with h3 | h3 <;> omega

theorem find_isSome_of_exists {α : Type} (p : α → Bool) (l : List α)
    (h : ∃ x ∈ l, p x = true) : ∃ y, l.find? p = some y ∧ y ∈ l ∧ p y = true := by
  cases hf : l.find? p with
  | none =>
    rw [List.find?_eq_none] at hf
    obtain ⟨x, hx, hp⟩ := h
    exact absurd hp (hf x hx)
  | some y => exact ⟨y, rfl, List.mem_of_find?_eq_some hf, List.find?_some hf⟩

theorem validations_succeed (L : Lib) (env : Env) (rawToken : String)
    (hdb : env.dbErr 0 = false) (ts : List Int) :
    ∀ (db : DB) (T : Int), FreshAt (HashToken L rawToken) T db.sessions →
      List.Chain (fun a b => b - a < Week) T ts →
      (∀ r ∈ (validations L env rawToken db ts).1, r ≠ none) ∧
      FreshAt (HashToken L rawToken) ((ts.getLast?).getD T)
        (validations L env rawToken db ts).2.sessions := by
  induction ts with
  | nil => intro db T h _; exact ⟨by simp [validations], by simpa [validations] using h⟩
  | cons t ts ih =>
    intro db T h hc
    rw [List.chain_cons] at hc
    obtain ⟨y, hy, hym, hyl⟩ := find_isSome_of_exists _ _
      (freshAt_live _ T t db.sessions h hc.1)
    have hg := GetId_of_find_some L (env.at t) rawToken {} db y hdb hy
    have hf : FreshAt (HashToken L rawToken) t
        (GetId L (env.at t) rawToken {} db).2.2.sessions := by
      rw [hg]; exact freshAt_touch _ t db.sessions ⟨y, hym, hyl⟩
    obtain ⟨ih1, ih2⟩ := ih _ t hf hc.2
    constructor
    · intro r hr
      simp only [validations, List.mem_cons] at hr
      rcases hr with hr | hr
      · rw [hr, hg]; simp
      · exact ih1 r hr
    · simp only [validations]
      cases hts : ts.getLast? with
      | none =>
        have : ts = [] := by simpa using hts
        subst this
        simpa [validations] using hf
      | some z =>
        rw [hts] at ih2
        have : (t :: ts).getLast? = some z := by
          rw [List.getLast?_cons]; simp [hts]
        rw [this]; simpa using ih2

/-- C1. Session validation `GetId`, when the store statement does not fail:
it succeeds iff some session row carries `HashToken rawToken` with
`now - last_used_at ≤ 7 days`; on success it returns the account id of such a
row, writes no status, and the store differs only in that the rows carrying
the digest within the window have `last_used_at = now`; otherwise it answers
401 and leaves the store unchanged. Consequently, after a successful
validation, validations at instants whose successive gaps are below 7 days all
succeed, and a validation more than 7 days (in particular 7 days + 1 second)
after the last of them answers 401 and changes nothing. -/
theorem GetId_sliding_window (L : Lib) (env : Env) (rawToken : String) (w : ResponseWriter)
    (db : DB) (hdb : env.dbErr 0 = false) :
    ((GetId L env rawToken w db).1 ≠ none ↔
      ∃ r ∈ db.sessions, r.token_hash = HashToken L rawToken ∧ env.now - r.last_used_at ≤ Week)
    ∧ (∀ uid, (GetId L env rawToken w db).1 = some uid →
        (∃ r ∈ db.sessions, r.token_hash = HashToken L rawToken
            ∧ env.now - r.last_used_at ≤ Week ∧ r.user_id = uid)
        ∧ (GetId L env rawToken w db).2.1 = w
        ∧ (GetId L env rawToken w db).2.2 =
            { db with sessions := db.sessions.map (fun r =>
                if r.token_hash = HashToken L rawToken ∧ env.now - r.last_used_at ≤ Week then
                  { r with last_used_at := env.now }
                else r) })
    ∧ ((GetId L env rawToken w db).1 = none →
        (GetId L env rawToken w db).2.1 = w.WriteHeader 401
        ∧ (w.status = none → (GetId L env rawToken w db).2.1.code = 401)
        ∧ (GetId L env rawToken w db).2.2 = db)
    ∧ (∀ uid, (GetId L env rawToken w db).1 = some uid →
        ∀ ts : List Int, List.Chain (fun a b => b - a < Week) env.now ts →
          (∀ r ∈ (validations L env rawToken (GetId L env rawToken w db).2.2 ts).1, r ≠ none)
          ∧ ∀ (t : Int) (w2 : ResponseWriter),
              (Week < t - (ts.getLast?).getD env.now
                ∨ t = (ts.getLast?).getD env.now + Week + Second) →
              GetId L (env.at t) rawToken w2
                  (validations L env rawToken (GetId L env rawToken w db).2.2 ts).2
                = (none, w2.WriteHeader 401,
                    (validations L env rawToken (GetId L env rawToken w db).2.2 ts).2)) := by
  cases hf : db.sessions.find? (sessionLive env.now (HashToken L rawToken)) with
  | none =>
    have hg := GetId_of_find_none L env rawToken w db hdb hf
    rw [hg]
    rw [List.find?_eq_none] at hf
    refine ⟨?_, ?_, ?_, ?_⟩
    · simp only [ne_eq, not_true_eq_false, false_iff]
      rintro ⟨r, hr, h1, h2⟩
      exact hf r hr ((sessionLive_iff _ _ r).2 ⟨h1, h2⟩)
    · intro uid h; simp at h
    · intro _
      refine ⟨rfl, ?_, rfl⟩
      intro hw
      simp [ResponseWriter.WriteHeader, ResponseWriter.code, hw]
    · intro uid h; simp at h
  | some y =>
    have hg := GetId_of_find_some L env rawToken w db y hdb hf
    have hym := List.mem_of_find?_eq_some hf
    have hyl := List.find?_some hf
    have hy := (sessionLive_iff _ _ y).1 hyl
    rw [hg]
    refine ⟨?_, ?_, ?_, ?_⟩
    · simp only [ne_eq, reduceCtorEq, not_false_eq_true, true_iff]
      exact ⟨y, hym, hy⟩
    · intro uid h
      simp only [Option.some.injEq] at h
      refine ⟨⟨y, hym, hy.1, hy.2, h⟩, rfl, ?_⟩
      simp only [touchSessions_eq_map]
    · intro h; simp at h
    · intro uid _ ts hc
      have hfresh : FreshAt (HashToken L rawToken) env.now
          ({ db with sessions := touchSessions env.now (HashToken L rawToken) db.sessions } : DB).sessions :=
        freshAt_touch _ env.now db.sessions ⟨y, hym, hyl⟩
      obtain ⟨h1, h2⟩ := validations_succeed L env rawToken hdb ts _ env.now hfresh hc
      refine ⟨h1, ?_⟩
      intro t w2 ht
      apply GetId_of_find_none L (env.at t) rawToken w2 _ hdb
      apply freshAt_lapsed _ _ t _ h2
      have hS : (0 : Int) < Second := by decide
      rcases ht with ht | ht
      · exact ht
      · omega

/-- C1, on a concrete store: one session last used at instant 0, validated at
day 3. -/
theorem GetId_sliding_window_witness :
    (sampleEnv (3 * Day) "").dbErr 0 = false ∧
    ((GetId sampleLib (sampleEnv (3 * Day) "") "tok" {} sessionDB).1 ≠ none ↔
      ∃ r ∈ sessionDB.sessions, r.token_hash = HashToken sampleLib "tok" ∧
          (sampleEnv (3 * Day) "").now - r.last_used_at ≤ Week) :=
  ⟨rfl, (GetId_sliding_window sampleLib (sampleEnv (3 * Day) "") "tok" {} sessionDB rfl).1⟩

/-! ## One row per account -/

@[simp] theorem Err_users (env : Env) (db : DB) (n m : String) (u : Int) :
    (Err env db n m u).users = db.users := by unfold Err; split <;> rfl
@[simp] theorem Err_sessions (env : Env) (db : DB) (n m : String) (u : Int) :
    (Err env db n m u).sessions = db.sessions := by unfold Err; split <;> rfl
@[simp] theorem Err_verification_tokens (env : Env) (db : DB) (n m : String) (u : Int) :
    (Err env db n m u).verification_tokens = db.verification_tokens := by unfold Err; split <;> rfl
@[simp] theorem Err_reset_tokens (env : Env) (db : DB) (n m : String) (u : Int) :
    (Err env db n m u).reset_tokens = db.reset_tokens := by unfold Err; split <;> rfl
@[simp] theorem Err_email_change_tokens (env : Env) (db : DB) (n m : String) (u : Int) :
    (Err env db n m u).email_change_tokens = db.email_change_tokens := by unfold Err; split <;> rfl

theorem oneRowPerAccount_iff (db : DB) :
    OneRowPerAccount db ↔
      (db.verification_tokens.map fun r => r.user_id).Nodup ∧
      (db.reset_tokens.map fun r => r.user_id).Nodup ∧
      (db.email_change_tokens.map fun r => r.user_id).Nodup := by
  simp only [OneRowPerAccount, List.nodup_iff_count_le_one]
  constructor
  · intro h; exact ⟨fun u => (h u).1, fun u => (h u).2.1, fun u => (h u).2.2⟩
  · intro h u; exact ⟨h.1 u, h.2.1 u, h.2.2 u⟩

theorem upsert_keys_nodup {α : Type} (key : α → Int) (userID : Int) (update : α → α) (new : α)
    (rows : List α) (hnew : key new = userID) (hupd : ∀ r, key (update r) = key r)
    (h : (rows.map key).Nodup) :
    ((upsert key userID update new rows).map key).Nodup := by
  unfold upsert
  split
  · have : (rows.map fun r => if key r = userID then update r else r).map key = rows.map key := by
      rw [List.map_map]
      apply List.map_congr_left
      intro r _
      simp only [Function.comp]
      split
      · exact hupd r
      · rfl
    rw [this]; exact h
  · rename_i hany
    rw [List.map_append, List.map_singleton, hnew]
    apply List.Nodup.append h (List.nodup_singleton _)
    intro x hx hx2
    rw [List.mem_singleton] at hx2
    subst hx2
    apply hany
    obtain ⟨r, hr, hk⟩ := List.mem_map.1 hx
    exact List.any_eq_true.2 ⟨r, hr, by simpa using hk⟩

theorem filter_keys_nodup {α : Type} (key : α → Int) (p : α → Bool) (rows : List α)
    (h : (rows.map key).Nodup) : ((rows.filter p).map key).Nodup :=
  List.Nodup.sublist (List.Sublist.map key (List.filter_sublist rows)) h

theorem EmailVerificationHandler_oneRow (L : Lib) (env : Env) (db : DB) (rawToken : String)
    (h : OneRowPerAccount db) : OneRowPerAccount (EmailVerificationHandler L env db rawToken).db := by
  rw [oneRowPerAccount_iff] at h ⊢
  unfold EmailVerificationHandler
  simp only []
  split
  · simpa using h
  · split
    · exact h
    · split
      · simp only [Err_verification_tokens, Err_reset_tokens, Err_email_change_tokens]
        exact ⟨filter_keys_nodup _ _ _ h.1, h.2⟩
      · exact ⟨filter_keys_nodup _ _ _ h.1, h.2⟩
theorem GetId_tables (L : Lib) (env : Env) (rawToken : String) (w w2 : ResponseWriter)
    (db db2 : DB) (r : Option Int) (h : GetId L env rawToken w db = (r, w2, db2)) :
    db2.users = db.users ∧ db2.verification_tokens = db.verification_tokens ∧
    db2.reset_tokens = db.reset_tokens ∧ db2.email_change_tokens = db.email_change_tokens ∧
    db2.errors = db.errors := by
  unfold GetId at h
  simp only [] at h
  split at h
  · simp only [Prod.mk.injEq] at h; obtain ⟨_, _, rfl⟩ := h; simp
  · split at h
    · simp only [Prod.mk.injEq] at h; obtain ⟨_, _, rfl⟩ := h; simp
    · simp only [Prod.mk.injEq] at h; obtain ⟨_, _, rfl⟩ := h; simp

theorem ResendEmailVerificationHandler_oneRow (L : Lib) (env : Env) (db : DB)
    (body : Option EmailPayload) (h : OneRowPerAccount db) :
    OneRowPerAccount (ResendEmailVerificationHandler L env db body).db := by
  rw [oneRowPerAccount_iff] at h ⊢
  unfold ResendEmailVerificationHandler
  simp only []
  repeat' split
  all_goals simp only [Err_verification_tokens, Err_reset_tokens, Err_email_change_tokens]
  all_goals first
    | exact h
    | exact ⟨upsert_keys_nodup _ _ _ _ _ rfl (fun _ => rfl) h.1, h.2⟩

theorem RegistrationHandler_oneRow (L : Lib) (env : Env) (db : DB)
    (body : Option RegistrationPayload) (h : OneRowPerAccount db) :
    OneRowPerAccount (RegistrationHandler L env db body).db := by
  rw [oneRowPerAccount_iff] at h ⊢
  unfold RegistrationHandler
  simp only []
  repeat' split
  all_goals simp only [Err_verification_tokens, Err_reset_tokens, Err_email_change_tokens]
  all_goals first
    | exact h
    | exact ⟨upsert_keys_nodup _ _ _ _ _ rfl (fun _ => rfl) h.1, h.2⟩

theorem SendPasswordResetHandler_oneRow (L : Lib) (env : Env) (db : DB)
    (body : Option EmailPayload) (h : OneRowPerAccount db) :
    OneRowPerAccount (SendPasswordResetHandler L env db body).db := by
  rw [oneRowPerAccount_iff] at h ⊢
  unfold SendPasswordResetHandler
  simp only []
  repeat' split
  all_goals simp only [Err_verification_tokens, Err_reset_tokens, Err_email_change_tokens]
  all_goals first
    | exact h
    | exact ⟨h.1, upsert_keys_nodup _ _ _ _ _ rfl (fun _ => rfl) h.2.1, h.2.2⟩

theorem PasswordResetHandler_oneRow (L : Lib) (env : Env) (db : DB) (rawToken : String)
    (body : Option PasswordPayload) (h : OneRowPerAccount db) :
    OneRowPerAccount (PasswordResetHandler L env db rawToken body).db := by
  rw [oneRowPerAccount_iff] at h ⊢
  unfold PasswordResetHandler
  simp only []
  repeat' split
  all_goals simp only [Err_verification_tokens, Err_reset_tokens, Err_email_change_tokens]
  all_goals first
    | exact h
    | exact ⟨h.1, filter_keys_nodup _ _ _ h.2.1, h.2.2⟩

theorem UpdateEmail_oneRow (L : Lib) (env : Env) (db : DB) (rawToken : String)
    (h : OneRowPerAccount db) :
    OneRowPerAccount (UpdateEmail L env db rawToken).db := by
  rw [oneRowPerAccount_iff] at h ⊢
  unfold UpdateEmail
  simp only []
  repeat' split
  all_goals simp only [Err_verification_tokens, Err_reset_tokens, Err_email_change_tokens]
  all_goals first
    | exact h
    | exact ⟨h.1, h.2.1, filter_keys_nodup _ _ _ h.2.2⟩

theorem TokenCheckHandler_oneRow (L : Lib) (env : Env) (db : DB) (authorization : String)
    (h : OneRowPerAccount db) :
    OneRowPerAccount (TokenCheckHandler L env db authorization).db := by
  rw [oneRowPerAccount_iff] at h ⊢
  unfold TokenCheckHandler
  simp only []
  repeat' split
  all_goals simp only [Err_verification_tokens, Err_reset_tokens, Err_email_change_tokens]
  all_goals exact h

theorem RequestEmailChangeHandler_oneRow (L : Lib) (env : Env) (db : DB)
    (authorization : String) (body : Option EmailPayload) (h : OneRowPerAccount db) :
    OneRowPerAccount (RequestEmailChangeHandler L env db authorization body).db := by
  rw [oneRowPerAccount_iff] at h ⊢
  unfold RequestEmailChangeHandler
  simp only []
  split
  · exact h
  · split
    all_goals rename_i hg
    all_goals obtain ⟨_, h1, h2, h3, _⟩ := GetId_tables _ _ _ _ _ _ _ _ hg
    all_goals rw [← h1, ← h2, ← h3] at h
    · exact h
    · repeat' split
      all_goals simp only [Err_verification_tokens, Err_reset_tokens, Err_email_change_tokens]
      all_goals first
        | exact h
        | exact ⟨h.1, h.2.1, upsert_keys_nodup _ _ _ _ _ rfl (fun _ => rfl) h.2.2⟩

theorem LoginHandler_tables (L : Lib) (env : Env) (db : DB) (body : Option LoginPayload) :
    (LoginHandler L env db body).db.users = db.users
    ∧ (LoginHandler L env db body).db.verification_tokens = db.verification_tokens
    ∧ (LoginHandler L env db body).db.reset_tokens = db.reset_tokens
    ∧ (LoginHandler L env db body).db.email_change_tokens = db.email_change_tokens
    ∧ (LoginHandler L env db body).mail = none := by
  have key : ∀ o, o = LoginHandler L env db body →
      o.db.users = db.users ∧ o.db.verification_tokens = db.verification_tokens
      ∧ o.db.reset_tokens = db.reset_tokens
      ∧ o.db.email_change_tokens = db.email_change_tokens ∧ o.mail = none := by
    unfold LoginHandler
    simp only []
    repeat' split
    all_goals intro o ho
    all_goals subst ho
    all_goals simp
  exact key _ rfl

theorem LogoutHandler_tables (L : Lib) (env : Env) (db : DB) (authorization : String) :
    (LogoutHandler L env db authorization).db.users = db.users
    ∧ (LogoutHandler L env db authorization).db.verification_tokens = db.verification_tokens
    ∧ (LogoutHandler L env db authorization).db.reset_tokens = db.reset_tokens
    ∧ (LogoutHandler L env db authorization).db.email_change_tokens = db.email_change_tokens
    ∧ (LogoutHandler L env db authorization).mail = none := by
  have key : ∀ o, o = LogoutHandler L env db authorization →
      o.db.users = db.users ∧ o.db.verification_tokens = db.verification_tokens
      ∧ o.db.reset_tokens = db.reset_tokens
      ∧ o.db.email_change_tokens = db.email_change_tokens ∧ o.mail = none := by
    unfold LogoutHandler
    simp only []
    by_cases ht : bearer authorization = ""
    · rw [if_pos ht]; intro o ho; subst ho; simp
    · rw [if_neg ht]
      repeat' split
      all_goals intro o ho
      all_goals subst ho
      all_goals simp
  exact key _ rfl

theorem PasswordChangeHandler_tables (L : Lib) (env : Env) (db : DB) (authorization : String)
    (body : Option PasswordChangePayload) :
    (PasswordChangeHandler L env db authorization body).db.verification_tokens
        = db.verification_tokens
    ∧ (PasswordChangeHandler L env db authorization body).db.reset_tokens = db.reset_tokens
    ∧ (PasswordChangeHandler L env db authorization body).db.email_change_tokens
        = db.email_change_tokens
    ∧ (PasswordChangeHandler L env db authorization body).mail = none := by
  have key : ∀ o, o = PasswordChangeHandler L env db authorization body →
      o.db.verification_tokens = db.verification_tokens
      ∧ o.db.reset_tokens = db.reset_tokens
      ∧ o.db.email_change_tokens = db.email_change_tokens ∧ o.mail = none := by
    unfold PasswordChangeHandler
    simp only []
    split
    all_goals rename_i hg
    all_goals obtain ⟨_, h1, h2, h3, _⟩ := GetId_tables _ _ _ _ _ _ _ _ hg
    · intro o ho; subst ho; exact ⟨h1, h2, h3, rfl⟩
    · repeat' split
      all_goals intro o ho
      all_goals subst ho
      all_goals simp [h1, h2, h3]
  exact key _ rfl

theorem ProfileHandler_tables (L : Lib) (env : Env) (db : DB) (authorization : String) :
    (ProfileHandler L env db authorization).db.users = db.users
    ∧ (ProfileHandler L env db authorization).db.verification_tokens = db.verification_tokens
    ∧ (ProfileHandler L env db authorization).db.reset_tokens = db.reset_tokens
    ∧ (ProfileHandler L env db authorization).db.email_change_tokens = db.email_change_tokens
    ∧ (ProfileHandler L env db authorization).mail = none := by
  have key : ∀ o, o = ProfileHandler L env db authorization →
      o.db.users = db.users ∧ o.db.verification_tokens = db.verification_tokens
      ∧ o.db.reset_tokens = db.reset_tokens
      ∧ o.db.email_change_tokens = db.email_change_tokens ∧ o.mail = none := by
    unfold ProfileHandler
    simp only []
    by_cases ht : bearer authorization = ""
    · rw [if_pos ht]; intro o ho; subst ho; simp
    · rw [if_neg ht]
      split
      all_goals rename_i hg
      all_goals obtain ⟨h0, h1, h2, h3, _⟩ := GetId_tables _ _ _ _ _ _ _ _ hg
      · intro o ho; subst ho; exact ⟨h0, h1, h2, h3, rfl⟩
      · repeat' split
        all_goals intro o ho
        all_goals subst ho
        all_goals simp [h0, h1, h2, h3]
  exact key _ rfl

theorem UpdateProfileHandler_tables (L : Lib) (env : Env) (db : DB) (authorization : String)
    (body : Option NamePayload) :
    (UpdateProfileHandler L env db authorization body).db.verification_tokens
        = db.verification_tokens
    ∧ (UpdateProfileHandler L env db authorization body).db.reset_tokens = db.reset_tokens
    ∧ (UpdateProfileHandler L env db authorization body).db.email_change_tokens
        = db.email_change_tokens
    ∧ (UpdateProfileHandler L env db authorization body).mail = none := by
  have key : ∀ o, o = UpdateProfileHandler L env db authorization body →
      o.db.verification_tokens = db.verification_tokens
      ∧ o.db.reset_tokens = db.reset_tokens
      ∧ o.db.email_change_tokens = db.email_change_tokens ∧ o.mail = none := by
    unfold UpdateProfileHandler
    simp only []
    by_cases ht : bearer authorization = ""
    · rw [if_pos ht]; intro o ho; subst ho; simp
    · rw [if_neg ht]
      split
      all_goals rename_i hg
      all_goals obtain ⟨_, h1, h2, h3, _⟩ := GetId_tables _ _ _ _ _ _ _ _ hg
      · intro o ho; subst ho; exact ⟨h1, h2, h3, rfl⟩
      · repeat' split
        all_goals intro o ho
        all_goals subst ho
        all_goals simp [h1, h2, h3]
  exact key _ rfl

theorem oneRow_of_tables (db db2 : DB) (h : OneRowPerAccount db)
    (h1 : db2.verification_tokens = db.verification_tokens)
    (h2 : db2.reset_tokens = db.reset_tokens)
    (h3 : db2.email_change_tokens = db.email_change_tokens) : OneRowPerAccount db2 := by
  unfold OneRowPerAccount at h ⊢
  rw [h1, h2, h3]; exact h

theorem handle_oneRow (L : Lib) (env : Env) (db : DB) (req : Request)
    (h : OneRowPerAccount db) : OneRowPerAccount (handle L env db req).db := by
  cases req with
  | register body => exact RegistrationHandler_oneRow L env db body h
  | resendVerification body => exact ResendEmailVerificationHandler_oneRow L env db body h
  | verify rawToken => exact EmailVerificationHandler_oneRow L env db rawToken h
  | requestReset body => exact SendPasswordResetHandler_oneRow L env db body h
  | reset rawToken body => exact PasswordResetHandler_oneRow L env db rawToken body h
  | requestEmailChange a body => exact RequestEmailChangeHandler_oneRow L env db a body h
  | updateEmail rawToken => exact UpdateEmail_oneRow L env db rawToken h
  | tokenCheck a => exact TokenCheckHandler_oneRow L env db a h
  | login body =>
    obtain ⟨_, h1, h2, h3, _⟩ := LoginHandler_tables L env db body
    exact oneRow_of_tables db _ h h1 h2 h3
  | logout a =>
    obtain ⟨_, h1, h2, h3, _⟩ := LogoutHandler_tables L env db a
    exact oneRow_of_tables db _ h h1 h2 h3
  | changePassword a body =>
    obtain ⟨h1, h2, h3, _⟩ := PasswordChangeHandler_tables L env db a body
    exact oneRow_of_tables db _ h h1 h2 h3
  | profile a =>
    obtain ⟨_, h1, h2, h3, _⟩ := ProfileHandler_tables L env db a
    exact oneRow_of_tables db _ h h1 h2 h3
  | updateProfile a body =>
    obtain ⟨h1, h2, h3, _⟩ := UpdateProfileHandler_tables L env db a body
    exact oneRow_of_tables db _ h h1 h2 h3

/-- C4. Reachable-state invariant: from a store in which each of the three
purpose-token tables holds at most one row per account id, every sequence of
requests to the handlers (register, resend-verification, verify,
request-reset, reset, request-email-change, update-email, token check) leads
to a store with the same property; issuance never leaves an account with a
second row. -/
theorem oneRowPerAccount_run (L : Lib) (reqs : List (Env × Request)) (db : DB)
    (h : OneRowPerAccount db) : OneRowPerAccount (run L db reqs) := by
  induction reqs generalizing db with
  | nil => exact h
  | cons r rest ih =>
    obtain ⟨env, req⟩ := r
    exact ih _ (handle_oneRow L env db req h)

/-- C4, from the empty store: a registration followed by a resent
verification one hour later. -/
theorem oneRowPerAccount_run_witness :
    OneRowPerAccount ({} : DB) ∧
    OneRowPerAccount (run sampleLib {}
      [(sampleEnv 0 "t1", .register (some ⟨"Ada", "ada@x.com", "password1"⟩)),
       (sampleEnv Hour "t2", .resendVerification (some ⟨"ada@x.com"⟩))]) :=
  ⟨fun _ => by simp, oneRowPerAccount_run sampleLib _ {} (fun _ => by simp)⟩

/-! ## Token check -/

/-- C2. The token-check endpoint does not look at `last_used_at`: with no store
failure it answers 204 exactly when some session row carries the digest. On the
store `sessionDB`, whose only session was last used 8 days before the
request, `TokenCheckHandler` answers 204 while `GetId` answers 401 for the same
token; on a store without that row it answers 401. -/
theorem TokenCheckHandler_accepts_expired_session :
    (∀ (L : Lib) (env : Env) (db : DB) (authorization : String), env.dbErr 0 = false →
      ((TokenCheckHandler L env db authorization).w.code = 204 ↔
        ∃ r ∈ db.sessions, r.token_hash = HashToken L (bearer authorization)))
    ∧ (∀ r ∈ sessionDB.sessions, r.token_hash = HashToken sampleLib (bearer "Bearer tok") ∧
        (sampleEnv (8 * Day) "").now - r.last_used_at > Week)
    ∧ (TokenCheckHandler sampleLib (sampleEnv (8 * Day) "") sessionDB "Bearer tok").w.code = 204
    ∧ (GetId sampleLib (sampleEnv (8 * Day) "") (bearer "Bearer tok") {} sessionDB).2.1.code = 401
    ∧ (TokenCheckHandler sampleLib (sampleEnv (8 * Day) "") {} "Bearer tok").w.code = 401 := by
  refine ⟨?_, by decide, by decide, by decide, by decide⟩
  intro L env db authorization hdb
  unfold TokenCheckHandler
  simp only [hdb]
  by_cases hex : (db.sessions.any fun r => decide (r.token_hash = HashToken L (bearer authorization))) = true
  · simp only [hex]
    simp only [List.any_eq_true, decide_eq_true_eq] at hex
    simpa [ResponseWriter.WriteHeader, ResponseWriter.code] using hex
  · simp only [hex]
    simp only [List.any_eq_true, decide_eq_true_eq] at hex
    simpa [ResponseWriter.WriteHeader, ResponseWriter.code] using hex

/-! ## Issuance and consumption of purpose tokens -/

theorem upsert_mem {α : Type} (key : α → Int) (userID : Int) (update : α → α) (new : α)
    (rows : List α) (x : α) (hx : x ∈ upsert key userID update new rows) :
    x = new ∨ (∃ r ∈ rows, key r = userID ∧ x = update r) ∨ (x ∈ rows ∧ key x ≠ userID) := by
  unfold upsert at hx
  split at hx
  · obtain ⟨r, hr, hxr⟩ := List.mem_map.1 hx
    by_cases hk : key r = userID
    · rw [if_pos hk] at hxr
      exact Or.inr (Or.inl ⟨r, hr, hk, hxr.symm⟩)
    · rw [if_neg hk] at hxr
      subst hxr
      exact Or.inr (Or.inr ⟨hr, hk⟩)
  · rename_i hany
    rcases List.mem_append.1 hx with h | h
    · refine Or.inr (Or.inr ⟨h, ?_⟩)
      intro hk
      exact hany (List.any_eq_true.2 ⟨x, h, by simpa using hk⟩)
    · exact Or.inl (List.mem_singleton.1 h)

theorem upsert_has {α : Type} (key : α → Int) (userID : Int) (update : α → α) (new : α)
    (rows : List α) :
    ∃ x ∈ upsert key userID update new rows, x = new ∨ ∃ r ∈ rows, key r = userID ∧ x = update r := by
  unfold upsert
  split
  · rename_i hany
    obtain ⟨r, hr, hk⟩ := List.any_eq_true.1 hany
    have hk2 : key r = userID := by simpa using hk
    exact ⟨update r, List.mem_map.2 ⟨r, hr, by rw [if_pos hk2]⟩, Or.inr ⟨r, hr, hk2, rfl⟩⟩
  · exact ⟨new, List.mem_append.2 (Or.inr (List.mem_singleton.2 rfl)), Or.inl rfl⟩

theorem mem_upsertVerificationToken (now userID : Int) (h : Digest)
    (rows : List VerificationToken) (x : VerificationToken)
    (hx : x ∈ upsertVerificationToken now userID h rows) :
    (x.user_id = userID ∧ x.token_hash = h ∧ x.created_at = now) ∨ (x ∈ rows ∧ x.user_id ≠ userID) := by
  rcases upsert_mem _ _ _ _ _ x hx with h1 | ⟨r, _, hk, h1⟩ | h1
  · subst h1; exact Or.inl ⟨rfl, rfl, rfl⟩
  · subst h1; exact Or.inl ⟨hk, rfl, rfl⟩
  · exact Or.inr h1

theorem exists_upsertVerificationToken (now userID : Int) (h : Digest)
    (rows : List VerificationToken) :
    ∃ x ∈ upsertVerificationToken now userID h rows,
      x.user_id = userID ∧ x.token_hash = h ∧ x.created_at = now := by
  obtain ⟨x, hx, h1 | ⟨r, _, hk, h1⟩⟩ := upsert_has (fun r : VerificationToken => r.user_id) userID
    (fun r => { r with token_hash := h, created_at := now })
    { user_id := userID, token_hash := h, created_at := defaultCreatedAt now } rows
  · subst h1; exact ⟨_, hx, rfl, rfl, rfl⟩
  · subst h1; exact ⟨_, hx, hk, rfl, rfl⟩

theorem mem_upsertResetToken (now userID : Int) (h : Digest)
    (rows : List ResetToken) (x : ResetToken)
    (hx : x ∈ upsertResetToken now userID h rows) :
    (x.user_id = userID ∧ x.token_hash = h ∧ x.created_at = now) ∨ (x ∈ rows ∧ x.user_id ≠ userID) := by
  rcases upsert_mem _ _ _ _ _ x hx with h1 | ⟨r, _, hk, h1⟩ | h1
  · subst h1; exact Or.inl ⟨rfl, rfl, rfl⟩
  · subst h1; exact Or.inl ⟨hk, rfl, rfl⟩
  · exact Or.inr h1

theorem exists_upsertResetToken (now userID : Int) (h : Digest) (rows : List ResetToken) :
    ∃ x ∈ upsertResetToken now userID h rows,
      x.user_id = userID ∧ x.token_hash = h ∧ x.created_at = now := by
  obtain ⟨x, hx, h1 | ⟨r, _, hk, h1⟩⟩ := upsert_has (fun r : ResetToken => r.user_id) userID
    (fun r => { r with token_hash := h, created_at := now })
    { user_id := userID, token_hash := h, created_at := defaultCreatedAt now } rows
  · subst h1; exact ⟨_, hx, rfl, rfl, rfl⟩
  · subst h1; exact ⟨_, hx, hk, rfl, rfl⟩

theorem mem_upsertEmailChangeToken (now userID : Int) (h : Digest) (email : String)
    (rows : List EmailChangeToken) (x : EmailChangeToken)
    (hx : x ∈ upsertEmailChangeToken now userID h email rows) :
    (x.user_id = userID ∧ x.token_hash = h ∧ x.new_email = email ∧ x.created_at = now)
      ∨ (x ∈ rows ∧ x.user_id ≠ userID) := by
  rcases upsert_mem _ _ _ _ _ x hx with h1 | ⟨r, _, hk, h1⟩ | h1
  · subst h1; exact Or.inl ⟨rfl, rfl, rfl, rfl⟩
  · subst h1; exact Or.inl ⟨hk, rfl, rfl, rfl⟩
  · exact Or.inr h1

theorem exists_upsertEmailChangeToken (now userID : Int) (h : Digest) (email : String)
    (rows : List EmailChangeToken) :
    ∃ x ∈ upsertEmailChangeToken now userID h email rows,
      x.user_id = userID ∧ x.token_hash = h ∧ x.new_email = email ∧ x.created_at = now := by
  obtain ⟨x, hx, h1 | ⟨r, _, hk, h1⟩⟩ := upsert_has (fun r : EmailChangeToken => r.user_id) userID
    (fun r => { r with token_hash := h, new_email := email, created_at := now })
    { user_id := userID, token_hash := h, new_email := email,
      created_at := defaultCreatedAt now } rows
  · subst h1; exact ⟨_, hx, rfl, rfl, rfl, rfl⟩
  · subst h1; exact ⟨_, hx, hk, rfl, rfl, rfl⟩

theorem SendPasswordResetHandler_issued (L : Lib) (env : Env) (db : DB)
    (body : Option EmailPayload) (m : Mail) :
    (SendPasswordResetHandler L env db body).mail = some m →
    ∃ u, db.users.find? (fun u => decide (u.email = m.address)) = some u ∧
      (SendPasswordResetHandler L env db body).db.reset_tokens
        = upsertResetToken env.now u.id (HashToken L m.rawToken) db.reset_tokens ∧
      (SendPasswordResetHandler L env db body).db.users = db.users ∧
      env.New = some m.rawToken := by
  unfold SendPasswordResetHandler
  simp only []
  repeat' split
  all_goals intro h
  all_goals first
    | (simp at h; done)
    | (simp only [Option.some.injEq] at h
       subst h
       first
        | exact ⟨_, by assumption, rfl, rfl, by assumption⟩
        | exact ⟨_, by assumption, by simp, by simp, by assumption⟩)

theorem ResendEmailVerificationHandler_issued (L : Lib) (env : Env) (db : DB)
    (body : Option EmailPayload) (m : Mail) :
    (ResendEmailVerificationHandler L env db body).mail = some m →
    ∃ u, db.users.find? (fun u => decide (u.email = m.address)) = some u ∧
      (ResendEmailVerificationHandler L env db body).db.verification_tokens
        = upsertVerificationToken env.now u.id (HashToken L m.rawToken) db.verification_tokens ∧
      (ResendEmailVerificationHandler L env db body).db.users = db.users ∧
      env.New = some m.rawToken := by
  unfold ResendEmailVerificationHandler
  simp only []
  repeat' split
  all_goals intro h
  all_goals first
    | (simp at h; done)
    | (simp only [Option.some.injEq] at h
       subst h
       first
        | exact ⟨_, by assumption, rfl, rfl, by assumption⟩
        | exact ⟨_, by assumption, by simp, by simp, by assumption⟩)

theorem RegistrationHandler_issued (L : Lib) (env : Env) (db : DB)
    (body : Option RegistrationPayload) (m : Mail) :
    (RegistrationHandler L env db body).mail = some m →
    ∃ id : Nat, env.NextID = some id ∧
      (∀ v ∈ db.users, v.email ≠ m.address) ∧
      (∃ u : User, (RegistrationHandler L env db body).db.users = db.users ++ [u] ∧
        u.id = Int.ofNat id ∧ u.email = m.address) ∧
      (RegistrationHandler L env db body).db.verification_tokens
        = upsertVerificationToken env.now (Int.ofNat id) (HashToken L m.rawToken)
            db.verification_tokens ∧
      env.New = some m.rawToken := by
  unfold RegistrationHandler
  simp only []
  repeat' split
  all_goals intro h
  all_goals first
    | (simp at h; done)
    | (simp only [Option.some.injEq] at h
       subst h
       simp only [Err_users, Err_verification_tokens]
       refine ⟨_, by assumption, ?_, ⟨_, rfl, rfl, rfl⟩, rfl, by assumption⟩
       intro v hv hve
       exact ‹¬(List.any db.users _) = true› (List.any_eq_true.2 ⟨v, hv, by simpa using hve⟩))
theorem RequestEmailChangeHandler_issued (L : Lib) (env : Env) (db : DB)
    (authorization : String) (body : Option EmailPayload) (m : Mail) :
    (RequestEmailChangeHandler L env db authorization body).mail = some m →
    ∃ userID : Int, (GetId L env (bearer authorization) {} db).1 = some userID ∧
      (RequestEmailChangeHandler L env db authorization body).db.email_change_tokens
        = upsertEmailChangeToken env.now userID (HashToken L m.rawToken) m.address
            db.email_change_tokens ∧
      (RequestEmailChangeHandler L env db authorization body).db.users = db.users ∧
      env.New = some m.rawToken := by
  unfold RequestEmailChangeHandler
  simp only []
  by_cases ht : bearer authorization = ""
  · rw [if_pos ht]; intro h; simp at h
  · rw [if_neg ht]
    split
    all_goals rename_i hg
    all_goals obtain ⟨h1, _, _, h4, _⟩ := GetId_tables _ _ _ _ _ _ _ _ hg
    · intro h; simp at h
    · rw [hg]
      repeat' split
      all_goals intro h
      all_goals first
        | (simp at h; done)
        | (simp only [Option.some.injEq] at h
           subst h
           refine ⟨_, rfl, ?_, ?_, by assumption⟩
           · simp only [Err_email_change_tokens, h4]
           · simp only [Err_users, h1])

theorem EmailVerificationHandler_notFound (L : Lib) (env : Env) (db : DB) (rawToken : String)
    (hdb : env.dbErr 0 = false)
    (h : ∀ r ∈ db.verification_tokens, r.token_hash ≠ HashToken L rawToken) :
    EmailVerificationHandler L env db rawToken = { w := { status := some 404 }, db := db } := by
  have hf : db.verification_tokens.find? (fun r => decide (r.token_hash = HashToken L rawToken))
      = none := by
    rw [List.find?_eq_none]; intro r hr; simpa using h r hr
  simp [EmailVerificationHandler, hdb, hf, ResponseWriter.WriteHeader]

theorem EmailVerificationHandler_found (L : Lib) (env : Env) (db : DB) (rawToken : String)
    (hdb0 : env.dbErr 0 = false) (hdb1 : env.dbErr 1 = false)
    (h : ∃ r ∈ db.verification_tokens, r.token_hash = HashToken L rawToken) :
    ∃ row, db.verification_tokens.find? (fun r => decide (r.token_hash = HashToken L rawToken))
        = some row ∧
      EmailVerificationHandler L env db rawToken =
        { w := { status := some 204 },
          db := { db with
            verification_tokens := db.verification_tokens.filter
              (fun r => !decide (r.token_hash = HashToken L rawToken)),
            users := db.users.map
              (fun u => if u.id = row.user_id then { u with email_verified := true } else u) } } := by
  obtain ⟨r, hr, hh⟩ := h
  obtain ⟨y, hy, _, _⟩ := find_isSome_of_exists
    (fun r : VerificationToken => decide (r.token_hash = HashToken L rawToken))
    db.verification_tokens ⟨r, hr, by simpa using hh⟩
  exact ⟨y, hy, by simp [EmailVerificationHandler, hdb0, hdb1, hy, ResponseWriter.WriteHeader]⟩

theorem PasswordResetHandler_notFound (L : Lib) (env : Env) (db : DB) (rawToken : String)
    (p : PasswordPayload) (hlen : 8 ≤ len p.Password) (hdb : env.dbErr 0 = false)
    (h : ∀ r ∈ db.reset_tokens, r.token_hash = HashToken L rawToken → Day < env.now - r.created_at) :
    PasswordResetHandler L env db rawToken (some p) = { w := { status := some 404 }, db := db } := by
  have hf : db.reset_tokens.find? (fun r =>
      decide (r.token_hash = HashToken L rawToken) && decide (r.created_at ≥ env.now - Day)) = none := by
    rw [List.find?_eq_none]
    intro r hr
    simp only [Bool.and_eq_true, decide_eq_true_eq, not_and]
    intro h1
    have := h r hr h1
    omega
  have hl : ¬ len p.Password < 8 := by omega
  simp only [PasswordResetHandler, hdb, hf, hl, ResponseWriter.WriteHeader, decide_False,
    Bool.false_eq_true, if_false]

theorem PasswordResetHandler_found (L : Lib) (env : Env) (db : DB) (rawToken : String)
    (p : PasswordPayload) (hash : String) (hlen : 8 ≤ len p.Password)
    (hdb : ∀ k, env.dbErr k = false) (hh : env.CreateHash p.Password = some hash)
    (h : ∃ r ∈ db.reset_tokens, r.token_hash = HashToken L rawToken ∧ env.now - r.created_at ≤ Day) :
    ∃ row, db.reset_tokens.find? (fun r =>
        decide (r.token_hash = HashToken L rawToken) && decide (r.created_at ≥ env.now - Day))
          = some row ∧
      PasswordResetHandler L env db rawToken (some p) =
        { w := { status := some 204 },
          db := { db with
            users := db.users.map
              (fun u => if u.id = row.user_id then { u with password_hash := hash } else u),
            reset_tokens := db.reset_tokens.filter (fun r => !decide (r.user_id = row.user_id)),
            sessions := db.sessions.filter (fun r => !decide (r.user_id = row.user_id)) } } := by
  obtain ⟨r, hr, h1, h2⟩ := h
  obtain ⟨y, hy, _, _⟩ := find_isSome_of_exists
    (fun r : ResetToken =>
      decide (r.token_hash = HashToken L rawToken) && decide (r.created_at ≥ env.now - Day))
    db.reset_tokens ⟨r, hr, by simp only [Bool.and_eq_true, decide_eq_true_eq]; exact ⟨h1, by omega⟩⟩
  have hl : ¬ len p.Password < 8 := by omega
  exact ⟨y, hy, by
    simp only [PasswordResetHandler, hdb, hy, hl, hh, ResponseWriter.WriteHeader, decide_False,
      Bool.false_eq_true, if_false]⟩

theorem UpdateEmail_notFound (L : Lib) (env : Env) (db : DB) (rawToken : String)
    (hdb : env.dbErr 0 = false)
    (h : ∀ r ∈ db.email_change_tokens, r.token_hash ≠ HashToken L rawToken) :
    UpdateEmail L env db rawToken = { w := { status := some 404 }, db := db } := by
  have hf : db.email_change_tokens.find? (fun r => decide (r.token_hash = HashToken L rawToken))
      = none := by
    rw [List.find?_eq_none]; intro r hr; simpa using h r hr
  simp [UpdateEmail, hdb, hf, ResponseWriter.WriteHeader]

theorem UpdateEmail_of_find (L : Lib) (env : Env) (db : DB) (rawToken : String)
    (row : EmailChangeToken) (hdb : ∀ k, env.dbErr k = false)
    (hf : db.email_change_tokens.find? (fun r => decide (r.token_hash = HashToken L rawToken))
      = some row) :
    UpdateEmail L env db rawToken =
      if env.now - row.created_at > 24 * Hour then
        { w := { status := some 410 },
          db := { db with
            email_change_tokens :=
              db.email_change_tokens.filter (fun r => !decide (r.token_hash = HashToken L rawToken)) } }
      else if db.users.any (fun u => decide (u.email = row.new_email)) then
        { w := { status := some 409 },
          db := { db with
            email_change_tokens :=
              db.email_change_tokens.filter (fun r => !decide (r.token_hash = HashToken L rawToken)) } }
      else
        { w := { status := some 204 },
          db := { db with
            email_change_tokens :=
              db.email_change_tokens.filter (fun r => !decide (r.token_hash = HashToken L rawToken)),
            users := db.users.map
              (fun u => if u.id = row.user_id then { u with email := row.new_email } else u) } } := by
  simp only [UpdateEmail, hdb, hf, ResponseWriter.WriteHeader, Bool.false_eq_true, if_false]
/-! ## Where token rows come from -/

theorem EmailVerificationHandler_provenance (L : Lib) (env : Env) (db : DB) (rawToken : String) :
    Provenance L db (EmailVerificationHandler L env db rawToken) := by
  unfold EmailVerificationHandler
  simp only []
  repeat' split
  all_goals unfold Provenance
  all_goals simp only [Err_verification_tokens, Err_reset_tokens, Err_email_change_tokens]
  all_goals refine ⟨?_, ?_, ?_⟩
  all_goals intro x hx
  all_goals first
    | exact Or.inl hx
    | exact Or.inl (List.mem_of_mem_filter hx)

theorem PasswordResetHandler_provenance (L : Lib) (env : Env) (db : DB) (rawToken : String)
    (body : Option PasswordPayload) :
    Provenance L db (PasswordResetHandler L env db rawToken body) := by
  unfold PasswordResetHandler
  simp only []
  repeat' split
  all_goals unfold Provenance
  all_goals simp only [Err_verification_tokens, Err_reset_tokens, Err_email_change_tokens]
  all_goals refine ⟨?_, ?_, ?_⟩
  all_goals intro x hx
  all_goals first
    | exact Or.inl hx
    | exact Or.inl (List.mem_of_mem_filter hx)

theorem UpdateEmail_provenance (L : Lib) (env : Env) (db : DB) (rawToken : String) :
    Provenance L db (UpdateEmail L env db rawToken) := by
  unfold UpdateEmail
  simp only []
  repeat' split
  all_goals unfold Provenance
  all_goals simp only [Err_verification_tokens, Err_reset_tokens, Err_email_change_tokens]
  all_goals refine ⟨?_, ?_, ?_⟩
  all_goals intro x hx
  all_goals first
    | exact Or.inl hx
    | exact Or.inl (List.mem_of_mem_filter hx)

theorem TokenCheckHandler_provenance (L : Lib) (env : Env) (db : DB) (authorization : String) :
    Provenance L db (TokenCheckHandler L env db authorization) := by
  unfold TokenCheckHandler
  simp only []
  repeat' split
  all_goals unfold Provenance
  all_goals simp only [Err_verification_tokens, Err_reset_tokens, Err_email_change_tokens]
  all_goals refine ⟨?_, ?_, ?_⟩
  all_goals intro x hx
  all_goals exact Or.inl hx

theorem RegistrationHandler_provenance (L : Lib) (env : Env) (db : DB)
    (body : Option RegistrationPayload) :
    Provenance L db (RegistrationHandler L env db body) := by
  unfold RegistrationHandler
  simp only []
  repeat' split
  all_goals unfold Provenance
  all_goals simp only [Err_verification_tokens, Err_reset_tokens, Err_email_change_tokens]
  all_goals refine ⟨?_, ?_, ?_⟩
  all_goals intro x hx
  all_goals first
    | exact Or.inl hx
    | (rcases mem_upsertVerificationToken _ _ _ _ x hx with ⟨_, h, _⟩ | ⟨h, _⟩
       · exact Or.inr ⟨_, rfl, h⟩
       · exact Or.inl h)

theorem ResendEmailVerificationHandler_provenance (L : Lib) (env : Env) (db : DB)
    (body : Option EmailPayload) :
    Provenance L db (ResendEmailVerificationHandler L env db body) := by
  unfold ResendEmailVerificationHandler
  simp only []
  repeat' split
  all_goals unfold Provenance
  all_goals simp only [Err_verification_tokens, Err_reset_tokens, Err_email_change_tokens]
  all_goals refine ⟨?_, ?_, ?_⟩
  all_goals intro x hx
  all_goals first
    | exact Or.inl hx
    | (rcases mem_upsertVerificationToken _ _ _ _ x hx with ⟨_, h, _⟩ | ⟨h, _⟩
       · exact Or.inr ⟨_, rfl, h⟩
       · exact Or.inl h)

theorem SendPasswordResetHandler_provenance (L : Lib) (env : Env) (db : DB)
    (body : Option EmailPayload) :
    Provenance L db (SendPasswordResetHandler L env db body) := by
  unfold SendPasswordResetHandler
  simp only []
  repeat' split
  all_goals unfold Provenance
  all_goals simp only [Err_verification_tokens, Err_reset_tokens, Err_email_change_tokens]
  all_goals refine ⟨?_, ?_, ?_⟩
  all_goals intro x hx
  all_goals first
    | exact Or.inl hx
    | (rcases mem_upsertResetToken _ _ _ _ x hx with ⟨_, h, _⟩ | ⟨h, _⟩
       · exact Or.inr ⟨_, rfl, h⟩
       · exact Or.inl h)

theorem RequestEmailChangeHandler_provenance (L : Lib) (env : Env) (db : DB)
    (authorization : String) (body : Option EmailPayload) :
    Provenance L db (RequestEmailChangeHandler L env db authorization body) := by
  unfold RequestEmailChangeHandler
  simp only []
  by_cases ht : bearer authorization = ""
  · rw [if_pos ht]
    exact ⟨fun x hx => Or.inl hx, fun x hx => Or.inl hx, fun x hx => Or.inl hx⟩
  · rw [if_neg ht]
    split
    all_goals rename_i hg
    all_goals obtain ⟨_, h1, h2, h3, _⟩ := GetId_tables _ _ _ _ _ _ _ _ hg
    · unfold Provenance
      rw [h1, h2, h3]
      exact ⟨fun x hx => Or.inl hx, fun x hx => Or.inl hx, fun x hx => Or.inl hx⟩
    · repeat' split
      all_goals unfold Provenance
      all_goals simp only [Err_verification_tokens, Err_reset_tokens, Err_email_change_tokens,
        h1, h2, h3]
      all_goals refine ⟨?_, ?_, ?_⟩
      all_goals intro x hx
      all_goals first
        | exact Or.inl hx
        | (rcases mem_upsertEmailChangeToken _ _ _ _ _ x hx with ⟨_, h, _⟩ | ⟨h, _⟩
           · exact Or.inr ⟨_, rfl, h⟩
           · exact Or.inl h)

theorem provenance_of_tables (L : Lib) (db : DB) (o : Outcome)
    (h1 : o.db.verification_tokens = db.verification_tokens)
    (h2 : o.db.reset_tokens = db.reset_tokens)
    (h3 : o.db.email_change_tokens = db.email_change_tokens) : Provenance L db o := by
  unfold Provenance
  rw [h1, h2, h3]
  exact ⟨fun x hx => Or.inl hx, fun x hx => Or.inl hx, fun x hx => Or.inl hx⟩

theorem handle_provenance (L : Lib) (env : Env) (db : DB) (req : Request) :
    Provenance L db (handle L env db req) := by
  cases req with
  | register body => exact RegistrationHandler_provenance L env db body
  | resendVerification body => exact ResendEmailVerificationHandler_provenance L env db body
  | verify rawToken => exact EmailVerificationHandler_provenance L env db rawToken
  | requestReset body => exact SendPasswordResetHandler_provenance L env db body
  | reset rawToken body => exact PasswordResetHandler_provenance L env db rawToken body
  | requestEmailChange a body => exact RequestEmailChangeHandler_provenance L env db a body
  | updateEmail rawToken => exact UpdateEmail_provenance L env db rawToken
  | tokenCheck a => exact TokenCheckHandler_provenance L env db a
  | login body =>
    obtain ⟨_, h1, h2, h3, _⟩ := LoginHandler_tables L env db body
    exact provenance_of_tables L db _ h1 h2 h3
  | logout a =>
    obtain ⟨_, h1, h2, h3, _⟩ := LogoutHandler_tables L env db a
    exact provenance_of_tables L db _ h1 h2 h3
  | changePassword a body =>
    obtain ⟨h1, h2, h3, _⟩ := PasswordChangeHandler_tables L env db a body
    exact provenance_of_tables L db _ h1 h2 h3
  | profile a =>
    obtain ⟨_, h1, h2, h3, _⟩ := ProfileHandler_tables L env db a
    exact provenance_of_tables L db _ h1 h2 h3
  | updateProfile a body =>
    obtain ⟨h1, h2, h3, _⟩ := UpdateProfileHandler_tables L env db a body
    exact provenance_of_tables L db _ h1 h2 h3

theorem run_absent (L : Lib) (h : Digest) (reqs : List (Env × Request)) :
    ∀ db : DB, issuesNone L h db reqs →
      ((∀ r ∈ db.verification_tokens, r.token_hash ≠ h) →
        ∀ r ∈ (run L db reqs).verification_tokens, r.token_hash ≠ h)
      ∧ ((∀ r ∈ db.reset_tokens, r.token_hash ≠ h) →
        ∀ r ∈ (run L db reqs).reset_tokens, r.token_hash ≠ h)
      ∧ ((∀ r ∈ db.email_change_tokens, r.token_hash ≠ h) →
        ∀ r ∈ (run L db reqs).email_change_tokens, r.token_hash ≠ h) := by
  induction reqs with
  | nil => intro db _; exact ⟨fun h => h, fun h => h, fun h => h⟩
  | cons r rest ih =>
    intro db hno
    obtain ⟨env, req⟩ := r
    obtain ⟨hm, hrest⟩ := hno
    obtain ⟨p1, p2, p3⟩ := handle_provenance L env db req
    obtain ⟨i1, i2, i3⟩ := ih _ hrest
    refine ⟨fun h0 => i1 ?_, fun h0 => i2 ?_, fun h0 => i3 ?_⟩
    · intro x hx
      rcases p1 x hx with hx0 | ⟨m, hmail, hd⟩
      · exact h0 x hx0
      · rw [hd]; exact hm m hmail
    · intro x hx
      rcases p2 x hx with hx0 | ⟨m, hmail, hd⟩
      · exact h0 x hx0
      · rw [hd]; exact hm m hmail
    · intro x hx
      rcases p3 x hx with hx0 | ⟨m, hmail, hd⟩
      · exact h0 x hx0
      · rw [hd]; exact hm m hmail

theorem EmailVerificationHandler_of_204 (L : Lib) (env : Env) (db : DB) (rawToken : String) :
    ∀ o, o = EmailVerificationHandler L env db rawToken → o.w.code = 204 →
    o.db.verification_tokens
      = db.verification_tokens.filter (fun r => !decide (r.token_hash = HashToken L rawToken)) := by
  unfold EmailVerificationHandler
  simp only []
  repeat' split
  all_goals intro o ho h
  all_goals subst ho
  all_goals first
    | rfl
    | (simp [ResponseWriter.WriteHeader, ResponseWriter.code] at h)

theorem UpdateEmail_of_204 (L : Lib) (env : Env) (db : DB) (rawToken : String) :
    ∀ o, o = UpdateEmail L env db rawToken → o.w.code = 204 →
    o.db.email_change_tokens
      = db.email_change_tokens.filter (fun r => !decide (r.token_hash = HashToken L rawToken)) := by
  unfold UpdateEmail
  simp only []
  repeat' split
  all_goals intro o ho h
  all_goals subst ho
  all_goals first
    | rfl
    | (simp [ResponseWriter.WriteHeader, ResponseWriter.code] at h)

theorem PasswordResetHandler_of_204 (L : Lib) (env : Env) (db : DB) (rawToken : String)
    (body : Option PasswordPayload) :
    ∀ o, o = PasswordResetHandler L env db rawToken body → o.w.code = 204 →
    ∃ row ∈ db.reset_tokens, row.token_hash = HashToken L rawToken ∧
      o.db.reset_tokens = db.reset_tokens.filter (fun r => !decide (r.user_id = row.user_id)) := by
  unfold PasswordResetHandler
  simp only []
  repeat' split
  all_goals intro o ho h
  all_goals subst ho
  all_goals first
    | (have hf := ‹List.find? _ db.reset_tokens = some _›
       have h1 := List.find?_some hf
       simp only [Bool.and_eq_true, decide_eq_true_eq] at h1
       exact ⟨_, List.mem_of_find?_eq_some hf, h1.1, rfl⟩)
    | (simp [ResponseWriter.WriteHeader, ResponseWriter.code] at h)
theorem twice_upsertVerificationToken (rows : List VerificationToken) (now1 now2 u : Int)
    (h1 h2 : Digest) (hne : h1 ≠ h2) (hfresh : ∀ r ∈ rows, r.token_hash ≠ h1) :
    ∀ x ∈ upsertVerificationToken now2 u h2 (upsertVerificationToken now1 u h1 rows),
      x.token_hash ≠ h1 := by
  intro x hx
  rcases mem_upsertVerificationToken _ _ _ _ x hx with ⟨_, h, _⟩ | ⟨hx1, hu⟩
  · rw [h]; exact fun e => hne e.symm
  · rcases mem_upsertVerificationToken _ _ _ _ x hx1 with ⟨h, _, _⟩ | ⟨hx0, _⟩
    · exact absurd h hu
    · exact hfresh x hx0

theorem twice_upsertResetToken (rows : List ResetToken) (now1 now2 u : Int)
    (h1 h2 : Digest) (hne : h1 ≠ h2) (hfresh : ∀ r ∈ rows, r.token_hash ≠ h1) :
    ∀ x ∈ upsertResetToken now2 u h2 (upsertResetToken now1 u h1 rows), x.token_hash ≠ h1 := by
  intro x hx
  rcases mem_upsertResetToken _ _ _ _ x hx with ⟨_, h, _⟩ | ⟨hx1, hu⟩
  · rw [h]; exact fun e => hne e.symm
  · rcases mem_upsertResetToken _ _ _ _ x hx1 with ⟨h, _, _⟩ | ⟨hx0, _⟩
    · exact absurd h hu
    · exact hfresh x hx0

theorem twice_upsertEmailChangeToken (rows : List EmailChangeToken) (now1 now2 u : Int)
    (h1 h2 : Digest) (e1 e2 : String) (hne : h1 ≠ h2) (hfresh : ∀ r ∈ rows, r.token_hash ≠ h1) :
    ∀ x ∈ upsertEmailChangeToken now2 u h2 e2 (upsertEmailChangeToken now1 u h1 e1 rows),
      x.token_hash ≠ h1 := by
  intro x hx
  rcases mem_upsertEmailChangeToken _ _ _ _ _ x hx with ⟨_, h, _⟩ | ⟨hx1, hu⟩
  · rw [h]; exact fun e => hne e.symm
  · rcases mem_upsertEmailChangeToken _ _ _ _ _ x hx1 with ⟨h, _, _⟩ | ⟨hx0, _⟩
    · exact absurd h hu
    · exact hfresh x hx0

theorem find_append_new (users : List User) (u : User) (address : String)
    (hno : ∀ v ∈ users, v.email ≠ address) (hu : u.email = address) :
    (users ++ [u]).find? (fun v => decide (v.email = address)) = some u := by
  have hnone : users.find? (fun v => decide (v.email = address)) = none := by
    rw [List.find?_eq_none]; intro v hv; simpa using hno v hv
  rw [List.find?_append, hnone]
  simp [hu]

/-- C3. Single active token, for each purpose. When two issuances for the same
account both store a token, with raw tokens `t1` then `t2` of different
digests, `t1` being fresh when issued (no row of the table carries its
digest), then after the second issuance, and after any further requests none
of which stores a token with the digest of `t1`, a consumption attempt with
`t1` answers 404 and leaves the whole store unchanged; right after the second
issuance, consuming `t2` answers 204. The issuances are two resends, or a
registration and a resend (verify-email), two reset requests (reset-password),
two email-change requests of one authenticated account (change-email). -/
theorem single_active_token (L : Lib) (env1 env2 env3 : Env) (db : DB) (m1 m2 : Mail)
    (hne : HashToken L m1.rawToken ≠ HashToken L m2.rawToken)
    (hdb : ∀ k, env3.dbErr k = false) :
    (∀ (body1 body2 : Option EmailPayload) (db1 db2 : DB),
      db1 = (ResendEmailVerificationHandler L env1 db body1).db →
      db2 = (ResendEmailVerificationHandler L env2 db1 body2).db →
      (ResendEmailVerificationHandler L env1 db body1).mail = some m1 →
      (ResendEmailVerificationHandler L env2 db1 body2).mail = some m2 →
      m1.address = m2.address →
      (∀ r ∈ db.verification_tokens, r.token_hash ≠ HashToken L m1.rawToken) →
      (∀ reqs : List (Env × Request), issuesNone L (HashToken L m1.rawToken) db2 reqs →
        EmailVerificationHandler L env3 (run L db2 reqs) m1.rawToken
          = { w := { status := some 404 }, db := run L db2 reqs })
      ∧ (EmailVerificationHandler L env3 db2 m2.rawToken).w.code = 204)
    ∧ (∀ (body1 : Option RegistrationPayload) (body2 : Option EmailPayload) (db1 db2 : DB),
      db1 = (RegistrationHandler L env1 db body1).db →
      db2 = (ResendEmailVerificationHandler L env2 db1 body2).db →
      (RegistrationHandler L env1 db body1).mail = some m1 →
      (ResendEmailVerificationHandler L env2 db1 body2).mail = some m2 →
      m1.address = m2.address →
      (∀ r ∈ db.verification_tokens, r.token_hash ≠ HashToken L m1.rawToken) →
      (∀ reqs : List (Env × Request), issuesNone L (HashToken L m1.rawToken) db2 reqs →
        EmailVerificationHandler L env3 (run L db2 reqs) m1.rawToken
          = { w := { status := some 404 }, db := run L db2 reqs })
      ∧ (EmailVerificationHandler L env3 db2 m2.rawToken).w.code = 204)
    ∧ (∀ (body1 body2 : Option EmailPayload) (db1 db2 : DB) (p : PasswordPayload),
      db1 = (SendPasswordResetHandler L env1 db body1).db →
      db2 = (SendPasswordResetHandler L env2 db1 body2).db →
      (SendPasswordResetHandler L env1 db body1).mail = some m1 →
      (SendPasswordResetHandler L env2 db1 body2).mail = some m2 →
      m1.address = m2.address →
      (∀ r ∈ db.reset_tokens, r.token_hash ≠ HashToken L m1.rawToken) →
      8 ≤ len p.Password →
      (∀ reqs : List (Env × Request), issuesNone L (HashToken L m1.rawToken) db2 reqs →
        PasswordResetHandler L env3 (run L db2 reqs) m1.rawToken (some p)
          = { w := { status := some 404 }, db := run L db2 reqs })
      ∧ (env3.now - env2.now ≤ Day → env3.CreateHash p.Password ≠ none →
          (PasswordResetHandler L env3 db2 m2.rawToken (some p)).w.code = 204))
    ∧ (∀ (a1 a2 : String) (body1 body2 : Option EmailPayload) (db1 db2 : DB),
      db1 = (RequestEmailChangeHandler L env1 db a1 body1).db →
      db2 = (RequestEmailChangeHandler L env2 db1 a2 body2).db →
      (RequestEmailChangeHandler L env1 db a1 body1).mail = some m1 →
      (RequestEmailChangeHandler L env2 db1 a2 body2).mail = some m2 →
      (GetId L env1 (bearer a1) {} db).1 = (GetId L env2 (bearer a2) {} db1).1 →
      (∀ r ∈ db.email_change_tokens, r.token_hash ≠ HashToken L m1.rawToken) →
      (∀ reqs : List (Env × Request), issuesNone L (HashToken L m1.rawToken) db2 reqs →
        UpdateEmail L env3 (run L db2 reqs) m1.rawToken
          = { w := { status := some 404 }, db := run L db2 reqs })
      ∧ ((∀ r ∈ db.email_change_tokens, r.token_hash ≠ HashToken L m2.rawToken) →
          env3.now - env2.now ≤ 24 * Hour →
          (∀ u ∈ db2.users, u.email ≠ m2.address) →
          (UpdateEmail L env3 db2 m2.rawToken).w.code = 204)) := by
  refine ⟨?_, ?_, ?_, ?_⟩
  · intro body1 body2 db1 db2 e1 e2 hm1 hm2 haddr hfresh
    obtain ⟨u1, hu1, ht1, hus1, _⟩ := ResendEmailVerificationHandler_issued L env1 db body1 m1 hm1
    obtain ⟨u2, hu2, ht2, _, _⟩ := ResendEmailVerificationHandler_issued L env2 db1 body2 m2 hm2
    rw [← e1] at ht1 hus1
    rw [← e2] at ht2
    rw [hus1, ← haddr, hu1] at hu2
    obtain rfl : u1 = u2 := by simpa using hu2
    rw [ht1] at ht2
    constructor
    · intro reqs hno
      apply EmailVerificationHandler_notFound L env3 _ _ (hdb 0)
      apply (run_absent L _ reqs db2 hno).1
      rw [ht2]
      exact twice_upsertVerificationToken _ _ _ _ _ _ hne hfresh
    · obtain ⟨x, hx, _, hxh, _⟩ := exists_upsertVerificationToken env2.now u1.id
        (HashToken L m2.rawToken) (upsertVerificationToken env1.now u1.id (HashToken L m1.rawToken)
          db.verification_tokens)
      rw [← ht2] at hx
      obtain ⟨row, _, hrun⟩ := EmailVerificationHandler_found L env3 db2 m2.rawToken (hdb 0) (hdb 1)
        ⟨x, hx, hxh⟩
      rw [hrun]; rfl
  · intro body1 body2 db1 db2 e1 e2 hm1 hm2 haddr hfresh
    obtain ⟨id, _, hno, ⟨u, hus1, huid, huemail⟩, ht1, _⟩ :=
      RegistrationHandler_issued L env1 db body1 m1 hm1
    obtain ⟨u2, hu2, ht2, _, _⟩ := ResendEmailVerificationHandler_issued L env2 db1 body2 m2 hm2
    rw [← e1] at ht1 hus1
    rw [← e2] at ht2
    rw [hus1, ← haddr, find_append_new db.users u m1.address hno huemail] at hu2
    obtain rfl : u = u2 := by simpa using hu2
    rw [ht1, huid] at ht2
    constructor
    · intro reqs hno
      apply EmailVerificationHandler_notFound L env3 _ _ (hdb 0)
      apply (run_absent L _ reqs db2 hno).1
      rw [ht2]
      exact twice_upsertVerificationToken _ _ _ _ _ _ hne hfresh
    · obtain ⟨x, hx, _, hxh, _⟩ := exists_upsertVerificationToken env2.now (Int.ofNat id)
        (HashToken L m2.rawToken) (upsertVerificationToken env1.now (Int.ofNat id)
          (HashToken L m1.rawToken) db.verification_tokens)
      rw [← ht2] at hx
      obtain ⟨row, _, hrun⟩ := EmailVerificationHandler_found L env3 db2 m2.rawToken (hdb 0) (hdb 1)
        ⟨x, hx, hxh⟩
      rw [hrun]; rfl
  · intro body1 body2 db1 db2 p e1 e2 hm1 hm2 haddr hfresh hlen
    obtain ⟨u1, hu1, ht1, hus1, _⟩ := SendPasswordResetHandler_issued L env1 db body1 m1 hm1
    obtain ⟨u2, hu2, ht2, _, _⟩ := SendPasswordResetHandler_issued L env2 db1 body2 m2 hm2
    rw [← e1] at ht1 hus1
    rw [← e2] at ht2
    rw [hus1, ← haddr, hu1] at hu2
    obtain rfl : u1 = u2 := by simpa using hu2
    rw [ht1] at ht2
    constructor
    · intro reqs hno
      apply PasswordResetHandler_notFound L env3 _ _ p hlen (hdb 0)
      intro r hr hh
      refine absurd hh ((run_absent L _ reqs db2 hno).2.1 ?_ r hr)
      rw [ht2]
      exact twice_upsertResetToken _ _ _ _ _ _ hne hfresh
    · intro hage hhash
      obtain ⟨hash, hhash⟩ := Option.ne_none_iff_exists'.1 hhash
      obtain ⟨x, hx, _, hxh, hxc⟩ := exists_upsertResetToken env2.now u1.id
        (HashToken L m2.rawToken) (upsertResetToken env1.now u1.id (HashToken L m1.rawToken)
          db.reset_tokens)
      rw [← ht2] at hx
      obtain ⟨row, _, hrun⟩ := PasswordResetHandler_found L env3 db2 m2.rawToken p hash hlen hdb
        hhash ⟨x, hx, hxh, by rw [hxc]; exact hage⟩
      rw [hrun]; rfl
  · intro a1 a2 body1 body2 db1 db2 e1 e2 hm1 hm2 hacct hfresh
    obtain ⟨u1, hu1, ht1, _, _⟩ := RequestEmailChangeHandler_issued L env1 db a1 body1 m1 hm1
    obtain ⟨u2, hu2, ht2, hus2, _⟩ := RequestEmailChangeHandler_issued L env2 db1 a2 body2 m2 hm2
    rw [← e1] at ht1
    rw [← e2] at ht2 hus2
    rw [hu1, hu2] at hacct
    obtain rfl : u1 = u2 := by simpa using hacct
    rw [ht1] at ht2
    constructor
    · intro reqs hno
      apply UpdateEmail_notFound L env3 _ _ (hdb 0)
      apply (run_absent L _ reqs db2 hno).2.2
      rw [ht2]
      exact twice_upsertEmailChangeToken _ _ _ _ _ _ _ _ hne hfresh
    · intro hfresh2 hage hfree
      obtain ⟨x, hx, _, hxh, _, _⟩ := exists_upsertEmailChangeToken env2.now u1
        (HashToken L m2.rawToken) m2.address (upsertEmailChangeToken env1.now u1
          (HashToken L m1.rawToken) m1.address db.email_change_tokens)
      rw [← ht2] at hx
      obtain ⟨row, hrow, hrm, hrp⟩ := find_isSome_of_exists
        (fun r : EmailChangeToken => decide (r.token_hash = HashToken L m2.rawToken))
        db2.email_change_tokens ⟨x, hx, by simpa using hxh⟩
      have hrh : row.token_hash = HashToken L m2.rawToken := by simpa using hrp
      rw [ht2] at hrm
      have hrow2 : row.new_email = m2.address ∧ row.created_at = env2.now := by
        rcases mem_upsertEmailChangeToken _ _ _ _ _ row hrm with ⟨_, _, h3, h4⟩ | ⟨hr1, hu⟩
        · exact ⟨h3, h4⟩
        · rcases mem_upsertEmailChangeToken _ _ _ _ _ row hr1 with ⟨h, _, _⟩ | ⟨hr0, _⟩
          · exact absurd h hu
          · exact absurd hrh (hfresh2 row hr0)
      rw [UpdateEmail_of_find L env3 db2 m2.rawToken row hdb hrow]
      have h1 : ¬ env3.now - row.created_at > 24 * Hour := by rw [hrow2.2]; omega
      have h2 : ¬ (db2.users.any (fun u => decide (u.email = row.new_email))) = true := by
        rw [hrow2.1]
        simp only [List.any_eq_true, decide_eq_true_eq, not_exists, not_and]
        exact hfree
      rw [if_neg h1, if_neg h2]; rfl

/-- C3, on concrete stores: two issuances for Ada one hour apart, with the raw
tokens `t1` then `t2`, followed by consumption attempts an hour later. In turn:
two resent verifications; a registration and a resent verification; two reset
requests; two email-change requests. -/
theorem single_active_token_witness :
    ((EmailVerificationHandler sampleLib (sampleEnv (2 * Hour) "")
        (ResendEmailVerificationHandler sampleLib (sampleEnv Hour "t2")
          (ResendEmailVerificationHandler sampleLib (sampleEnv 0 "t1") adaDB
            (some ⟨"ada@x.com"⟩)).db (some ⟨"ada@x.com"⟩)).db "t1").w.code = 404
      ∧ (EmailVerificationHandler sampleLib (sampleEnv (2 * Hour) "")
        (ResendEmailVerificationHandler sampleLib (sampleEnv Hour "t2")
          (ResendEmailVerificationHandler sampleLib (sampleEnv 0 "t1") adaDB
            (some ⟨"ada@x.com"⟩)).db (some ⟨"ada@x.com"⟩)).db "t2").w.code = 204)
    ∧ (EmailVerificationHandler sampleLib (sampleEnv (2 * Hour) "")
        (ResendEmailVerificationHandler sampleLib (sampleEnv Hour "t2")
          (RegistrationHandler sampleLib (sampleEnv 0 "t1") {}
            (some ⟨"Ada", "ada@x.com", "password1"⟩)).db (some ⟨"ada@x.com"⟩)).db "t2").w.code
        = 204
    ∧ (PasswordResetHandler sampleLib (sampleEnv (2 * Hour) "")
        (SendPasswordResetHandler sampleLib (sampleEnv Hour "t2")
          (SendPasswordResetHandler sampleLib (sampleEnv 0 "t1") adaDB
            (some ⟨"ada@x.com"⟩)).db (some ⟨"ada@x.com"⟩)).db "t2"
        (some ⟨"password2"⟩)).w.code = 204
    ∧ (UpdateEmail sampleLib (sampleEnv (2 * Hour) "")
        (RequestEmailChangeHandler sampleLib (sampleEnv Hour "t2")
          (RequestEmailChangeHandler sampleLib (sampleEnv 0 "t1") adaDB "Bearer tok"
            (some ⟨"new1@x.com"⟩)).db "Bearer tok" (some ⟨"new2@x.com"⟩)).db "t2").w.code
        = 204 := by
  have h := (single_active_token sampleLib (sampleEnv 0 "t1") (sampleEnv Hour "t2")
    (sampleEnv (2 * Hour) "") adaDB ⟨.verification, "ada@x.com", "t1"⟩
    ⟨.verification, "ada@x.com", "t2"⟩ (by decide) (fun _ => rfl)).1
    (some ⟨"ada@x.com"⟩) (some ⟨"ada@x.com"⟩) _ _ rfl rfl (by decide) (by decide) rfl
    (by decide)
  refine ⟨⟨congrArg (fun o : Outcome => o.w.code) (h.1 [] trivial), h.2⟩, ?_, ?_, ?_⟩
  · exact ((single_active_token sampleLib (sampleEnv 0 "t1") (sampleEnv Hour "t2")
      (sampleEnv (2 * Hour) "") {} ⟨.verification, "ada@x.com", "t1"⟩
      ⟨.verification, "ada@x.com", "t2"⟩ (by decide) (fun _ => rfl)).2.1
      (some ⟨"Ada", "ada@x.com", "password1"⟩) (some ⟨"ada@x.com"⟩) _ _ rfl rfl (by decide)
      (by decide) rfl (by decide)).2
  · exact ((single_active_token sampleLib (sampleEnv 0 "t1") (sampleEnv Hour "t2")
      (sampleEnv (2 * Hour) "") adaDB ⟨.reset, "ada@x.com", "t1"⟩
      ⟨.reset, "ada@x.com", "t2"⟩ (by decide) (fun _ => rfl)).2.2.1
      (some ⟨"ada@x.com"⟩) (some ⟨"ada@x.com"⟩) _ _ ⟨"password2"⟩ rfl rfl (by decide)
      (by decide) rfl (by decide) (by decide)).2 (by decide) (by decide)
  · exact ((single_active_token sampleLib (sampleEnv 0 "t1") (sampleEnv Hour "t2")
      (sampleEnv (2 * Hour) "") adaDB ⟨.emailChange, "new1@x.com", "t1"⟩
      ⟨.emailChange, "new2@x.com", "t2"⟩ (by decide) (fun _ => rfl)).2.2.2
      "Bearer tok" "Bearer tok" (some ⟨"new1@x.com"⟩) (some ⟨"new2@x.com"⟩) _ _ rfl rfl
      (by decide) (by decide) (by decide) (by decide)).2 (by decide) (by decide) (by decide)

/-! ## Throttle window -/

theorem map_filter_other {α : Type} (key : α → Int) (userID : Int) (update : α → α)
    (rows : List α) (hupd : ∀ r, key (update r) = key r) :
    (rows.map fun r => if key r = userID then update r else r).filter
        (fun r => !decide (key r = userID))
      = rows.filter (fun r => !decide (key r = userID)) := by
  induction rows with
  | nil => rfl
  | cons r rest ih =>
    by_cases hk : key r = userID
    · simp only [List.map_cons, if_pos hk]
      rw [List.filter_cons_of_neg (by simp [hupd, hk]), List.filter_cons_of_neg (by simp [hk])]
      exact ih
    · simp only [List.map_cons, if_neg hk]
      rw [List.filter_cons_of_pos (by simp [hk]), List.filter_cons_of_pos (by simp [hk])]
      rw [ih]

theorem upsert_filter_other {α : Type} (key : α → Int) (userID : Int) (update : α → α) (new : α)
    (rows : List α) (hnew : key new = userID) (hupd : ∀ r, key (update r) = key r) :
    (upsert key userID update new rows).filter (fun r => !decide (key r = userID))
      = rows.filter (fun r => !decide (key r = userID)) := by
  unfold upsert
  split
  · exact map_filter_other key userID update rows hupd
  · rw [List.filter_append]
    simp [hnew]

theorem upsert_length {α : Type} (key : α → Int) (userID : Int) (update : α → α) (new : α)
    (rows : List α) :
    ((∃ r ∈ rows, key r = userID) → (upsert key userID update new rows).length = rows.length) ∧
    ((∀ r ∈ rows, key r ≠ userID) → (upsert key userID update new rows).length = rows.length + 1) := by
  unfold upsert
  constructor
  · rintro ⟨r, hr, hk⟩
    have : (rows.any fun r => decide (key r = userID)) = true :=
      List.any_eq_true.2 ⟨r, hr, by simpa using hk⟩
    rw [if_pos this, List.length_map]
  · intro h
    have : ¬ (rows.any fun r => decide (key r = userID)) = true := by
      intro hany
      obtain ⟨r, hr, hk⟩ := List.any_eq_true.1 hany
      exact h r hr (by simpa using hk)
    rw [if_neg this, List.length_append, List.length_singleton]

theorem RequestEmailChangeHandler_issues (L : Lib) (env : Env) (db : DB) (authorization : String)
    (p : EmailPayload) (s : Session) (u : User) (t : String)
    (hdb : ∀ k, env.dbErr k = false)
    (hbearer : bearer authorization ≠ "")
    (hs : db.sessions.find? (sessionLive env.now (HashToken L (bearer authorization))) = some s)
    (hlen : len (L.TrimSpace (L.ToLower p.Email)) ≤ 254)
    (hvalid : L.ParseAddress (L.TrimSpace (L.ToLower p.Email)) = true)
    (hu : db.users.find? (fun u => decide (u.id = s.user_id)) = some u)
    (hdiff : L.TrimSpace (L.ToLower p.Email) ≠ u.email)
    (hfree : emailTaken L env.now db (L.TrimSpace (L.ToLower p.Email)) s.user_id = false)
    (ht : env.New = some t) :
    (RequestEmailChangeHandler L env db authorization (some p)).w = { status := some 204 } ∧
    (RequestEmailChangeHandler L env db authorization (some p)).mail
      = some { kind := .emailChange, address := L.TrimSpace (L.ToLower p.Email), rawToken := t } ∧
    (RequestEmailChangeHandler L env db authorization (some p)).db.email_change_tokens
      = upsertEmailChangeToken env.now s.user_id (HashToken L t) (L.TrimSpace (L.ToLower p.Email))
          db.email_change_tokens ∧
    (RequestEmailChangeHandler L env db authorization (some p)).db.users = db.users ∧
    (RequestEmailChangeHandler L env db authorization (some p)).db.verification_tokens
      = db.verification_tokens ∧
    (RequestEmailChangeHandler L env db authorization (some p)).db.reset_tokens
      = db.reset_tokens := by
  have hg := GetId_of_find_some L env (bearer authorization) {} db s (hdb 0) hs
  have hl : ¬ len (L.TrimSpace (L.ToLower p.Email)) > 254 := by omega
  have hfree2 : emailTaken L env.now
      { db with sessions := touchSessions env.now (HashToken L (bearer authorization)) db.sessions }
      (L.TrimSpace (L.ToLower p.Email)) s.user_id = false := hfree
  unfold RequestEmailChangeHandler
  simp only [hbearer, hg, hl, hvalid, hdb, hu, hdiff, hfree2, ht, ResponseWriter.WriteHeader,
    Bool.not_true, Bool.false_eq_true, if_false]
  cases env.mailOk <;> simp
/-- C6. `RequestEmailChangeHandler` applies no throttle. When the
authenticated account already has a pending email-change token, of whatever
age, and the request is otherwise accepted (no store failure, a live session,
a well-formed address of at most 254 bytes that differs from the account's
own and is not taken, a generated token `t`), the handler answers 204,
dispatches a notification carrying `t`, and replaces the account's row: the
account's rows now hold `HashToken t`, the requested address and
`created_at = now`, the rows of other accounts are as before, and no row is
added. -/
theorem RequestEmailChangeHandler_no_throttle (L : Lib) (env : Env) (db : DB)
    (authorization : String) (p : EmailPayload) (s : Session) (u : User) (t : String)
    (row : EmailChangeToken)
    (hdb : ∀ k, env.dbErr k = false)
    (hbearer : bearer authorization ≠ "")
    (hs : db.sessions.find? (sessionLive env.now (HashToken L (bearer authorization))) = some s)
    (hlen : len (L.TrimSpace (L.ToLower p.Email)) ≤ 254)
    (hvalid : L.ParseAddress (L.TrimSpace (L.ToLower p.Email)) = true)
    (hu : db.users.find? (fun u => decide (u.id = s.user_id)) = some u)
    (hdiff : L.TrimSpace (L.ToLower p.Email) ≠ u.email)
    (hfree : emailTaken L env.now db (L.TrimSpace (L.ToLower p.Email)) s.user_id = false)
    (ht : env.New = some t)
    (hrow : db.email_change_tokens.find? (fun r => decide (r.user_id = s.user_id)) = some row) :
    (RequestEmailChangeHandler L env db authorization (some p)).w.code = 204
    ∧ (RequestEmailChangeHandler L env db authorization (some p)).mail
        = some { kind := .emailChange, address := L.TrimSpace (L.ToLower p.Email), rawToken := t }
    ∧ (∃ x ∈ (RequestEmailChangeHandler L env db authorization (some p)).db.email_change_tokens,
        x.user_id = s.user_id ∧ x.token_hash = HashToken L t
          ∧ x.new_email = L.TrimSpace (L.ToLower p.Email) ∧ x.created_at = env.now)
    ∧ (∀ x ∈ (RequestEmailChangeHandler L env db authorization (some p)).db.email_change_tokens,
        x.user_id = s.user_id →
          x.token_hash = HashToken L t ∧ x.new_email = L.TrimSpace (L.ToLower p.Email)
            ∧ x.created_at = env.now)
    ∧ (RequestEmailChangeHandler L env db authorization (some p)).db.email_change_tokens.filter
          (fun r => !decide (r.user_id = s.user_id))
        = db.email_change_tokens.filter (fun r => !decide (r.user_id = s.user_id))
    ∧ (RequestEmailChangeHandler L env db authorization (some p)).db.email_change_tokens.length
        = db.email_change_tokens.length := by
  obtain ⟨hw, hm, htab, _, _, _⟩ := RequestEmailChangeHandler_issues L env db authorization p s u t
    hdb hbearer hs hlen hvalid hu hdiff hfree ht
  rw [hw, hm, htab]
  refine ⟨rfl, rfl, exists_upsertEmailChangeToken _ _ _ _ _, ?_, ?_, ?_⟩
  · intro x hx hxu
    rcases mem_upsertEmailChangeToken _ _ _ _ _ x hx with ⟨_, h5, h6, h7⟩ | ⟨_, h5⟩
    · exact ⟨h5, h6, h7⟩
    · exact absurd hxu h5
  · exact upsert_filter_other (fun r : EmailChangeToken => r.user_id) s.user_id _ _ _ rfl
      (fun _ => rfl)
  · apply (upsert_length (fun r : EmailChangeToken => r.user_id) s.user_id _ _ _).1
    exact ⟨row, List.mem_of_find?_eq_some hrow, by simpa using List.find?_some hrow⟩

/-- C6, on a concrete store: Ada has a pending email-change token created at
instant 0; 30 minutes later she requests a change to another address. The
handler issues the token `t2` and the row now holds its digest, the new
address and the new creation time. So it is not true of the handler that, for
every store and time, a pending token younger than 1 hour means that no token is
issued and the row stays as it was. -/
theorem RequestEmailChangeHandler_throttle_counterexample :
    adaChangeDB.email_change_tokens.find? (fun r => decide (r.user_id = 7))
      = some { user_id := 7, token_hash := HashToken sampleLib "t1", new_email := "new1@x.com",
               created_at := 0 }
    ∧ (sampleEnv (30 * Minute) "t2").now - 0 < Hour
    ∧ (GetId sampleLib (sampleEnv (30 * Minute) "t2") (bearer "Bearer tok") {} adaChangeDB).1
        = some 7
    ∧ (RequestEmailChangeHandler sampleLib (sampleEnv (30 * Minute) "t2") adaChangeDB "Bearer tok"
        (some ⟨"new2@x.com"⟩)).w.code = 204
    ∧ (RequestEmailChangeHandler sampleLib (sampleEnv (30 * Minute) "t2") adaChangeDB "Bearer tok"
        (some ⟨"new2@x.com"⟩)).mail
        = some { kind := .emailChange, address := "new2@x.com", rawToken := "t2" }
    ∧ (RequestEmailChangeHandler sampleLib (sampleEnv (30 * Minute) "t2") adaChangeDB "Bearer tok"
        (some ⟨"new2@x.com"⟩)).db.email_change_tokens
        = [{ user_id := 7, token_hash := HashToken sampleLib "t2", new_email := "new2@x.com",
             created_at := 30 * Minute }]
    ∧ ¬ (∀ (L : Lib) (env : Env) (db : DB) (authorization : String) (body : Option EmailPayload)
          (userID : Int) (row : EmailChangeToken),
          (GetId L env (bearer authorization) {} db).1 = some userID →
          db.email_change_tokens.find? (fun r => decide (r.user_id = userID)) = some row →
          env.now - row.created_at < Hour →
          (RequestEmailChangeHandler L env db authorization body).mail = none
          ∧ (RequestEmailChangeHandler L env db authorization body).db.email_change_tokens
              = db.email_change_tokens) := by
  refine ⟨by decide, by decide, by decide, by decide, by decide, by decide, ?_⟩
  intro h
  have h2 := (h sampleLib (sampleEnv (30 * Minute) "t2") adaChangeDB "Bearer tok"
    (some ⟨"new2@x.com"⟩) 7
    { user_id := 7, token_hash := HashToken sampleLib "t1", new_email := "new1@x.com",
      created_at := 0 } (by decide) (by decide) (by decide)).1
  exact absurd h2 (by decide)

/-- C6, on the same store and request. -/
theorem RequestEmailChangeHandler_no_throttle_witness :
    (RequestEmailChangeHandler sampleLib (sampleEnv (30 * Minute) "t2") adaChangeDB "Bearer tok"
        (some ⟨"new2@x.com"⟩)).db.email_change_tokens.length
      = adaChangeDB.email_change_tokens.length :=
  (RequestEmailChangeHandler_no_throttle sampleLib (sampleEnv (30 * Minute) "t2") adaChangeDB
    "Bearer tok" ⟨"new2@x.com"⟩
    { id := "1", user_id := 7, token_hash := HashToken sampleLib "tok", created_at := 0,
      last_used_at := 0 }
    ada "t2"
    { user_id := 7, token_hash := HashToken sampleLib "t1", new_email := "new1@x.com",
      created_at := 0 }
    (fun _ => rfl) (by decide) (by decide) (by decide) (by decide) (by decide) (by decide)
    (by decide) rfl (by decide)).2.2.2.2.2

/-! ## Absolute expiry -/

/-- C7. Absolute expiry of an email-change token, when no store statement
fails. If the row returned for `HashToken rawToken` carries an address held by
no account, `UpdateEmail` answers 204 and sets the email of the row's account
to that address when `now - created_at ≤ 24 hours` (in particular at 23h59m),
and answers 410 leaving every account unchanged when `now - created_at > 24
hours` (in particular at 24h01m). -/
theorem UpdateEmail_absolute_expiry (L : Lib) (env : Env) (db : DB) (rawToken : String)
    (row : EmailChangeToken) (hdb : ∀ k, env.dbErr k = false)
    (hrow : db.email_change_tokens.find? (fun r => decide (r.token_hash = HashToken L rawToken))
      = some row)
    (hfree : ∀ u ∈ db.users, u.email ≠ row.new_email) :
    ((env.now - row.created_at ≤ 24 * Hour ∨ env.now = row.created_at + 23 * Hour + 59 * Minute) →
      (UpdateEmail L env db rawToken).w.code = 204
      ∧ (UpdateEmail L env db rawToken).db.users
          = db.users.map (fun u =>
              if u.id = row.user_id then { u with email := row.new_email } else u)
      ∧ (∀ u ∈ (UpdateEmail L env db rawToken).db.users,
          u.id = row.user_id → u.email = row.new_email))
    ∧ ((env.now - row.created_at > 24 * Hour ∨ env.now = row.created_at + 24 * Hour + Minute) →
      (UpdateEmail L env db rawToken).w.code = 410
      ∧ (UpdateEmail L env db rawToken).db.users = db.users) := by
  have hM : Minute = 60000000 := by decide
  have hH : Hour = 3600000000 := by decide
  have hany : ¬ (db.users.any (fun u => decide (u.email = row.new_email))) = true := by
    simp only [List.any_eq_true, decide_eq_true_eq, not_exists, not_and]
    exact hfree
  rw [UpdateEmail_of_find L env db rawToken row hdb hrow]
  constructor
  · intro hage
    have h1 : ¬ env.now - row.created_at > 24 * Hour := by
      rcases hage with h | h <;> omega
    rw [if_neg h1, if_neg hany]
    refine ⟨rfl, rfl, ?_⟩
    intro u hu hid
    obtain ⟨v, _, hv⟩ := List.mem_map.1 hu
    by_cases hvid : v.id = row.user_id
    · rw [if_pos hvid] at hv; rw [← hv]
    · rw [if_neg hvid] at hv; subst hv; exact absurd hid hvid
  · intro hage
    have h1 : env.now - row.created_at > 24 * Hour := by
      rcases hage with h | h <;> omega
    rw [if_pos h1]
    exact ⟨rfl, rfl⟩

/-- C7, on a concrete store: Ada's token towards `new1@x.com`, created at
instant 0, redeemed at 23h59m. -/
theorem UpdateEmail_absolute_expiry_witness :
    (UpdateEmail sampleLib (sampleEnv (23 * Hour + 59 * Minute) "") adaChangeDB "t1").w.code = 204 :=
  ((UpdateEmail_absolute_expiry sampleLib (sampleEnv (23 * Hour + 59 * Minute) "") adaChangeDB "t1"
    { user_id := 7, token_hash := HashToken sampleLib "t1", new_email := "new1@x.com",
      created_at := 0 }
    (fun _ => rfl) (by decide) (by decide)).1 (Or.inl (by decide))).1

/-- C8. Absolute expiry of a reset-password token, when neither the store nor
the hashing fails, for a new password of at least 8 bytes and a store in which a
`reset_tokens` row carries `HashToken rawToken`. When that row is at most 24
hours old (in particular at 23h59m) `PasswordResetHandler` answers 204 and the
password digest of the account of a matching row is the new one. When every row
carrying the digest is older than 24 hours (in particular at 24h01m) it answers
404, not 410, as for a token that does not exist, and returns the store as it
was: the password digest is unchanged and the token row is still there. -/
theorem PasswordResetHandler_absolute_expiry (L : Lib) (env : Env) (db : DB) (rawToken : String)
    (p : PasswordPayload) (row : ResetToken) (hash : String)
    (hdb : ∀ k, env.dbErr k = false) (hlen : 8 ≤ len p.Password)
    (hhash : env.CreateHash p.Password = some hash)
    (hmem : row ∈ db.reset_tokens) (hrow : row.token_hash = HashToken L rawToken) :
    ((env.now - row.created_at ≤ Day ∨ env.now = row.created_at + 23 * Hour + 59 * Minute) →
      (PasswordResetHandler L env db rawToken (some p)).w.code = 204
      ∧ ∃ y ∈ db.reset_tokens, y.token_hash = HashToken L rawToken
          ∧ env.now - y.created_at ≤ Day
          ∧ (PasswordResetHandler L env db rawToken (some p)).db.users
              = db.users.map (fun u =>
                  if u.id = y.user_id then { u with password_hash := hash } else u))
    ∧ ((∀ r ∈ db.reset_tokens, r.token_hash = HashToken L rawToken →
          env.now - r.created_at > Day ∨ env.now = r.created_at + 24 * Hour + Minute) →
      PasswordResetHandler L env db rawToken (some p)
        = { w := { status := some 404 }, db := db, mail := none }
      ∧ (PasswordResetHandler L env db rawToken (some p)).w.code ≠ 410) := by
  have hM : Minute = 60000000 := by decide
  have hH : Hour = 3600000000 := by decide
  have hD : Day = 86400000000 := by decide
  constructor
  · intro hage
    have h1 : env.now - row.created_at ≤ Day := by
      rcases hage with h | h <;> omega
    obtain ⟨y, hy, hrun⟩ := PasswordResetHandler_found L env db rawToken p hash hlen hdb hhash
      ⟨row, hmem, hrow, h1⟩
    have hy2 := List.find?_some hy
    simp only [Bool.and_eq_true, decide_eq_true_eq] at hy2
    rw [hrun]
    exact ⟨rfl, y, List.mem_of_find?_eq_some hy, hy2.1, by omega, rfl⟩
  · intro hall
    have h404 := PasswordResetHandler_notFound L env db rawToken p hlen (hdb 0)
      (fun r hr hh => by rcases hall r hr hh with h | h <;> omega)
    rw [h404]
    exact ⟨rfl, by simp [ResponseWriter.code]⟩

/-- C8, on a concrete store: Ada's reset token was created at instant 0; at
24h01m a reset with a 9-byte password answers 404, not 410, and leaves the store
as it was (at 23h59m it answers 204). So it is not true of the handler that
every reset with a matching row aged 24h01m answers 410. -/
theorem PasswordResetHandler_expired_counterexample :
    adaResetDB.reset_tokens
      = [{ user_id := 7, token_hash := HashToken sampleLib "t1", created_at := 0 }]
    ∧ 8 ≤ len "password2"
    ∧ (PasswordResetHandler sampleLib (sampleEnv (24 * Hour + Minute) "") adaResetDB "t1"
        (some ⟨"password2"⟩)).w.code = 404
    ∧ (PasswordResetHandler sampleLib (sampleEnv (24 * Hour + Minute) "") adaResetDB "t1"
        (some ⟨"password2"⟩)).db = adaResetDB
    ∧ (PasswordResetHandler sampleLib (sampleEnv (23 * Hour + 59 * Minute) "") adaResetDB "t1"
        (some ⟨"password2"⟩)).w.code = 204
    ∧ ¬ (∀ (L : Lib) (env : Env) (db : DB) (rawToken : String) (p : PasswordPayload)
          (row : ResetToken),
          (∀ k, env.dbErr k = false) → env.CreateHash p.Password ≠ none →
          row ∈ db.reset_tokens → row.token_hash = HashToken L rawToken →
          8 ≤ len p.Password → env.now - row.created_at = 24 * Hour + Minute →
          (PasswordResetHandler L env db rawToken (some p)).w.code = 410) := by
  refine ⟨by decide, by decide, by decide, by decide, by decide, ?_⟩
  intro h
  have h2 := h sampleLib (sampleEnv (24 * Hour + Minute) "") adaResetDB "t1" ⟨"password2"⟩
    { user_id := 7, token_hash := HashToken sampleLib "t1", created_at := 0 }
    (fun _ => rfl) (by decide) (by decide) rfl (by decide) (by decide)
  exact absurd h2 (by decide)

/-- C8, on the same store: the reset at 24h01m. -/
theorem PasswordResetHandler_absolute_expiry_witness :
    PasswordResetHandler sampleLib (sampleEnv (24 * Hour + Minute) "") adaResetDB "t1"
        (some ⟨"password2"⟩)
      = { w := { status := some 404 }, db := adaResetDB, mail := none }
    ∧ (PasswordResetHandler sampleLib (sampleEnv (24 * Hour + Minute) "") adaResetDB "t1"
        (some ⟨"password2"⟩)).w.code ≠ 410 :=
  (PasswordResetHandler_absolute_expiry sampleLib (sampleEnv (24 * Hour + Minute) "") adaResetDB
    "t1" ⟨"password2"⟩ { user_id := 7, token_hash := HashToken sampleLib "t1", created_at := 0 }
    "password2" (fun _ => rfl) (by decide) rfl (by decide) rfl).2 (by decide)

/-! ## Enumeration safety -/

theorem SendPasswordResetHandler_masked (L : Lib) (env : Env) (db : DB)
    (body : Option EmailPayload) (hdb : ∀ k, env.dbErr k = false) (hnew : env.New ≠ none) :
    (SendPasswordResetHandler L env db body).w =
      match body with
      | none => { status := some 400 }
      | some p =>
        if L.ParseAddress (L.TrimSpace (L.ToLower p.Email)) then { status := some 204 }
        else { status := some 422 } := by
  unfold SendPasswordResetHandler
  simp only [hdb]
  repeat' split
  all_goals first
    | rfl
    | contradiction
    | simp_all [ResponseWriter.WriteHeader]

theorem ResendEmailVerificationHandler_masked (L : Lib) (env : Env) (db : DB)
    (body : Option EmailPayload) (hdb : ∀ k, env.dbErr k = false) (hnew : env.New ≠ none) :
    (ResendEmailVerificationHandler L env db body).w =
      match body with
      | none => { status := some 400 }
      | some p =>
        if L.ParseAddress (L.TrimSpace (L.ToLower p.Email)) then { status := some 204 }
        else { status := some 422 } := by
  unfold ResendEmailVerificationHandler
  simp only [hdb]
  repeat' split
  all_goals first
    | rfl
    | contradiction
    | simp_all [ResponseWriter.WriteHeader]

/-- C9. Enumeration safety as a two-run statement. For one request body and
any two stores and environments in which no store statement fails and the
token generator returns a token, `SendPasswordResetHandler` writes the same
status and body in both runs, and so does `ResendEmailVerificationHandler`:
the response is a function of the body alone (400 when it does not decode,
422 when the address is not well formed, 204 with an empty body otherwise),
whether the account is missing, unverified or verified, or throttled. -/
theorem enumeration_safety (L : Lib) (env1 env2 : Env) (db1 db2 : DB)
    (body : Option EmailPayload)
    (hdb1 : ∀ k, env1.dbErr k = false) (hdb2 : ∀ k, env2.dbErr k = false)
    (hnew1 : env1.New ≠ none) (hnew2 : env2.New ≠ none) :
    (SendPasswordResetHandler L env1 db1 body).w = (SendPasswordResetHandler L env2 db2 body).w
    ∧ (ResendEmailVerificationHandler L env1 db1 body).w
        = (ResendEmailVerificationHandler L env2 db2 body).w
    ∧ (∀ p, body = some p → L.ParseAddress (L.TrimSpace (L.ToLower p.Email)) = true →
        (SendPasswordResetHandler L env1 db1 body).w = { status := some 204, body := "" }
        ∧ (ResendEmailVerificationHandler L env1 db1 body).w = { status := some 204, body := "" }) := by
  rw [SendPasswordResetHandler_masked L env1 db1 body hdb1 hnew1,
    SendPasswordResetHandler_masked L env2 db2 body hdb2 hnew2,
    ResendEmailVerificationHandler_masked L env1 db1 body hdb1 hnew1,
    ResendEmailVerificationHandler_masked L env2 db2 body hdb2 hnew2]
  refine ⟨rfl, rfl, ?_⟩
  intro p hb hv
  subst hb
  simp [hv]

/-- C9, on concrete stores: a reset requested for `ada@x.com` on the empty
store (no account) and on `adaResetDB` half an hour after Ada's token was
created (throttled). -/
theorem enumeration_safety_witness :
    (SendPasswordResetHandler sampleLib (sampleEnv (30 * Minute) "t2") {} (some ⟨"ada@x.com"⟩)).w
      = (SendPasswordResetHandler sampleLib (sampleEnv (30 * Minute) "t3") adaResetDB
          (some ⟨"ada@x.com"⟩)).w :=
  (enumeration_safety sampleLib (sampleEnv (30 * Minute) "t2") (sampleEnv (30 * Minute) "t3") {}
    adaResetDB (some ⟨"ada@x.com"⟩) (fun _ => rfl) (fun _ => rfl) (by decide) (by decide)).1

/-! ## Single-shot consumption -/

/-- C10. Sequential single-shot consumption. If a consumption attempt with
the raw token `t` answers 204, no row of the purpose's table carries
`HashToken t` afterwards, and after any sequence of requests none of which
stores a token of that digest, a further attempt with `t` (whose store
statement does not fail; for a reset, with a well-formed body) answers 404 and
returns the store as it was. For `PasswordResetHandler`, which deletes the
rows of the account it found, the rows carrying the digest are assumed to
belong to one account. -/
theorem single_shot_consumption (L : Lib) (env env2 : Env) (db : DB) (t : String)
    (reqs : List (Env × Request)) (hdb2 : env2.dbErr 0 = false) :
    ((EmailVerificationHandler L env db t).w.code = 204 →
      (∀ r ∈ (EmailVerificationHandler L env db t).db.verification_tokens,
        r.token_hash ≠ HashToken L t)
      ∧ (issuesNone L (HashToken L t) (EmailVerificationHandler L env db t).db reqs →
        EmailVerificationHandler L env2 (run L (EmailVerificationHandler L env db t).db reqs) t
          = { w := { status := some 404 },
              db := run L (EmailVerificationHandler L env db t).db reqs, mail := none }))
    ∧ (∀ (body : Option PasswordPayload) (p2 : PasswordPayload),
      (PasswordResetHandler L env db t body).w.code = 204 →
      (∀ r1 ∈ db.reset_tokens, ∀ r2 ∈ db.reset_tokens, r1.token_hash = HashToken L t →
        r2.token_hash = HashToken L t → r1.user_id = r2.user_id) →
      8 ≤ len p2.Password →
      (∀ r ∈ (PasswordResetHandler L env db t body).db.reset_tokens,
        r.token_hash ≠ HashToken L t)
      ∧ (issuesNone L (HashToken L t) (PasswordResetHandler L env db t body).db reqs →
        PasswordResetHandler L env2 (run L (PasswordResetHandler L env db t body).db reqs) t
            (some p2)
          = { w := { status := some 404 },
              db := run L (PasswordResetHandler L env db t body).db reqs, mail := none }))
    ∧ ((UpdateEmail L env db t).w.code = 204 →
      (∀ r ∈ (UpdateEmail L env db t).db.email_change_tokens, r.token_hash ≠ HashToken L t)
      ∧ (issuesNone L (HashToken L t) (UpdateEmail L env db t).db reqs →
        UpdateEmail L env2 (run L (UpdateEmail L env db t).db reqs) t
          = { w := { status := some 404 },
              db := run L (UpdateEmail L env db t).db reqs, mail := none })) := by
  refine ⟨?_, ?_, ?_⟩
  · intro h204
    have hgone : ∀ r ∈ (EmailVerificationHandler L env db t).db.verification_tokens,
        r.token_hash ≠ HashToken L t := by
      rw [EmailVerificationHandler_of_204 L env db t _ rfl h204]
      intro r hr
      simpa using (List.mem_filter.1 hr).2
    refine ⟨hgone, fun hno => ?_⟩
    exact EmailVerificationHandler_notFound L env2 _ t hdb2
      ((run_absent L (HashToken L t) reqs _ hno).1 hgone)
  · intro body p2 h204 hone hlen
    have hgone : ∀ r ∈ (PasswordResetHandler L env db t body).db.reset_tokens,
        r.token_hash ≠ HashToken L t := by
      obtain ⟨row, hrow, hh, htab⟩ := PasswordResetHandler_of_204 L env db t body _ rfl h204
      rw [htab]
      intro r hr hrh
      obtain ⟨hr1, hr2⟩ := List.mem_filter.1 hr
      have : r.user_id = row.user_id := hone r hr1 row hrow hrh hh
      simp [this] at hr2
    refine ⟨hgone, fun hno => ?_⟩
    apply PasswordResetHandler_notFound L env2 _ t p2 hlen hdb2
    intro r hr hh
    exact absurd hh ((run_absent L (HashToken L t) reqs _ hno).2.1 hgone r hr)
  · intro h204
    have hgone : ∀ r ∈ (UpdateEmail L env db t).db.email_change_tokens,
        r.token_hash ≠ HashToken L t := by
      rw [UpdateEmail_of_204 L env db t _ rfl h204]
      intro r hr
      simpa using (List.mem_filter.1 hr).2
    refine ⟨hgone, fun hno => ?_⟩
    exact UpdateEmail_notFound L env2 _ t hdb2
      ((run_absent L (HashToken L t) reqs _ hno).2.2 hgone)

/-- C10, on concrete stores. Ada redeems her email-change token `t1`, then
requests a reset (token `t9`), then presents `t1` again; she resets her
password with the reset token `t1` and presents it again; she verifies her
address with the token `t1` of her registration and presents it again. -/
theorem single_shot_consumption_witness :
    UpdateEmail sampleLib (sampleEnv (2 * Hour) "")
        (run sampleLib (UpdateEmail sampleLib (sampleEnv Hour "") adaChangeDB "t1").db
          [(sampleEnv Hour "t9", .requestReset (some ⟨"new1@x.com"⟩))]) "t1"
      = { w := { status := some 404 },
          db := run sampleLib (UpdateEmail sampleLib (sampleEnv Hour "") adaChangeDB "t1").db
            [(sampleEnv Hour "t9", .requestReset (some ⟨"new1@x.com"⟩))],
          mail := none }
    ∧ (PasswordResetHandler sampleLib (sampleEnv (2 * Hour) "")
        (PasswordResetHandler sampleLib (sampleEnv Hour "") adaResetDB "t1"
          (some ⟨"password2"⟩)).db "t1" (some ⟨"password3"⟩)).w.code = 404
    ∧ (EmailVerificationHandler sampleLib (sampleEnv (2 * Hour) "")
        (EmailVerificationHandler sampleLib (sampleEnv Hour "")
          (RegistrationHandler sampleLib (sampleEnv 0 "t1") {}
            (some ⟨"Ada", "ada@x.com", "password1"⟩)).db "t1").db "t1").w.code = 404 :=
  ⟨((single_shot_consumption sampleLib (sampleEnv Hour "") (sampleEnv (2 * Hour) "") adaChangeDB
      "t1" [(sampleEnv Hour "t9", .requestReset (some ⟨"new1@x.com"⟩))] rfl).2.2
      (by decide)).2 ⟨by decide, trivial⟩,
   congrArg (fun o : Outcome => o.w.code)
    (((single_shot_consumption sampleLib (sampleEnv Hour "") (sampleEnv (2 * Hour) "") adaResetDB
      "t1" [] rfl).2.1 (some ⟨"password2"⟩) ⟨"password3"⟩ (by decide) (by decide)
      (by decide)).2 trivial),
   congrArg (fun o : Outcome => o.w.code)
    (((single_shot_consumption sampleLib (sampleEnv Hour "") (sampleEnv (2 * Hour) "")
      (RegistrationHandler sampleLib (sampleEnv 0 "t1") {}
        (some ⟨"Ada", "ada@x.com", "password1"⟩)).db
      "t1" [] rfl).1 (by decide)).2 trivial)⟩

/-! ## Concurrent consumption -/

theorem filter_not_eq_self {α : Type} (p : α → Bool) (l : List α) (h : l.find? p = none) :
    l.filter (fun r => !p r) = l := by
  rw [List.filter_eq_self]
  intro a ha
  rw [List.find?_eq_none] at h
  simpa using h a ha

theorem EmailVerificationProg_run (L : Lib) (env : Env) (db : DB) (rawToken : String) :
    (EmailVerificationProg L env rawToken).run db
      = ((EmailVerificationHandler L env db rawToken).w,
         (EmailVerificationHandler L env db rawToken).db) := by
  unfold EmailVerificationProg EmailVerificationHandler
  simp only [Prog.run]
  cases h0 : env.dbErr 0
  · simp only [Bool.false_eq_true, if_false]
    cases hf : db.verification_tokens.find? (fun r => decide (r.token_hash = HashToken L rawToken)) with
    | none =>
      simp only [Prog.run]
      rw [filter_not_eq_self _ _ hf]
    | some row =>
      cases h1 : env.dbErr 1
      · simp [h1, Prog.run, EmailVerificationMark]
      · simp [h1, Prog.run, failWith, EmailVerificationMark]
  · simp [Prog.run, failWith]

theorem UpdateEmailProg_run (L : Lib) (env : Env) (db : DB) (rawToken : String) :
    (UpdateEmailProg L env rawToken).run db
      = ((UpdateEmail L env db rawToken).w, (UpdateEmail L env db rawToken).db) := by
  unfold UpdateEmailProg UpdateEmail
  simp only [Prog.run]
  cases h0 : env.dbErr 0
  · simp only [Bool.false_eq_true, if_false]
    cases hf : db.email_change_tokens.find? (fun r => decide (r.token_hash = HashToken L rawToken)) with
    | none =>
      simp only [Prog.run]
      rw [filter_not_eq_self _ _ hf]
    | some row =>
      simp only [UpdateEmailCheck]
      by_cases hexp : env.now - row.created_at > 24 * Hour
      · simp only [hexp, if_true, Prog.run]
      · simp only [hexp, if_false, Prog.run]
        cases h1 : env.dbErr 1
        · simp only [Bool.false_eq_true, if_false]
          cases hheld : (db.users.any fun u => decide (u.email = row.new_email))
          · simp only [Bool.false_eq_true, if_false, UpdateEmailWrite, Prog.run]
            cases h2 : env.dbErr 2
            · simp [Prog.run]
            · simp [Prog.run, failWith]
          · simp only [if_true, Prog.run]
        · simp [Prog.run, failWith]
  · simp [Prog.run, failWith]

theorem PasswordResetProg_run (L : Lib) (env : Env) (db : DB) (rawToken : String)
    (body : Option PasswordPayload) :
    (PasswordResetProg L env rawToken body).run db
      = ((PasswordResetHandler L env db rawToken body).w,
         (PasswordResetHandler L env db rawToken body).db) := by
  unfold PasswordResetProg PasswordResetHandler
  cases body with
  | none => simp [Prog.run]
  | some p =>
    simp only []
    by_cases hl : len p.Password < 8
    · simp [hl, Prog.run]
    · simp only [hl, if_false, Prog.run]
      cases h0 : env.dbErr 0
      · simp only [Bool.false_eq_true, if_false]
        cases hf : db.reset_tokens.find? (fun r =>
            decide (r.token_hash = HashToken L rawToken) && decide (r.created_at ≥ env.now - Day)) with
        | none => simp only [Prog.run]
        | some row =>
          simp only []
          cases hh : env.CreateHash p.Password with
          | none => simp [Prog.run, failWith]
          | some hash =>
            simp only [PasswordResetWrite, Prog.run]
            cases h1 : env.dbErr 1
            · simp only [Bool.false_eq_true, if_false, Prog.run]
              cases h2 : env.dbErr 2
              · simp only [Bool.false_eq_true, if_false, Prog.run]
                cases h3 : env.dbErr 3
                · simp [Prog.run]
                · simp [Prog.run, failWith]
              · simp [Prog.run, failWith]
            · simp [Prog.run, failWith]
      · simp [Prog.run, failWith]

theorem run_step (p : Prog) (db : DB) : ((p.step db).1).run (p.step db).2 = p.run db := by
  cases p <;> rfl

theorem concurrent_nil_eq (p q : Prog) (db : DB) :
    concurrent [] p q db = concurrent [true] p q db := by
  simp only [concurrent, run_step]

theorem concurrent_first_wins (R : Prog → DB → Prop) (I : DB → Prop) (Q : Prog → Prop)
    (w1 w2 : ResponseWriter)
    (hRI : ∀ p db, R p db → I db)
    (hp_step : ∀ p db, R p db → R (p.step db).1 (p.step db).2)
    (hp_run : ∀ p db, R p db → (p.run db).1 = w1 ∧ I (p.run db).2)
    (hq_step : ∀ q db, Q q → I db → Q (q.step db).1 ∧ (q.step db).2 = db)
    (hq_run : ∀ q db, Q q → I db → q.run db = (w2, db)) :
    ∀ (sched : List Bool) (p q : Prog) (db : DB), R p db → Q q →
      (concurrent sched p q db).1 = w1 ∧ (concurrent sched p q db).2.1 = w2 := by
  intro sched
  induction sched with
  | nil =>
    intro p q db hR hQ
    obtain ⟨h1, h2⟩ := hp_run p db hR
    simp only [concurrent]
    exact ⟨h1, by rw [hq_run q _ hQ h2]⟩
  | cons b s ih =>
    intro p q db hR hQ
    cases b with
    | true => exact ih _ _ _ (hp_step p db hR) hQ
    | false =>
      obtain ⟨h1, h2⟩ := hq_step q db hQ (hRI p db hR)
      simp only [concurrent]
      rw [h2]
      exact ih _ _ _ hR h1

theorem concurrent_second_wins (R : Prog → DB → Prop) (I : DB → Prop) (Q : Prog → Prop)
    (w1 w2 : ResponseWriter)
    (hRI : ∀ p db, R p db → I db)
    (hp_step : ∀ p db, R p db → R (p.step db).1 (p.step db).2)
    (hp_run : ∀ p db, R p db → (p.run db).1 = w1 ∧ I (p.run db).2)
    (hq_step : ∀ q db, Q q → I db → Q (q.step db).1 ∧ (q.step db).2 = db)
    (hq_run : ∀ q db, Q q → I db → q.run db = (w2, db)) :
    ∀ (sched : List Bool) (p q : Prog) (db : DB), R q db → Q p →
      (concurrent sched p q db).1 = w2 ∧ (concurrent sched p q db).2.1 = w1 := by
  intro sched
  induction sched with
  | nil =>
    intro p q db hR hQ
    simp only [concurrent]
    rw [hq_run p db hQ (hRI q db hR)]
    exact ⟨rfl, (hp_run q db hR).1⟩
  | cons b s ih =>
    intro p q db hR hQ
    cases b with
    | false => exact ih _ _ _ (hp_step q db hR) hQ
    | true =>
      obtain ⟨h1, h2⟩ := hq_step p db hQ (hRI q db hR)
      simp only [concurrent]
      rw [h2]
      exact ih _ _ _ hR h1

theorem db_eta (db : DB) :
    ({ users := db.users, sessions := db.sessions, verification_tokens := db.verification_tokens,
       reset_tokens := db.reset_tokens, email_change_tokens := db.email_change_tokens,
       errors := db.errors } : DB) = db := rfl

theorem find_none_of_absent {α : Type} (p : α → Bool) (l : List α) (h : ∀ r ∈ l, p r = false) :
    l.find? p = none := by
  rw [List.find?_eq_none]; intro r hr; simp [h r hr]

/-- Verification: the state of the request that got the row, and of the other one. -/
theorem EmailVerification_race (L : Lib) (env1 env2 : Env) (t : String) (uid : Int)
    (h1 : ∀ k, env1.dbErr k = false) (h2 : ∀ k, env2.dbErr k = false) :
    ∀ (sched : List Bool) (db : DB),
      (∀ r ∈ db.verification_tokens, r.token_hash ≠ HashToken L t) →
      ((concurrent sched (EmailVerificationMark env1 {} uid) (EmailVerificationProg L env2 t) db).1
          = ({} : ResponseWriter).WriteHeader 204
        ∧ (concurrent sched (EmailVerificationMark env1 {} uid)
            (EmailVerificationProg L env2 t) db).2.1 = ({} : ResponseWriter).WriteHeader 404)
      ∧ ((concurrent sched (EmailVerificationProg L env2 t) (EmailVerificationMark env1 {} uid) db).1
          = ({} : ResponseWriter).WriteHeader 404
        ∧ (concurrent sched (EmailVerificationProg L env2 t)
            (EmailVerificationMark env1 {} uid) db).2.1 = ({} : ResponseWriter).WriteHeader 204) := by
  intro sched db hno
  have hRI : ∀ (p : Prog) (db : DB),
      ((∀ r ∈ db.verification_tokens, r.token_hash ≠ HashToken L t) ∧
        (p = EmailVerificationMark env1 {} uid ∨ p = .ret (({} : ResponseWriter).WriteHeader 204))) →
      (∀ r ∈ db.verification_tokens, r.token_hash ≠ HashToken L t) := fun _ _ h => h.1
  have hp_step : ∀ (p : Prog) (db : DB),
      ((∀ r ∈ db.verification_tokens, r.token_hash ≠ HashToken L t) ∧
        (p = EmailVerificationMark env1 {} uid ∨ p = .ret (({} : ResponseWriter).WriteHeader 204))) →
      ((∀ r ∈ (p.step db).2.verification_tokens, r.token_hash ≠ HashToken L t) ∧
        ((p.step db).1 = EmailVerificationMark env1 {} uid
          ∨ (p.step db).1 = .ret (({} : ResponseWriter).WriteHeader 204))) := by
    rintro p db ⟨hn, rfl | rfl⟩
    · refine ⟨?_, Or.inr ?_⟩
      · simpa only [EmailVerificationMark, Prog.step, h1, Bool.false_eq_true, if_false] using hn
      · simp only [EmailVerificationMark, Prog.step, h1, Bool.false_eq_true, if_false]
    · exact ⟨hn, Or.inr rfl⟩
  have hp_run : ∀ (p : Prog) (db : DB),
      ((∀ r ∈ db.verification_tokens, r.token_hash ≠ HashToken L t) ∧
        (p = EmailVerificationMark env1 {} uid ∨ p = .ret (({} : ResponseWriter).WriteHeader 204))) →
      (p.run db).1 = ({} : ResponseWriter).WriteHeader 204 ∧
        (∀ r ∈ (p.run db).2.verification_tokens, r.token_hash ≠ HashToken L t) := by
    rintro p db ⟨hn, rfl | rfl⟩
    · refine ⟨?_, ?_⟩
      · simp only [EmailVerificationMark, Prog.run, h1, Bool.false_eq_true, if_false]
      · simpa only [EmailVerificationMark, Prog.run, h1, Bool.false_eq_true, if_false] using hn
    · exact ⟨rfl, hn⟩
  have hq_step : ∀ (q : Prog) (db : DB),
      (q = EmailVerificationProg L env2 t ∨ q = .ret (({} : ResponseWriter).WriteHeader 404)) →
      (∀ r ∈ db.verification_tokens, r.token_hash ≠ HashToken L t) →
      ((q.step db).1 = EmailVerificationProg L env2 t
          ∨ (q.step db).1 = .ret (({} : ResponseWriter).WriteHeader 404)) ∧ (q.step db).2 = db := by
    rintro q db (rfl | rfl) hn
    · have hf := find_none_of_absent (fun r : VerificationToken => decide (r.token_hash = HashToken L t))
        db.verification_tokens (fun r hr => by simpa using hn r hr)
      refine ⟨Or.inr ?_, ?_⟩
      · simp only [EmailVerificationProg, Prog.step, h2, Bool.false_eq_true, if_false, hf]
      · simp only [EmailVerificationProg, Prog.step, h2, Bool.false_eq_true, if_false]
        rw [filter_not_eq_self _ _ hf]
    · exact ⟨Or.inr rfl, rfl⟩
  have hq_run : ∀ (q : Prog) (db : DB),
      (q = EmailVerificationProg L env2 t ∨ q = .ret (({} : ResponseWriter).WriteHeader 404)) →
      (∀ r ∈ db.verification_tokens, r.token_hash ≠ HashToken L t) →
      q.run db = (({} : ResponseWriter).WriteHeader 404, db) := by
    rintro q db (rfl | rfl) hn
    · have hf := find_none_of_absent (fun r : VerificationToken => decide (r.token_hash = HashToken L t))
        db.verification_tokens (fun r hr => by simpa using hn r hr)
      simp only [EmailVerificationProg, Prog.run, h2, Bool.false_eq_true, if_false, hf]
      rw [filter_not_eq_self _ _ hf]
    · rfl
  exact ⟨concurrent_first_wins _ _ _ _ _ hRI hp_step hp_run hq_step hq_run sched _ _ db
      ⟨hno, Or.inl rfl⟩ (Or.inl rfl),
    concurrent_second_wins _ _ _ _ _ hRI hp_step hp_run hq_step hq_run sched _ _ db
      ⟨hno, Or.inl rfl⟩ (Or.inl rfl)⟩
theorem absent_after_delete {α : Type} (p : α → Bool) (l : List α) :
    ∀ r ∈ l.filter (fun r => !p r), p r = false := by
  intro r hr
  simpa using (List.mem_filter.1 hr).2

theorem EmailVerification_concurrent (L : Lib) (env1 env2 : Env) (db : DB) (t : String)
    (sched : List Bool) (h1 : ∀ k, env1.dbErr k = false) (h2 : ∀ k, env2.dbErr k = false)
    (hrow : ∃ r ∈ db.verification_tokens, r.token_hash = HashToken L t) :
    ((concurrent sched (EmailVerificationProg L env1 t) (EmailVerificationProg L env2 t) db).1
        = ({} : ResponseWriter).WriteHeader 204
      ∧ (concurrent sched (EmailVerificationProg L env1 t) (EmailVerificationProg L env2 t) db).2.1
        = ({} : ResponseWriter).WriteHeader 404)
    ∨ ((concurrent sched (EmailVerificationProg L env1 t) (EmailVerificationProg L env2 t) db).1
        = ({} : ResponseWriter).WriteHeader 404
      ∧ (concurrent sched (EmailVerificationProg L env1 t) (EmailVerificationProg L env2 t) db).2.1
        = ({} : ResponseWriter).WriteHeader 204) := by
  obtain ⟨r, hr, hh⟩ := hrow
  obtain ⟨row, hf, _, _⟩ := find_isSome_of_exists
    (fun r : VerificationToken => decide (r.token_hash = HashToken L t)) db.verification_tokens
    ⟨r, hr, by simpa using hh⟩
  have first : ∀ (e : Env), (∀ k, e.dbErr k = false) →
      ∃ db2 : DB, (EmailVerificationProg L e t).step db
          = (EmailVerificationMark e {} row.user_id, db2)
        ∧ ∀ r ∈ db2.verification_tokens, r.token_hash ≠ HashToken L t := by
    intro e he
    refine ⟨((EmailVerificationProg L e t).step db).2, Prod.ext ?_ rfl, ?_⟩
    · simp only [EmailVerificationProg, Prog.step, he, Bool.false_eq_true, if_false, hf]
    · intro r hr
      simp only [EmailVerificationProg, Prog.step, he, Bool.false_eq_true, if_false] at hr
      simpa using (List.mem_filter.1 hr).2
  have pfirst : ∀ s : List Bool,
      (concurrent (true :: s) (EmailVerificationProg L env1 t) (EmailVerificationProg L env2 t) db).1
          = ({} : ResponseWriter).WriteHeader 204
      ∧ (concurrent (true :: s) (EmailVerificationProg L env1 t)
          (EmailVerificationProg L env2 t) db).2.1 = ({} : ResponseWriter).WriteHeader 404 := by
    intro s
    obtain ⟨db2, hs, hgone⟩ := first env1 h1
    simp only [concurrent, hs]
    exact (EmailVerification_race L env1 env2 t row.user_id h1 h2 s _ hgone).1
  cases sched with
  | nil => rw [concurrent_nil_eq]; exact Or.inl (pfirst [])
  | cons b s =>
    cases b with
    | true => exact Or.inl (pfirst s)
    | false =>
      right
      obtain ⟨db2, hs, hgone⟩ := first env2 h2
      simp only [concurrent, hs]
      exact (EmailVerification_race L env2 env1 t row.user_id h2 h1 s _ hgone).2

theorem UpdateEmail_race (L : Lib) (env1 env2 : Env) (t : String) (row : EmailChangeToken)
    (h1 : ∀ k, env1.dbErr k = false) (h2 : ∀ k, env2.dbErr k = false)
    (hage : env1.now - row.created_at ≤ 24 * Hour) :
    ∀ (sched : List Bool) (db : DB),
      (∀ r ∈ db.email_change_tokens, r.token_hash ≠ HashToken L t) →
      (∀ u ∈ db.users, u.email ≠ row.new_email) →
      ((concurrent sched (UpdateEmailCheck env1 {} row) (UpdateEmailProg L env2 t) db).1
          = ({} : ResponseWriter).WriteHeader 204
        ∧ (concurrent sched (UpdateEmailCheck env1 {} row) (UpdateEmailProg L env2 t) db).2.1
          = ({} : ResponseWriter).WriteHeader 404)
      ∧ ((concurrent sched (UpdateEmailProg L env2 t) (UpdateEmailCheck env1 {} row) db).1
          = ({} : ResponseWriter).WriteHeader 404
        ∧ (concurrent sched (UpdateEmailProg L env2 t) (UpdateEmailCheck env1 {} row) db).2.1
          = ({} : ResponseWriter).WriteHeader 204) := by
  intro sched db hno hfree
  have hexp : ¬ env1.now - row.created_at > 24 * Hour := by omega
  have hheld : ∀ db : DB, (∀ u ∈ db.users, u.email ≠ row.new_email) →
      (db.users.any fun u => decide (u.email = row.new_email)) = false := by
    intro db h
    rw [Bool.eq_false_iff]
    intro hany
    obtain ⟨u, hu, he⟩ := List.any_eq_true.1 hany
    exact h u hu (by simpa using he)
  have hRI : ∀ (p : Prog) (db : DB),
      ((∀ r ∈ db.email_change_tokens, r.token_hash ≠ HashToken L t) ∧
        ((p = UpdateEmailCheck env1 {} row ∧ ∀ u ∈ db.users, u.email ≠ row.new_email)
          ∨ p = UpdateEmailWrite env1 {} row
          ∨ p = .ret (({} : ResponseWriter).WriteHeader 204))) →
      (∀ r ∈ db.email_change_tokens, r.token_hash ≠ HashToken L t) := fun _ _ h => h.1
  have hp_step : ∀ (p : Prog) (db : DB),
      ((∀ r ∈ db.email_change_tokens, r.token_hash ≠ HashToken L t) ∧
        ((p = UpdateEmailCheck env1 {} row ∧ ∀ u ∈ db.users, u.email ≠ row.new_email)
          ∨ p = UpdateEmailWrite env1 {} row
          ∨ p = .ret (({} : ResponseWriter).WriteHeader 204))) →
      ((∀ r ∈ (p.step db).2.email_change_tokens, r.token_hash ≠ HashToken L t) ∧
        (((p.step db).1 = UpdateEmailCheck env1 {} row
            ∧ ∀ u ∈ (p.step db).2.users, u.email ≠ row.new_email)
          ∨ (p.step db).1 = UpdateEmailWrite env1 {} row
          ∨ (p.step db).1 = .ret (({} : ResponseWriter).WriteHeader 204))) := by
    rintro p db ⟨hn, ⟨rfl, hfr⟩ | rfl | rfl⟩
    · refine ⟨?_, Or.inr (Or.inl ?_)⟩
      · simpa only [UpdateEmailCheck, hexp, if_false, Prog.step] using hn
      · simp only [UpdateEmailCheck, hexp, if_false, Prog.step, h1, Bool.false_eq_true,
          hheld db hfr]
    · refine ⟨?_, Or.inr (Or.inr ?_)⟩
      · simpa only [UpdateEmailWrite, Prog.step, h1, Bool.false_eq_true, if_false] using hn
      · simp only [UpdateEmailWrite, Prog.step, h1, Bool.false_eq_true, if_false]
    · exact ⟨hn, Or.inr (Or.inr rfl)⟩
  have hp_run : ∀ (p : Prog) (db : DB),
      ((∀ r ∈ db.email_change_tokens, r.token_hash ≠ HashToken L t) ∧
        ((p = UpdateEmailCheck env1 {} row ∧ ∀ u ∈ db.users, u.email ≠ row.new_email)
          ∨ p = UpdateEmailWrite env1 {} row
          ∨ p = .ret (({} : ResponseWriter).WriteHeader 204))) →
      (p.run db).1 = ({} : ResponseWriter).WriteHeader 204 ∧
        (∀ r ∈ (p.run db).2.email_change_tokens, r.token_hash ≠ HashToken L t) := by
    rintro p db ⟨hn, ⟨rfl, hfr⟩ | rfl | rfl⟩
    · refine ⟨?_, ?_⟩
      · simp only [UpdateEmailCheck, hexp, if_false, Prog.run, h1, Bool.false_eq_true,
          hheld db hfr, UpdateEmailWrite]
      · simpa only [UpdateEmailCheck, hexp, if_false, Prog.run, h1, Bool.false_eq_true,
          hheld db hfr, UpdateEmailWrite] using hn
    · refine ⟨?_, ?_⟩
      · simp only [UpdateEmailWrite, Prog.run, h1, Bool.false_eq_true, if_false]
      · simpa only [UpdateEmailWrite, Prog.run, h1, Bool.false_eq_true, if_false] using hn
    · exact ⟨rfl, hn⟩
  have hq_step : ∀ (q : Prog) (db : DB),
      (q = UpdateEmailProg L env2 t ∨ q = .ret (({} : ResponseWriter).WriteHeader 404)) →
      (∀ r ∈ db.email_change_tokens, r.token_hash ≠ HashToken L t) →
      ((q.step db).1 = UpdateEmailProg L env2 t
          ∨ (q.step db).1 = .ret (({} : ResponseWriter).WriteHeader 404)) ∧ (q.step db).2 = db := by
    rintro q db (rfl | rfl) hn
    · have hf := find_none_of_absent
        (fun r : EmailChangeToken => decide (r.token_hash = HashToken L t))
        db.email_change_tokens (fun r hr => by simpa using hn r hr)
      refine ⟨Or.inr ?_, ?_⟩
      · simp only [UpdateEmailProg, Prog.step, h2, Bool.false_eq_true, if_false, hf]
      · simp only [UpdateEmailProg, Prog.step, h2, Bool.false_eq_true, if_false]
        rw [filter_not_eq_self _ _ hf]
    · exact ⟨Or.inr rfl, rfl⟩
  have hq_run : ∀ (q : Prog) (db : DB),
      (q = UpdateEmailProg L env2 t ∨ q = .ret (({} : ResponseWriter).WriteHeader 404)) →
      (∀ r ∈ db.email_change_tokens, r.token_hash ≠ HashToken L t) →
      q.run db = (({} : ResponseWriter).WriteHeader 404, db) := by
    rintro q db (rfl | rfl) hn
    · have hf := find_none_of_absent
        (fun r : EmailChangeToken => decide (r.token_hash = HashToken L t))
        db.email_change_tokens (fun r hr => by simpa using hn r hr)
      simp only [UpdateEmailProg, Prog.run, h2, Bool.false_eq_true, if_false, hf]
      rw [filter_not_eq_self _ _ hf]
    · rfl
  exact ⟨concurrent_first_wins _ _ _ _ _ hRI hp_step hp_run hq_step hq_run sched _ _ db
      ⟨hno, Or.inl ⟨rfl, hfree⟩⟩ (Or.inl rfl),
    concurrent_second_wins _ _ _ _ _ hRI hp_step hp_run hq_step hq_run sched _ _ db
      ⟨hno, Or.inl ⟨rfl, hfree⟩⟩ (Or.inl rfl)⟩

theorem UpdateEmail_concurrent (L : Lib) (env1 env2 : Env) (db : DB) (t : String)
    (row : EmailChangeToken) (sched : List Bool)
    (h1 : ∀ k, env1.dbErr k = false) (h2 : ∀ k, env2.dbErr k = false)
    (hf : db.email_change_tokens.find? (fun r => decide (r.token_hash = HashToken L t)) = some row)
    (hage1 : env1.now - row.created_at ≤ 24 * Hour) (hage2 : env2.now - row.created_at ≤ 24 * Hour)
    (hfree : ∀ u ∈ db.users, u.email ≠ row.new_email) :
    ((concurrent sched (UpdateEmailProg L env1 t) (UpdateEmailProg L env2 t) db).1
        = ({} : ResponseWriter).WriteHeader 204
      ∧ (concurrent sched (UpdateEmailProg L env1 t) (UpdateEmailProg L env2 t) db).2.1
        = ({} : ResponseWriter).WriteHeader 404)
    ∨ ((concurrent sched (UpdateEmailProg L env1 t) (UpdateEmailProg L env2 t) db).1
        = ({} : ResponseWriter).WriteHeader 404
      ∧ (concurrent sched (UpdateEmailProg L env1 t) (UpdateEmailProg L env2 t) db).2.1
        = ({} : ResponseWriter).WriteHeader 204) := by
  have first : ∀ (e : Env), (∀ k, e.dbErr k = false) →
      ∃ db2 : DB, (UpdateEmailProg L e t).step db = (UpdateEmailCheck e {} row, db2)
        ∧ (∀ r ∈ db2.email_change_tokens, r.token_hash ≠ HashToken L t)
        ∧ db2.users = db.users := by
    intro e he
    refine ⟨((UpdateEmailProg L e t).step db).2, Prod.ext ?_ rfl, ?_, ?_⟩
    · simp only [UpdateEmailProg, Prog.step, he, Bool.false_eq_true, if_false, hf]
    · intro r hr
      simp only [UpdateEmailProg, Prog.step, he, Bool.false_eq_true, if_false] at hr
      simpa using (List.mem_filter.1 hr).2
    · simp only [UpdateEmailProg, Prog.step, he, Bool.false_eq_true, if_false]
  have pfirst : ∀ s : List Bool,
      (concurrent (true :: s) (UpdateEmailProg L env1 t) (UpdateEmailProg L env2 t) db).1
          = ({} : ResponseWriter).WriteHeader 204
      ∧ (concurrent (true :: s) (UpdateEmailProg L env1 t) (UpdateEmailProg L env2 t) db).2.1
          = ({} : ResponseWriter).WriteHeader 404 := by
    intro s
    obtain ⟨db2, hs, hgone, hu⟩ := first env1 h1
    simp only [concurrent, hs]
    exact (UpdateEmail_race L env1 env2 t row h1 h2 hage1 s _ hgone (hu ▸ hfree)).1
  cases sched with
  | nil => rw [concurrent_nil_eq]; exact Or.inl (pfirst [])
  | cons b s =>
    cases b with
    | true => exact Or.inl (pfirst s)
    | false =>
      right
      obtain ⟨db2, hs, hgone, hu⟩ := first env2 h2
      simp only [concurrent, hs]
      exact (UpdateEmail_race L env2 env1 t row h2 h1 hage2 s _ hgone (hu ▸ hfree)).2
theorem PasswordReset_both_succeed (L : Lib) (env1 env2 : Env) (db : DB) (t : String)
    (p1 p2 : PasswordPayload) (row : ResetToken) (hash1 hash2 : String)
    (h1 : ∀ k, env1.dbErr k = false) (h2 : ∀ k, env2.dbErr k = false)
    (hl1 : 8 ≤ len p1.Password) (hl2 : 8 ≤ len p2.Password)
    (hc1 : env1.CreateHash p1.Password = some hash1)
    (hc2 : env2.CreateHash p2.Password = some hash2)
    (hf1 : db.reset_tokens.find? (fun r =>
      decide (r.token_hash = HashToken L t) && decide (r.created_at ≥ env1.now - Day)) = some row)
    (hf2 : db.reset_tokens.find? (fun r =>
      decide (r.token_hash = HashToken L t) && decide (r.created_at ≥ env2.now - Day)) = some row) :
    (concurrent [true, false] (PasswordResetProg L env1 t (some p1))
        (PasswordResetProg L env2 t (some p2)) db).1 = ({} : ResponseWriter).WriteHeader 204
    ∧ (concurrent [true, false] (PasswordResetProg L env1 t (some p1))
        (PasswordResetProg L env2 t (some p2)) db).2.1 = ({} : ResponseWriter).WriteHeader 204 := by
  have hn1 : ¬ len p1.Password < 8 := by omega
  have hn2 : ¬ len p2.Password < 8 := by omega
  constructor <;>
  simp only [concurrent, PasswordResetProg, PasswordResetWrite, Prog.step, Prog.run, hn1, hn2,
    if_false, h1, h2, Bool.false_eq_true, hf1, hf2, hc1, hc2]

/-- C11. Two concurrent consumption attempts with one valid token, interleaved
statement by statement under an arbitrary schedule, when no store statement
fails. The statement-level programs run uninterrupted are the handlers. For
`EmailVerificationHandler` and `UpdateEmail`, whose first statement is
`DELETE ... RETURNING`, exactly one attempt answers 204 and the other 404,
under every schedule. `PasswordResetHandler` first reads the row with a
`SELECT`, which leaves the store as it is, and deletes it two statements
later: when both attempts read before either deletes, both answer 204, as on
the store `adaResetDB`, where the second attempt's password is the one kept. -/
theorem concurrent_consumption :
    (∀ (L : Lib) (env : Env) (db : DB) (t : String) (body : Option PasswordPayload),
      (EmailVerificationProg L env t).run db
          = ((EmailVerificationHandler L env db t).w, (EmailVerificationHandler L env db t).db)
      ∧ (UpdateEmailProg L env t).run db = ((UpdateEmail L env db t).w, (UpdateEmail L env db t).db)
      ∧ (PasswordResetProg L env t body).run db
          = ((PasswordResetHandler L env db t body).w, (PasswordResetHandler L env db t body).db))
    ∧ (∀ (L : Lib) (env1 env2 : Env) (db : DB) (t : String) (sched : List Bool),
      (∀ k, env1.dbErr k = false) → (∀ k, env2.dbErr k = false) →
      (∃ r ∈ db.verification_tokens, r.token_hash = HashToken L t) →
      ((concurrent sched (EmailVerificationProg L env1 t)
            (EmailVerificationProg L env2 t) db).1.code = 204
        ∧ (concurrent sched (EmailVerificationProg L env1 t)
            (EmailVerificationProg L env2 t) db).2.1.code = 404)
      ∨ ((concurrent sched (EmailVerificationProg L env1 t)
            (EmailVerificationProg L env2 t) db).1.code = 404
        ∧ (concurrent sched (EmailVerificationProg L env1 t)
            (EmailVerificationProg L env2 t) db).2.1.code = 204))
    ∧ (∀ (L : Lib) (env1 env2 : Env) (db : DB) (t : String) (row : EmailChangeToken)
        (sched : List Bool),
      (∀ k, env1.dbErr k = false) → (∀ k, env2.dbErr k = false) →
      db.email_change_tokens.find? (fun r => decide (r.token_hash = HashToken L t)) = some row →
      env1.now - row.created_at ≤ 24 * Hour → env2.now - row.created_at ≤ 24 * Hour →
      (∀ u ∈ db.users, u.email ≠ row.new_email) →
      ((concurrent sched (UpdateEmailProg L env1 t) (UpdateEmailProg L env2 t) db).1.code = 204
        ∧ (concurrent sched (UpdateEmailProg L env1 t) (UpdateEmailProg L env2 t) db).2.1.code = 404)
      ∨ ((concurrent sched (UpdateEmailProg L env1 t) (UpdateEmailProg L env2 t) db).1.code = 404
        ∧ (concurrent sched (UpdateEmailProg L env1 t) (UpdateEmailProg L env2 t) db).2.1.code
            = 204))
    ∧ (∀ (L : Lib) (env : Env) (db : DB) (t : String) (p : PasswordPayload),
      ((PasswordResetProg L env t (some p)).step db).2 = db)
    ∧ (∀ (L : Lib) (env1 env2 : Env) (db : DB) (t : String) (p1 p2 : PasswordPayload)
        (row : ResetToken),
      (∀ k, env1.dbErr k = false) → (∀ k, env2.dbErr k = false) →
      8 ≤ len p1.Password → 8 ≤ len p2.Password →
      env1.CreateHash p1.Password ≠ none → env2.CreateHash p2.Password ≠ none →
      db.reset_tokens.find? (fun r => decide (r.token_hash = HashToken L t)
        && decide (r.created_at ≥ env1.now - Day)) = some row →
      db.reset_tokens.find? (fun r => decide (r.token_hash = HashToken L t)
        && decide (r.created_at ≥ env2.now - Day)) = some row →
      (concurrent [true, false] (PasswordResetProg L env1 t (some p1))
          (PasswordResetProg L env2 t (some p2)) db).1.code = 204
      ∧ (concurrent [true, false] (PasswordResetProg L env1 t (some p1))
          (PasswordResetProg L env2 t (some p2)) db).2.1.code = 204)
    ∧ ((concurrent [true, false]
          (PasswordResetProg sampleLib (sampleEnv Hour "") "t1" (some ⟨"password2"⟩))
          (PasswordResetProg sampleLib (sampleEnv Hour "") "t1" (some ⟨"password3"⟩))
          adaResetDB).1.code = 204
      ∧ (concurrent [true, false]
          (PasswordResetProg sampleLib (sampleEnv Hour "") "t1" (some ⟨"password2"⟩))
          (PasswordResetProg sampleLib (sampleEnv Hour "") "t1" (some ⟨"password3"⟩))
          adaResetDB).2.1.code = 204
      ∧ (concurrent [true, false]
          (PasswordResetProg sampleLib (sampleEnv Hour "") "t1" (some ⟨"password2"⟩))
          (PasswordResetProg sampleLib (sampleEnv Hour "") "t1" (some ⟨"password3"⟩))
          adaResetDB).2.2.users = [{ ada with password_hash := "password3" }]) := by
  refine ⟨?_, ?_, ?_, ?_, ?_, by decide⟩
  · intro L env db t body
    exact ⟨EmailVerificationProg_run L env db t, UpdateEmailProg_run L env db t,
      PasswordResetProg_run L env db t body⟩
  · intro L env1 env2 db t sched h1 h2 hrow
    rcases EmailVerification_concurrent L env1 env2 db t sched h1 h2 hrow with ⟨a, b⟩ | ⟨a, b⟩
    · left; rw [a, b]; exact ⟨rfl, rfl⟩
    · right; rw [a, b]; exact ⟨rfl, rfl⟩
  · intro L env1 env2 db t row sched h1 h2 hf ha1 ha2 hfree
    rcases UpdateEmail_concurrent L env1 env2 db t row sched h1 h2 hf ha1 ha2 hfree
      with ⟨a, b⟩ | ⟨a, b⟩
    · left; rw [a, b]; exact ⟨rfl, rfl⟩
    · right; rw [a, b]; exact ⟨rfl, rfl⟩
  · intro L env db t p
    unfold PasswordResetProg
    simp only []
    split <;> rfl
  · intro L env1 env2 db t p1 p2 row h1 h2 hl1 hl2 hc1 hc2 hf1 hf2
    obtain ⟨hash1, hc1⟩ := Option.ne_none_iff_exists'.1 hc1
    obtain ⟨hash2, hc2⟩ := Option.ne_none_iff_exists'.1 hc2
    obtain ⟨a, b⟩ := PasswordReset_both_succeed L env1 env2 db t p1 p2 row hash1 hash2 h1 h2
      hl1 hl2 hc1 hc2 hf1 hf2
    rw [a, b]; exact ⟨rfl, rfl⟩

/-! ## Logout -/

/-- C12. Logout with a non-empty presented token answers 204, whether or not a
session row matches (and even when the store statement fails). When the
statement does not fail, the store afterwards is the store before without the
session rows carrying `HashToken token`: no such row is left, every other
session row and every other table is as it was. A second logout with the same
token answers 204 again and returns the store it was given. -/
theorem LogoutHandler_idempotent (L : Lib) (env env2 : Env) (db : DB) (authorization : String)
    (hne : bearer authorization ≠ "") :
    (LogoutHandler L env db authorization).w.code = 204
    ∧ (env.dbErr 0 = false →
      (LogoutHandler L env db authorization).db
        = { db with
            sessions :=
              db.sessions.filter
                (fun r => !decide (r.token_hash = HashToken L (bearer authorization))) }
      ∧ (∀ r ∈ (LogoutHandler L env db authorization).db.sessions,
          r.token_hash ≠ HashToken L (bearer authorization))
      ∧ (∀ r ∈ db.sessions, r.token_hash ≠ HashToken L (bearer authorization) →
          r ∈ (LogoutHandler L env db authorization).db.sessions)
      ∧ (env2.dbErr 0 = false →
          LogoutHandler L env2 (LogoutHandler L env db authorization).db authorization
            = { w := { status := some 204 }, db := (LogoutHandler L env db authorization).db,
                mail := none })) := by
  have hrun : ∀ (e : Env) (d : DB), e.dbErr 0 = false →
      LogoutHandler L e d authorization
        = { w := { status := some 204 },
            db := { d with
              sessions :=
                d.sessions.filter
                  (fun r => !decide (r.token_hash = HashToken L (bearer authorization))) },
            mail := none } := by
    intro e d he
    simp only [LogoutHandler, hne, if_false, he, Bool.false_eq_true, ResponseWriter.WriteHeader]
  constructor
  · unfold LogoutHandler
    simp only [hne, if_false]
    split <;> rfl
  · intro he
    rw [hrun env db he]
    refine ⟨rfl, ?_, ?_, ?_⟩
    · intro r hr
      simpa using (List.mem_filter.1 hr).2
    · intro r hr hh
      exact List.mem_filter.2 ⟨hr, by simpa using hh⟩
    · intro he2
      rw [hrun env2 _ he2]
      simp only [List.filter_filter, Bool.and_self]

/-- C12, on a concrete store: Ada logs out with her session token `tok`. -/
theorem LogoutHandler_idempotent_witness :
    (LogoutHandler sampleLib (sampleEnv Hour "") adaDB "Bearer tok").w.code = 204
    ∧ (LogoutHandler sampleLib (sampleEnv Hour "") adaDB "Bearer tok").db.sessions = [] :=
  ⟨(LogoutHandler_idempotent sampleLib (sampleEnv Hour "") (sampleEnv Hour "") adaDB "Bearer tok"
      (by decide)).1,
   congrArg DB.sessions ((LogoutHandler_idempotent sampleLib (sampleEnv Hour "")
      (sampleEnv Hour "") adaDB "Bearer tok" (by decide)).2 rfl).1⟩

/-! ## Credential change revokes sessions -/

theorem GetId_some (L : Lib) (env : Env) (rawToken : String) (w w2 : ResponseWriter)
    (db db2 : DB) (a : Int) (h : GetId L env rawToken w db = (some a, w2, db2)) :
    w2 = w ∧ db2.sessions = touchSessions env.now (HashToken L rawToken) db.sessions
      ∧ db2.users = db.users
      ∧ ∃ r, db.sessions.find? (sessionLive env.now (HashToken L rawToken)) = some r
          ∧ r.user_id = a := by
  unfold GetId at h
  simp only [] at h
  split at h
  · simp at h
  · split at h
    · simp at h
    · rename_i r hf
      simp only [Prod.mk.injEq, Option.some.injEq] at h
      obtain ⟨h1, h2, h3⟩ := h
      subst h2 h3
      exact ⟨rfl, rfl, rfl, r, hf, h1⟩

theorem touchSessions_mem (now : Int) (token : Digest) (rows : List Session) (x : Session)
    (hx : x ∈ touchSessions now token rows) :
    ∃ r ∈ rows, x.user_id = r.user_id ∧ x.token_hash = r.token_hash ∧ x.id = r.id := by
  unfold touchSessions at hx
  obtain ⟨r, hr, hxr⟩ := List.mem_map.1 hx
  refine ⟨r, hr, ?_⟩
  split at hxr <;> subst hxr <;> exact ⟨rfl, rfl, rfl⟩

theorem touch_filter_of_owned (now : Int) (token : Digest) (a : Int) (rows : List Session)
    (hown : ∀ r ∈ rows, r.token_hash = token → r.user_id = a) :
    (touchSessions now token rows).filter (fun r => !decide (r.user_id = a))
      = rows.filter (fun r => !decide (r.user_id = a)) := by
  induction rows with
  | nil => rfl
  | cons r rest ih =>
    have ih2 := ih (fun x hx => hown x (List.mem_cons_of_mem _ hx))
    unfold touchSessions at ih2 ⊢
    simp only [List.map_cons]
    by_cases hl : sessionLive now token r = true
    · have hra : r.user_id = a :=
        hown r (List.mem_cons_self _ _) ((sessionLive_iff now token r).1 hl).1
      rw [if_pos hl, List.filter_cons_of_neg (by simp [hra]),
        List.filter_cons_of_neg (by simp [hra])]
      exact ih2
    · rw [if_neg hl]
      by_cases hra : r.user_id = a
      · rw [List.filter_cons_of_neg (by simp [hra]), List.filter_cons_of_neg (by simp [hra])]
        exact ih2
      · rw [List.filter_cons_of_pos (by simp [hra]), List.filter_cons_of_pos (by simp [hra]), ih2]

theorem PasswordChangeHandler_of_204 (L : Lib) (env : Env) (db : DB) (authorization : String)
    (body : Option PasswordChangePayload) :
    ∀ o, o = PasswordChangeHandler L env db authorization body → o.w.code = 204 →
    ∃ a : Int, (GetId L env (bearer authorization) {} db).1 = some a
      ∧ o.db.sessions
          = (touchSessions env.now (HashToken L (bearer authorization)) db.sessions).filter
              (fun r => !decide (r.user_id = a)) := by
  unfold PasswordChangeHandler
  simp only []
  split
  · rename_i w2 db2 hg
    intro o ho h
    subst ho
    unfold GetId at hg
    simp only [] at hg
    split at hg
    · simp only [Prod.mk.injEq] at hg
      obtain ⟨_, hw, _⟩ := hg
      subst hw
      simp [ResponseWriter.WriteHeader, ResponseWriter.code] at h
    · split at hg
      · simp only [Prod.mk.injEq] at hg
        obtain ⟨_, hw, _⟩ := hg
        subst hw
        simp [ResponseWriter.WriteHeader, ResponseWriter.code] at h
      · simp at hg
  · rename_i a w2 db2 hg
    obtain ⟨hw, hs, _, _⟩ := GetId_some L env _ _ _ _ _ a hg
    subst hw
    rw [hg]
    repeat' split
    all_goals intro o ho h
    all_goals subst ho
    all_goals first
      | exact ⟨a, rfl, congrArg (List.filter _) hs⟩
      | (simp [ResponseWriter.WriteHeader, ResponseWriter.code] at h)
theorem PasswordResetHandler_sessions_of_204 (L : Lib) (env : Env) (db : DB) (rawToken : String)
    (body : Option PasswordPayload) :
    ∀ o, o = PasswordResetHandler L env db rawToken body → o.w.code = 204 →
    ∃ row ∈ db.reset_tokens, row.token_hash = HashToken L rawToken ∧
      o.db.sessions = db.sessions.filter (fun r => !decide (r.user_id = row.user_id)) := by
  unfold PasswordResetHandler
  simp only []
  repeat' split
  all_goals intro o ho h
  all_goals subst ho
  all_goals first
    | (have hf := ‹List.find? _ db.reset_tokens = some _›
       have h1 := List.find?_some hf
       simp only [Bool.and_eq_true, decide_eq_true_eq] at h1
       exact ⟨_, List.mem_of_find?_eq_some hf, h1.1, rfl⟩)
    | (simp [ResponseWriter.WriteHeader, ResponseWriter.code] at h)

theorem GetId_401_of_absent (L : Lib) (env : Env) (t : String) (w : ResponseWriter) (db : DB)
    (hdb : env.dbErr 0 = false) (h : ∀ r ∈ db.sessions, r.token_hash ≠ HashToken L t) :
    GetId L env t w db = (none, w.WriteHeader 401, db) := by
  apply GetId_of_find_none L env t w db hdb
  rw [List.find?_eq_none]
  intro r hr hl
  exact h r hr ((sessionLive_iff _ _ r).1 hl).1

/-- C13. A credential change revokes every session of the account. Whenever
`PasswordChangeHandler` answers 204, the request was authenticated as some
account `a`, and whenever `PasswordResetHandler` answers 204, the token row it
found belongs to some account `a`; in both cases the resulting store has no
session row with `user_id = a` (the session that authenticated the change
included), validating any session token of `a` then answers 401, and the
session rows of the other accounts are the ones the store had before. A session
token is taken to be of `a` when every row carrying its digest belongs to `a`. -/
theorem credential_change_revokes_sessions (L : Lib) (env env2 : Env) (db : DB)
    (hdb2 : env2.dbErr 0 = false) :
    (∀ (authorization : String) (body : Option PasswordChangePayload),
      (PasswordChangeHandler L env db authorization body).w.code = 204 →
      ∃ a : Int, (GetId L env (bearer authorization) {} db).1 = some a
        ∧ (∀ r ∈ (PasswordChangeHandler L env db authorization body).db.sessions, r.user_id ≠ a)
        ∧ ((∀ r ∈ db.sessions, r.token_hash = HashToken L (bearer authorization) → r.user_id = a) →
            (PasswordChangeHandler L env db authorization body).db.sessions
              = db.sessions.filter (fun r => !decide (r.user_id = a)))
        ∧ (∀ (t : String) (w : ResponseWriter),
            (∀ r ∈ db.sessions, r.token_hash = HashToken L t → r.user_id = a) →
            GetId L env2 t w (PasswordChangeHandler L env db authorization body).db
              = (none, w.WriteHeader 401, (PasswordChangeHandler L env db authorization body).db)))
    ∧ (∀ (rawToken : String) (body : Option PasswordPayload),
      (PasswordResetHandler L env db rawToken body).w.code = 204 →
      ∃ row ∈ db.reset_tokens, row.token_hash = HashToken L rawToken
        ∧ (∀ r ∈ (PasswordResetHandler L env db rawToken body).db.sessions,
            r.user_id ≠ row.user_id)
        ∧ (PasswordResetHandler L env db rawToken body).db.sessions
            = db.sessions.filter (fun r => !decide (r.user_id = row.user_id))
        ∧ (∀ (t : String) (w : ResponseWriter),
            (∀ r ∈ db.sessions, r.token_hash = HashToken L t → r.user_id = row.user_id) →
            GetId L env2 t w (PasswordResetHandler L env db rawToken body).db
              = (none, w.WriteHeader 401, (PasswordResetHandler L env db rawToken body).db))) := by
  constructor
  · intro authorization body h204
    obtain ⟨a, hg, hs⟩ := PasswordChangeHandler_of_204 L env db authorization body _ rfl h204
    refine ⟨a, hg, ?_, ?_, ?_⟩
    · intro r hr
      rw [hs] at hr
      simpa using (List.mem_filter.1 hr).2
    · intro hown
      rw [hs]
      exact touch_filter_of_owned _ _ a db.sessions hown
    · intro t w hown
      apply GetId_401_of_absent L env2 t w _ hdb2
      intro r hr hh
      rw [hs] at hr
      obtain ⟨hr1, hr2⟩ := List.mem_filter.1 hr
      obtain ⟨r0, hr0, hu, hk, _⟩ := touchSessions_mem _ _ _ r hr1
      have : r.user_id = a := by rw [hu]; exact hown r0 hr0 (by rw [← hk]; exact hh)
      simp [this] at hr2
  · intro rawToken body h204
    obtain ⟨row, hrow, hh, hs⟩ := PasswordResetHandler_sessions_of_204 L env db rawToken body _ rfl
      h204
    refine ⟨row, hrow, hh, ?_, hs, ?_⟩
    · intro r hr
      rw [hs] at hr
      simpa using (List.mem_filter.1 hr).2
    · intro t w hown
      apply GetId_401_of_absent L env2 t w _ hdb2
      intro r hr hht
      rw [hs] at hr
      obtain ⟨hr1, hr2⟩ := List.mem_filter.1 hr
      have : r.user_id = row.user_id := hown r hr1 hht
      simp [this] at hr2

/-- C13, on a concrete store: Ada changes her password with the session of
token `tok`; the token then fails validation. -/
theorem credential_change_revokes_sessions_witness :
    (PasswordChangeHandler sampleLib (sampleEnv Hour "") adaDB "Bearer tok"
        (some ⟨"password1", "password2"⟩)).w.code = 204
    ∧ ∃ a : Int, (GetId sampleLib (sampleEnv Hour "") (bearer "Bearer tok") {} adaDB).1 = some a
      ∧ ∀ r ∈ (PasswordChangeHandler sampleLib (sampleEnv Hour "") adaDB "Bearer tok"
          (some ⟨"password1", "password2"⟩)).db.sessions, r.user_id ≠ a :=
  ⟨by decide,
   (((credential_change_revokes_sessions sampleLib (sampleEnv Hour "") (sampleEnv (2 * Hour) "")
      adaDB rfl).1 "Bearer tok" (some ⟨"password1", "password2"⟩) (by decide)).imp
      (fun _ h => ⟨h.1, h.2.1⟩))⟩

/-! ## Password reset is not one logical unit -/

/-- C14. Password reset is not applied as one unit. `PasswordResetHandler` runs
its three writes as separate statements outside any transaction, in the order
password digest, reset-token row, session rows. For a request with a password
of at least 8 bytes and a reset token found in the store: when the statement
deleting the reset-token row fails, the answer is 500, the password digest of
the account has been overwritten and every session row and reset-token row is
still present; when that statement succeeds and the statement deleting the
sessions fails, the answer is 500, the password digest has been overwritten, the
reset-token row is gone and every session row is still present. -/
theorem PasswordResetHandler_partial_application (L : Lib) (env : Env) (db : DB)
    (rawToken : String) (p : PasswordPayload) (hash : String) (row : ResetToken)
    (hlen : 8 ≤ len p.Password) (h0 : env.dbErr 0 = false) (h1 : env.dbErr 1 = false)
    (hh : env.CreateHash p.Password = some hash)
    (hrow : db.reset_tokens.find? (fun r =>
        decide (r.token_hash = HashToken L rawToken) && decide (r.created_at ≥ env.now - Day))
          = some row) :
    (env.dbErr 2 = true →
      (PasswordResetHandler L env db rawToken (some p)).w.code = 500
      ∧ (PasswordResetHandler L env db rawToken (some p)).db.users
          = db.users.map
              (fun u => if u.id = row.user_id then { u with password_hash := hash } else u)
      ∧ (PasswordResetHandler L env db rawToken (some p)).db.sessions = db.sessions
      ∧ (PasswordResetHandler L env db rawToken (some p)).db.reset_tokens = db.reset_tokens)
    ∧ (env.dbErr 2 = false → env.dbErr 3 = true →
      (PasswordResetHandler L env db rawToken (some p)).w.code = 500
      ∧ (PasswordResetHandler L env db rawToken (some p)).db.users
          = db.users.map
              (fun u => if u.id = row.user_id then { u with password_hash := hash } else u)
      ∧ (PasswordResetHandler L env db rawToken (some p)).db.sessions = db.sessions
      ∧ (PasswordResetHandler L env db rawToken (some p)).db.reset_tokens
          = db.reset_tokens.filter (fun r => !decide (r.user_id = row.user_id))) := by
  have hl : ¬ len p.Password < 8 := by omega
  constructor
  · intro h2
    simp only [PasswordResetHandler, h0, h1, h2, hrow, hl, hh, ResponseWriter.WriteHeader,
      ResponseWriter.code, Bool.false_eq_true, if_false, if_true, Err_users, Err_sessions,
      Err_reset_tokens, Option.getD_some, and_self]
  · intro h2 h3
    simp only [PasswordResetHandler, h0, h1, h2, h3, hrow, hl, hh, ResponseWriter.WriteHeader,
      ResponseWriter.code, Bool.false_eq_true, if_false, if_true, Err_users, Err_sessions,
      Err_reset_tokens, Option.getD_some, and_self]

/-- C14, on a concrete store: Ada resets her password to `password2` with the
token `t1` while the statement deleting the reset-token row fails. The answer is
500, her stored digest is `password2`, and her session and the token are still
in the store. -/
theorem PasswordResetHandler_partial_application_witness :
    (PasswordResetHandler sampleLib { sampleEnv Hour "" with dbErr := fun k => decide (k = 2) }
        adaResetDB "t1" (some ⟨"password2"⟩)).w.code = 500
    ∧ (PasswordResetHandler sampleLib { sampleEnv Hour "" with dbErr := fun k => decide (k = 2) }
        adaResetDB "t1" (some ⟨"password2"⟩)).db.users
          = [{ ada with password_hash := "password2" }]
    ∧ (PasswordResetHandler sampleLib { sampleEnv Hour "" with dbErr := fun k => decide (k = 2) }
        adaResetDB "t1" (some ⟨"password2"⟩)).db.sessions = adaDB.sessions
    ∧ (PasswordResetHandler sampleLib { sampleEnv Hour "" with dbErr := fun k => decide (k = 2) }
        adaResetDB "t1" (some ⟨"password2"⟩)).db.reset_tokens = adaResetDB.reset_tokens :=
  (PasswordResetHandler_partial_application sampleLib
    { sampleEnv Hour "" with dbErr := fun k => decide (k = 2) } adaResetDB "t1" ⟨"password2"⟩
    "password2" ⟨7, HashToken sampleLib "t1", 0⟩ (by decide) rfl rfl rfl (by decide)).1 rfl

/-! ## Login -/

theorem emailInv_of_same (L : Lib) (db db2 : DB)
    (hu : db2.users.map (fun u => (u.id, u.email)) = db.users.map (fun u => (u.id, u.email)))
    (ht : ∀ r ∈ db2.email_change_tokens,
      r ∈ db.email_change_tokens ∨ L.ToLower r.new_email = r.new_email)
    (h : EmailInv L db) : EmailInv L db2 := by
  obtain ⟨h1, h2, h3, h4⟩ := h
  have e1 : ∀ l : List User, (∀ u ∈ l, L.ToLower u.email = u.email) ↔
      ∀ x ∈ l.map (fun u => (u.id, u.email)), L.ToLower x.2 = x.2 := by
    intro l; simp
  have e3 : ∀ l : List User, l.Pairwise (fun u v => u.id ≠ v.id) ↔
      (l.map (fun u => (u.id, u.email))).Pairwise (fun x y => x.1 ≠ y.1) := by
    intro l; rw [List.pairwise_map]
  have e4 : ∀ l : List User, l.Pairwise (fun u v => L.ToLower u.email ≠ L.ToLower v.email) ↔
      (l.map (fun u => (u.id, u.email))).Pairwise (fun x y => L.ToLower x.2 ≠ L.ToLower y.2) := by
    intro l; rw [List.pairwise_map]
  refine ⟨?_, ?_, ?_, ?_⟩
  · rw [e1, hu, ← e1]; exact h1
  · intro r hr
    rcases ht r hr with h | h
    · exact h2 r h
    · exact h
  · rw [e3, hu, ← e3]; exact h3
  · unfold EmailsUnique at h4 ⊢
    rw [e4, hu, ← e4]; exact h4

theorem emailInv_append (L : Lib) (db db2 : DB) (u : User)
    (hu : db2.users = db.users ++ [u])
    (ht : db2.email_change_tokens = db.email_change_tokens)
    (hlow : L.ToLower u.email = u.email)
    (hid : ∀ v ∈ db.users, v.id ≠ u.id)
    (hne : ∀ v ∈ db.users, v.email ≠ u.email)
    (h : EmailInv L db) : EmailInv L db2 := by
  obtain ⟨h1, h2, h3, h4⟩ := h
  unfold EmailsUnique at h4
  refine ⟨?_, ?_, ?_, ?_⟩
  · intro v hv
    rw [hu, List.mem_append, List.mem_singleton] at hv
    rcases hv with hv | hv
    · exact h1 v hv
    · rw [hv]; exact hlow
  · rw [ht]; exact h2
  · rw [hu, List.pairwise_append]
    refine ⟨h3, List.pairwise_singleton _ _, ?_⟩
    intro a ha b hb
    rw [List.mem_singleton] at hb
    rw [hb]; exact hid a ha
  · unfold EmailsUnique
    rw [hu, List.pairwise_append]
    refine ⟨h4, List.pairwise_singleton _ _, ?_⟩
    intro a ha b hb
    rw [List.mem_singleton] at hb
    rw [hb, h1 a ha, hlow]; exact hne a ha

theorem pairwise_setEmail (L : Lib) (a : Int) (e : String) (l : List User)
    (hid : l.Pairwise (fun u v => u.id ≠ v.id))
    (hem : l.Pairwise (fun u v => L.ToLower u.email ≠ L.ToLower v.email))
    (hne : ∀ v ∈ l, L.ToLower v.email ≠ L.ToLower e) :
    (l.map (fun u => if u.id = a then { u with email := e } else u)).Pairwise
      (fun u v => L.ToLower u.email ≠ L.ToLower v.email) := by
  induction l with
  | nil => exact List.Pairwise.nil
  | cons x xs ih =>
    rw [List.pairwise_cons] at hid hem
    rw [List.map_cons, List.pairwise_cons]
    refine ⟨?_, ih hid.2 hem.2 (fun v hv => hne v (List.mem_cons_of_mem _ hv))⟩
    intro y hy
    rw [List.mem_map] at hy
    obtain ⟨v, hv, rfl⟩ := hy
    by_cases hx : x.id = a
    · have hva : ¬ v.id = a := fun h => hid.1 v hv (hx.trans h.symm)
      simp only [hx, hva, if_true, if_false]
      exact fun h => hne v (List.mem_cons_of_mem _ hv) h.symm
    · by_cases hva : v.id = a
      · simp only [hx, hva, if_true, if_false]
        exact hne x (List.mem_cons_self _ _)
      · simp only [hx, hva, if_false]
        exact hem.1 v hv

theorem emailInv_setEmail (L : Lib) (db db2 : DB) (a : Int) (e : String)
    (hu : db2.users = db.users.map (fun u => if u.id = a then { u with email := e } else u))
    (ht : ∀ r ∈ db2.email_change_tokens, r ∈ db.email_change_tokens)
    (hlow : L.ToLower e = e)
    (hne : ∀ v ∈ db.users, v.email ≠ e)
    (h : EmailInv L db) : EmailInv L db2 := by
  obtain ⟨h1, h2, h3, h4⟩ := h
  refine ⟨?_, fun r hr => h2 r (ht r hr), ?_, ?_⟩
  · intro v hv
    rw [hu, List.mem_map] at hv
    obtain ⟨x, hx, rfl⟩ := hv
    by_cases hxa : x.id = a
    · simp only [hxa, if_true]; exact hlow
    · simp only [hxa, if_false]; exact h1 x hx
  · rw [hu, List.pairwise_map]
    refine h3.imp ?_
    intro x y hxy
    by_cases hxa : x.id = a <;> by_cases hya : y.id = a <;> simp only [hxa, hya, if_true, if_false]
    all_goals first
      | exact hxy
      | (rw [← hxa]; exact hxy)
      | (rw [← hya]; exact hxy)
      | (exact absurd (hxa.trans hya.symm) hxy)
  · unfold EmailsUnique
    rw [hu]
    exact pairwise_setEmail L a e db.users h3 h4
      (fun v hv => by rw [h1 v hv, hlow]; exact hne v hv)
theorem TokenCheckHandler_addresses (L : Lib) (env : Env) (db : DB) (authorization : String) :
    ∀ o, o = TokenCheckHandler L env db authorization →
    o.db.users = db.users ∧ o.db.email_change_tokens = db.email_change_tokens := by
  unfold TokenCheckHandler
  simp only []
  repeat' split
  all_goals intro o ho
  all_goals subst ho
  all_goals simp

theorem EmailVerificationHandler_addresses (L : Lib) (env : Env) (db : DB) (rawToken : String) :
    ∀ o, o = EmailVerificationHandler L env db rawToken →
    o.db.users.map (fun u => (u.id, u.email)) = db.users.map (fun u => (u.id, u.email))
    ∧ o.db.email_change_tokens = db.email_change_tokens := by
  unfold EmailVerificationHandler
  simp only []
  repeat' split
  all_goals intro o ho
  all_goals subst ho
  all_goals simp
  all_goals (intro u _; split <;> simp_all)

theorem ResendEmailVerificationHandler_addresses (L : Lib) (env : Env) (db : DB)
    (body : Option EmailPayload) :
    ∀ o, o = ResendEmailVerificationHandler L env db body →
    o.db.users = db.users ∧ o.db.email_change_tokens = db.email_change_tokens := by
  unfold ResendEmailVerificationHandler
  simp only []
  repeat' split
  all_goals intro o ho
  all_goals subst ho
  all_goals simp

theorem SendPasswordResetHandler_addresses (L : Lib) (env : Env) (db : DB)
    (body : Option EmailPayload) :
    ∀ o, o = SendPasswordResetHandler L env db body →
    o.db.users = db.users ∧ o.db.email_change_tokens = db.email_change_tokens := by
  unfold SendPasswordResetHandler
  simp only []
  repeat' split
  all_goals intro o ho
  all_goals subst ho
  all_goals simp

theorem PasswordResetHandler_addresses (L : Lib) (env : Env) (db : DB) (rawToken : String)
    (body : Option PasswordPayload) :
    ∀ o, o = PasswordResetHandler L env db rawToken body →
    o.db.users.map (fun u => (u.id, u.email)) = db.users.map (fun u => (u.id, u.email))
    ∧ o.db.email_change_tokens = db.email_change_tokens := by
  unfold PasswordResetHandler
  simp only []
  repeat' split
  all_goals intro o ho
  all_goals subst ho
  all_goals simp
  all_goals (intro u _; split <;> simp_all)
theorem PasswordChangeHandler_addresses (L : Lib) (env : Env) (db : DB) (authorization : String)
    (body : Option PasswordChangePayload) :
    ∀ o, o = PasswordChangeHandler L env db authorization body →
    o.db.users.map (fun u => (u.id, u.email)) = db.users.map (fun u => (u.id, u.email))
    ∧ o.db.email_change_tokens = db.email_change_tokens := by
  unfold PasswordChangeHandler
  simp only []
  split
  all_goals rename_i hg
  all_goals obtain ⟨h0, _, _, h3, _⟩ := GetId_tables _ _ _ _ _ _ _ _ hg
  · intro o ho; subst ho; exact ⟨by rw [h0], h3⟩
  · repeat' split
    all_goals intro o ho
    all_goals subst ho
    all_goals simp [h0, h3]
    all_goals (intro u _; split <;> simp_all)

theorem UpdateProfileHandler_addresses (L : Lib) (env : Env) (db : DB) (authorization : String)
    (body : Option NamePayload) :
    ∀ o, o = UpdateProfileHandler L env db authorization body →
    o.db.users.map (fun u => (u.id, u.email)) = db.users.map (fun u => (u.id, u.email))
    ∧ o.db.email_change_tokens = db.email_change_tokens := by
  unfold UpdateProfileHandler
  simp only []
  by_cases ht : bearer authorization = ""
  · rw [if_pos ht]; intro o ho; subst ho; simp
  · rw [if_neg ht]
    split
    all_goals rename_i hg
    all_goals obtain ⟨h0, _, _, h3, _⟩ := GetId_tables _ _ _ _ _ _ _ _ hg
    · intro o ho; subst ho; exact ⟨by rw [h0], h3⟩
    · repeat' split
      all_goals intro o ho
      all_goals subst ho
      all_goals simp [h0, h3]
      all_goals (intro u _; split <;> simp_all)

theorem RequestEmailChangeHandler_addresses (L : Lib) (env : Env) (db : DB)
    (authorization : String) (body : Option EmailPayload) :
    ∀ o, o = RequestEmailChangeHandler L env db authorization body →
    o.db.users = db.users
    ∧ ∀ r ∈ o.db.email_change_tokens, r ∈ db.email_change_tokens
        ∨ ∃ s, r.new_email = L.TrimSpace (L.ToLower s) := by
  unfold RequestEmailChangeHandler
  simp only []
  by_cases ht : bearer authorization = ""
  · rw [if_pos ht]; intro o ho; subst ho; exact ⟨rfl, fun r hr => Or.inl hr⟩
  · rw [if_neg ht]
    split
    all_goals rename_i hg
    all_goals obtain ⟨h0, _, _, h3, _⟩ := GetId_tables _ _ _ _ _ _ _ _ hg
    · intro o ho; subst ho; exact ⟨h0, fun r hr => Or.inl (h3 ▸ hr)⟩
    · repeat' split
      all_goals intro o ho
      all_goals subst ho
      all_goals refine ⟨by simp [h0], ?_⟩
      all_goals simp only [Err_email_change_tokens]
      all_goals intro r hr
      all_goals first
        | exact Or.inl (h3 ▸ hr)
        | (rcases mem_upsertEmailChangeToken _ _ _ _ _ _ hr with h | h
           · exact Or.inr ⟨_, h.2.2.1⟩
           · exact Or.inl (h3 ▸ h.1))
theorem RegistrationHandler_addresses (L : Lib) (env : Env) (db : DB)
    (body : Option RegistrationPayload) :
    ∀ o, o = RegistrationHandler L env db body →
    o.db.email_change_tokens = db.email_change_tokens
    ∧ (o.db.users = db.users
      ∨ ∃ (n : Nat) (name s hash : String), env.NextID = some n
          ∧ (∀ v ∈ db.users, v.email ≠ L.TrimSpace (L.ToLower s))
          ∧ o.db.users = db.users ++
              [{ id := Int.ofNat n, name := name, email := L.TrimSpace (L.ToLower s),
                 password_hash := hash, email_verified := defaultEmailVerified }]) := by
  unfold RegistrationHandler
  simp only []
  repeat' split
  all_goals intro o ho
  all_goals subst ho
  all_goals refine ⟨by simp, ?_⟩
  all_goals first
    | (apply Or.inl; simp; done)
    | (apply Or.inr
       apply Exists.intro
       apply Exists.intro
       apply Exists.intro
       apply Exists.intro
       refine ⟨?h1, ?h2, ?h3⟩
       case h3 => simp only [Err_users]; rfl
       case h1 => assumption
       case h2 =>
         have hany := ‹¬ (db.users.any _) = true›
         simpa using hany)

theorem UpdateEmail_addresses (L : Lib) (env : Env) (db : DB) (rawToken : String) :
    ∀ o, o = UpdateEmail L env db rawToken →
    (∀ r ∈ o.db.email_change_tokens, r ∈ db.email_change_tokens)
    ∧ (o.db.users = db.users
      ∨ ∃ row ∈ db.email_change_tokens, (∀ v ∈ db.users, v.email ≠ row.new_email)
          ∧ o.db.users = db.users.map
              (fun u => if u.id = row.user_id then { u with email := row.new_email } else u)) := by
  unfold UpdateEmail
  simp only []
  repeat' split
  all_goals intro o ho
  all_goals subst ho
  all_goals refine ⟨?_, ?_⟩
  all_goals simp only [Err_email_change_tokens, Err_users]
  all_goals first
    | exact fun r hr => hr
    | exact fun r hr => (List.mem_filter.1 hr).1
    | exact Or.inl trivial
    | exact Or.inl rfl
    | (refine Or.inr ⟨_, List.mem_of_find?_eq_some ‹_›, ?_, rfl⟩
       have hany := ‹¬ (db.users.any _) = true›
       simpa using hany)

theorem handle_emailInv (L : Lib)
    (hlaw : ∀ s, L.ToLower (L.TrimSpace (L.ToLower s)) = L.TrimSpace (L.ToLower s))
    (env : Env) (db : DB) (req : Request) (h : EmailInv L db)
    (hfresh : (∃ body, req = Request.register body) → freshId env db) :
    EmailInv L (handle L env db req).db := by
  cases req with
  | register body =>
    obtain ⟨ht, hu | ⟨n, name, s, hash, hn, hne, hu⟩⟩ :=
      RegistrationHandler_addresses L env db body _ rfl
    · exact emailInv_of_same L db _ (congrArg (List.map fun u => (u.id, u.email)) hu) (fun r hr => Or.inl (ht ▸ hr)) h
    · exact emailInv_append L db _ _ hu ht (hlaw s) (hfresh ⟨body, rfl⟩ n hn) hne h
  | resendVerification body =>
    obtain ⟨hu, ht⟩ := ResendEmailVerificationHandler_addresses L env db body _ rfl
    exact emailInv_of_same L db _ (congrArg (List.map fun u => (u.id, u.email)) hu) (fun r hr => Or.inl (ht ▸ hr)) h
  | verify rawToken =>
    obtain ⟨hu, ht⟩ := EmailVerificationHandler_addresses L env db rawToken _ rfl
    exact emailInv_of_same L db _ hu (fun r hr => Or.inl (ht ▸ hr)) h
  | requestReset body =>
    obtain ⟨hu, ht⟩ := SendPasswordResetHandler_addresses L env db body _ rfl
    exact emailInv_of_same L db _ (congrArg (List.map fun u => (u.id, u.email)) hu) (fun r hr => Or.inl (ht ▸ hr)) h
  | reset rawToken body =>
    obtain ⟨hu, ht⟩ := PasswordResetHandler_addresses L env db rawToken body _ rfl
    exact emailInv_of_same L db _ hu (fun r hr => Or.inl (ht ▸ hr)) h
  | requestEmailChange a body =>
    obtain ⟨hu, ht⟩ := RequestEmailChangeHandler_addresses L env db a body _ rfl
    refine emailInv_of_same L db _ (congrArg (List.map fun u => (u.id, u.email)) hu) (fun r hr => ?_) h
    rcases ht r hr with h1 | ⟨s, hs⟩
    · exact Or.inl h1
    · exact Or.inr (by rw [hs]; exact hlaw s)
  | updateEmail rawToken =>
    obtain ⟨ht, hu | ⟨row, hrow, hne, hu⟩⟩ := UpdateEmail_addresses L env db rawToken _ rfl
    · exact emailInv_of_same L db _ (congrArg (List.map fun u => (u.id, u.email)) hu) (fun r hr => Or.inl (ht r hr)) h
    · exact emailInv_setEmail L db _ row.user_id row.new_email hu ht (h.2.1 row hrow) hne h
  | tokenCheck a =>
    obtain ⟨hu, ht⟩ := TokenCheckHandler_addresses L env db a _ rfl
    exact emailInv_of_same L db _ (congrArg (List.map fun u => (u.id, u.email)) hu) (fun r hr => Or.inl (ht ▸ hr)) h
  | login body =>
    obtain ⟨hu, _, _, ht, _⟩ := LoginHandler_tables L env db body
    exact emailInv_of_same L db _ (congrArg (List.map fun u => (u.id, u.email)) hu) (fun r hr => Or.inl (ht ▸ hr)) h
  | logout a =>
    obtain ⟨hu, _, _, ht, _⟩ := LogoutHandler_tables L env db a
    exact emailInv_of_same L db _ (congrArg (List.map fun u => (u.id, u.email)) hu) (fun r hr => Or.inl (ht ▸ hr)) h
  | changePassword a body =>
    obtain ⟨hu, ht⟩ := PasswordChangeHandler_addresses L env db a body _ rfl
    exact emailInv_of_same L db _ hu (fun r hr => Or.inl (ht ▸ hr)) h
  | profile a =>
    obtain ⟨hu, _, _, ht, _⟩ := ProfileHandler_tables L env db a
    exact emailInv_of_same L db _ (congrArg (List.map fun u => (u.id, u.email)) hu) (fun r hr => Or.inl (ht ▸ hr)) h
  | updateProfile a body =>
    obtain ⟨hu, ht⟩ := UpdateProfileHandler_addresses L env db a body _ rfl
    exact emailInv_of_same L db _ hu (fun r hr => Or.inl (ht ▸ hr)) h

theorem run_emailInv (L : Lib)
    (hlaw : ∀ s, L.ToLower (L.TrimSpace (L.ToLower s)) = L.TrimSpace (L.ToLower s))
    (reqs : List (Env × Request)) (db : DB) (h : EmailInv L db) (hfresh : freshIds L db reqs) :
    EmailInv L (run L db reqs) := by
  induction reqs generalizing db with
  | nil => exact h
  | cons r rest ih =>
    obtain ⟨env, req⟩ := r
    exact ih _ (handle_emailInv L hlaw env db req h hfresh.1) hfresh.2
theorem RegistrationHandler_held (L : Lib) (env : Env) (db : DB) (p : RegistrationPayload)
    (hheld : db.users.any (fun u => decide (u.email = L.TrimSpace (L.ToLower p.Email))) = true) :
    ∀ o, o = RegistrationHandler L env db (some p) → o.db.users = db.users := by
  unfold RegistrationHandler
  simp only [hheld, if_true]
  repeat' split
  all_goals intro o ho
  all_goals subst ho
  all_goals simp

theorem lowerChar_idem (c : Char) : lowerChar (lowerChar c) = lowerChar c := by
  have hfix : ∀ p ∈ asciiLower, lowerChar p.2 = p.2 := by decide
  unfold lowerChar
  cases hf : asciiLower.find? (fun p => p.1 == c) with
  | none => simp only [Option.map_none', Option.getD_none, hf]
  | some p =>
    simp only [Option.map_some', Option.getD_some]
    exact hfix p (List.mem_of_find?_eq_some hf)

theorem lowerLib_law (s : String) :
    lowerLib.ToLower (lowerLib.TrimSpace (lowerLib.ToLower s))
      = lowerLib.TrimSpace (lowerLib.ToLower s) := by
  show lowerString (trimBlanks (lowerString s)) = trimBlanks (lowerString s)
  unfold lowerString trimBlanks
  apply congrArg String.mk
  refine (List.map_congr_left ?_).trans (List.map_id _)
  intro c hc
  have h1 : c ∈ (List.map lowerChar s.data).dropWhile (fun c => c == ' ') := by
    have := (List.dropWhile_suffix (fun c : Char => c == ' ')
      (l := ((List.map lowerChar s.data).dropWhile (fun c => c == ' ')).reverse)).subset
    exact List.mem_reverse.1 (this (List.mem_reverse.1 hc))
  have h2 : c ∈ List.map lowerChar s.data :=
    (List.dropWhile_suffix (fun c : Char => c == ' ')).subset h1
  obtain ⟨d, _, rfl⟩ := List.mem_map.1 h2
  exact lowerChar_idem d

/-- C17, the claim as stated fails: the property "account emails pairwise
distinct ignoring case" alone is not preserved, because the handlers compare
stored addresses exactly. From a store whose one account holds `Ada@x.com`, the
registration of `ada@x.com` is answered 201 and leaves two accounts whose
addresses are equal ignoring case. From a store whose account addresses are in
lower case and distinct, in which Bob has a pending change towards `ADA@x.com`,
`UpdateEmail` is answered 204 and Bob's address equals Ada's ignoring case. From
a store in which two accounts share an id, `UpdateEmail` gives both the same
address. -/
theorem email_uniqueness_counterexample :
    (EmailsUnique lowerLib adaUpperDB
      ∧ (RegistrationHandler lowerLib (sampleEnv Hour "t2") adaUpperDB
          (some ⟨"Eve", "ada@x.com", "password1"⟩)).w.code = 201
      ∧ (RegistrationHandler lowerLib (sampleEnv Hour "t2") adaUpperDB
          (some ⟨"Eve", "ada@x.com", "password1"⟩)).db.users.map (fun u => u.email)
          = ["Ada@x.com", "ada@x.com"]
      ∧ ¬ EmailsUnique lowerLib (RegistrationHandler lowerLib (sampleEnv Hour "t2") adaUpperDB
          (some ⟨"Eve", "ada@x.com", "password1"⟩)).db)
    ∧ (EmailsUnique lowerLib upperTargetDB
      ∧ (UpdateEmail lowerLib (sampleEnv Hour "") upperTargetDB "t1").w.code = 204
      ∧ (UpdateEmail lowerLib (sampleEnv Hour "") upperTargetDB "t1").db.users.map
          (fun u => u.email) = ["ada@x.com", "ADA@x.com"]
      ∧ ¬ EmailsUnique lowerLib (UpdateEmail lowerLib (sampleEnv Hour "") upperTargetDB "t1").db)
    ∧ (EmailsUnique lowerLib sharedIdDB
      ∧ (UpdateEmail lowerLib (sampleEnv Hour "") sharedIdDB "t1").w.code = 204
      ∧ (UpdateEmail lowerLib (sampleEnv Hour "") sharedIdDB "t1").db.users.map
          (fun u => u.email) = ["new1@x.com", "new1@x.com"]
      ∧ ¬ EmailsUnique lowerLib (UpdateEmail lowerLib (sampleEnv Hour "") sharedIdDB "t1").db)
    ∧ ¬ (∀ (L : Lib) (env : Env) (db : DB) (req : Request),
          EmailsUnique L db → EmailsUnique L (handle L env db req).db) := by
  have h1 : EmailsUnique lowerLib adaUpperDB
      ∧ (RegistrationHandler lowerLib (sampleEnv Hour "t2") adaUpperDB
          (some ⟨"Eve", "ada@x.com", "password1"⟩)).w.code = 201
      ∧ (RegistrationHandler lowerLib (sampleEnv Hour "t2") adaUpperDB
          (some ⟨"Eve", "ada@x.com", "password1"⟩)).db.users.map (fun u => u.email)
          = ["Ada@x.com", "ada@x.com"]
      ∧ ¬ EmailsUnique lowerLib (RegistrationHandler lowerLib (sampleEnv Hour "t2") adaUpperDB
          (some ⟨"Eve", "ada@x.com", "password1"⟩)).db := by
    unfold EmailsUnique
    decide
  refine ⟨h1, ?_, ?_, ?_⟩
  · unfold EmailsUnique
    decide
  · unfold EmailsUnique
    decide
  · intro h
    exact h1.2.2.2 (h lowerLib (sampleEnv Hour "t2") adaUpperDB
      (Request.register (some ⟨"Eve", "ada@x.com", "password1"⟩)) h1.1)

/-- C17 (amended). Email uniqueness is a reachable-state invariant. The state
invariant `EmailInv` (account emails and pending email-change targets in lower
case, as every address the handlers store is; account ids pairwise distinct;
account emails pairwise distinct ignoring case) holds in the empty store and is
preserved by every handler, a registration being made with a fresh id; so after
every sequence of requests from such a store the account emails are pairwise
distinct ignoring case. `RegistrationHandler` inserts nothing when the
normalised email is already held by an account, and answers 409 with the store
unchanged once the payload is valid and no collaborator fails. `UpdateEmail`
re-checks at consumption time: when the `new_email` of the token it consumes,
not expired, is by then held by an account, it answers 409 and leaves every
account unchanged. Normalising is taken to yield lower-case text:
`ToLower (TrimSpace (ToLower s)) = TrimSpace (ToLower s)`. -/
theorem email_uniqueness_invariant (L : Lib)
    (hlaw : ∀ s, L.ToLower (L.TrimSpace (L.ToLower s)) = L.TrimSpace (L.ToLower s)) :
    EmailInv L {}
    ∧ (∀ (env : Env) (db : DB) (req : Request), EmailInv L db →
        ((∃ body, req = Request.register body) → freshId env db) →
        EmailInv L (handle L env db req).db)
    ∧ (∀ (db : DB) (reqs : List (Env × Request)), EmailInv L db → freshIds L db reqs →
        EmailInv L (run L db reqs) ∧ EmailsUnique L (run L db reqs))
    ∧ (∀ (env : Env) (db : DB) (p : RegistrationPayload),
        db.users.any (fun u => decide (u.email = L.TrimSpace (L.ToLower p.Email))) = true →
        (RegistrationHandler L env db (some p)).db.users = db.users
        ∧ (L.ParseAddress (L.TrimSpace (L.ToLower p.Email)) = true → len p.Name ≤ 64 →
            len (L.TrimSpace (L.ToLower p.Email)) ≤ 254 → 8 ≤ len p.Password →
            (env.CreateHash p.Password).isSome = true → env.NextID.isSome = true →
            env.dbErr 0 = false →
            RegistrationHandler L env db (some p) = { w := { status := some 409 }, db := db }))
    ∧ (∀ (env : Env) (db : DB) (rawToken : String) (row : EmailChangeToken),
        env.dbErr 0 = false → env.dbErr 1 = false →
        db.email_change_tokens.find? (fun r => decide (r.token_hash = HashToken L rawToken))
          = some row →
        env.now - row.created_at ≤ 24 * Hour →
        db.users.any (fun u => decide (u.email = row.new_email)) = true →
        (UpdateEmail L env db rawToken).w.code = 409
        ∧ (UpdateEmail L env db rawToken).db.users = db.users) := by
  refine ⟨?_, fun env db req h hf => handle_emailInv L hlaw env db req h hf, ?_, ?_, ?_⟩
  · exact ⟨fun u hu => absurd hu (List.not_mem_nil u), fun r hr => absurd hr (List.not_mem_nil r),
      List.Pairwise.nil, List.Pairwise.nil⟩
  · intro db reqs h hf
    exact ⟨run_emailInv L hlaw reqs db h hf, (run_emailInv L hlaw reqs db h hf).2.2.2⟩
  · intro env db p hheld
    constructor
    · exact RegistrationHandler_held L env db p hheld _ rfl
    · intro hparse hname hmail hpw hhash hid h0
      obtain ⟨hash, hhash⟩ := Option.isSome_iff_exists.1 hhash
      obtain ⟨n, hid⟩ := Option.isSome_iff_exists.1 hid
      have hv : (decide (len p.Name > 64) || decide (len (L.TrimSpace (L.ToLower p.Email)) > 254)
          || decide (len p.Password < 8)) = false := by
        simp only [Bool.or_eq_false_iff, decide_eq_false_iff_not]
        omega
      simp only [RegistrationHandler, hparse, hv, hhash, hid, h0, hheld,
        ResponseWriter.WriteHeader, Bool.false_eq_true, if_false, if_true, Bool.not_true]
  · intro env db rawToken row h0 h1 hf hfresh hheld
    have hexp : ¬ env.now - row.created_at > 24 * Hour := by omega
    simp only [UpdateEmail, h0, h1, hf, hexp, hheld, ResponseWriter.WriteHeader,
      ResponseWriter.code, Bool.false_eq_true, if_false, if_true, Option.getD_some, and_self]

/-- C17 (amended), on a concrete store, with case folding and trimming that act:
from the store holding Ada, the registration of ` ADA@x.com` (her address once
normalised, answered 409) and the registration of `Bob@x.com` lead to a store
whose addresses are `ada@x.com` and `bob@x.com`, pairwise distinct ignoring
case. -/
theorem email_uniqueness_invariant_witness :
    (run lowerLib adaDB
        [(sampleEnv Hour "t1", Request.register (some ⟨"Eve", " ADA@x.com", "password1"⟩)),
         (sampleEnv Hour "t2", Request.register (some ⟨"Bob", "Bob@x.com", "password1"⟩))]).users.map
        (fun u => u.email) = ["ada@x.com", "bob@x.com"]
    ∧ EmailsUnique lowerLib
      (run lowerLib adaDB
        [(sampleEnv Hour "t1", Request.register (some ⟨"Eve", " ADA@x.com", "password1"⟩)),
         (sampleEnv Hour "t2", Request.register (some ⟨"Bob", "Bob@x.com", "password1"⟩))]) :=
  ⟨by decide,
   ((email_uniqueness_invariant lowerLib lowerLib_law).2.2.1 adaDB
    [(sampleEnv Hour "t1", Request.register (some ⟨"Eve", " ADA@x.com", "password1"⟩)),
     (sampleEnv Hour "t2", Request.register (some ⟨"Bob", "Bob@x.com", "password1"⟩))]
    ⟨by decide, by decide, by decide, by unfold EmailsUnique; decide⟩
    ⟨fun _ n hn => by cases hn; decide, fun _ n hn => by cases hn; decide, trivial⟩).2⟩

/-! ## Email change: addresses in flight -/

theorem emailTaken_iff (L : Lib) (now : Int) (db : DB) (email : String) (userID : Int) :
    emailTaken L now db email userID = true ↔
      (∃ v ∈ db.users, L.LOWER v.email = L.LOWER email ∧ v.id ≠ userID)
      ∨ (∃ r ∈ db.email_change_tokens, L.LOWER r.new_email = L.LOWER email
          ∧ now - r.created_at ≤ Day ∧ r.user_id ≠ userID) := by
  unfold emailTaken
  simp only [Bool.or_eq_true, List.any_eq_true, Bool.and_eq_true, decide_eq_true_eq]
  constructor
  · rintro (⟨v, hv, h1, h2⟩ | ⟨r, hr, ⟨h1, h2⟩, h3⟩)
    · exact Or.inl ⟨v, hv, h1, h2⟩
    · exact Or.inr ⟨r, hr, h1, by omega, h3⟩
  · rintro (⟨v, hv, h1, h2⟩ | ⟨r, hr, h1, h2, h3⟩)
    · exact Or.inl ⟨v, hv, h1, h2⟩
    · exact Or.inr ⟨r, hr, ⟨h1, by omega⟩, h3⟩

theorem RequestEmailChangeHandler_taken (L : Lib) (env : Env) (db : DB) (authorization : String)
    (p : EmailPayload) (s : Session) (u : User)
    (hdb : ∀ k, env.dbErr k = false)
    (hbearer : bearer authorization ≠ "")
    (hs : db.sessions.find? (sessionLive env.now (HashToken L (bearer authorization))) = some s)
    (hlen : len (L.TrimSpace (L.ToLower p.Email)) ≤ 254)
    (hvalid : L.ParseAddress (L.TrimSpace (L.ToLower p.Email)) = true)
    (hu : db.users.find? (fun u => decide (u.id = s.user_id)) = some u)
    (hdiff : L.TrimSpace (L.ToLower p.Email) ≠ u.email)
    (htaken : emailTaken L env.now db (L.TrimSpace (L.ToLower p.Email)) s.user_id = true) :
    RequestEmailChangeHandler L env db authorization (some p) =
      { w := { status := some 409 },
        db := { db with
          sessions := touchSessions env.now (HashToken L (bearer authorization)) db.sessions } } := by
  have hg := GetId_of_find_some L env (bearer authorization) {} db s (hdb 0) hs
  have hl : ¬ len (L.TrimSpace (L.ToLower p.Email)) > 254 := by omega
  have htaken2 : emailTaken L env.now
      { db with sessions := touchSessions env.now (HashToken L (bearer authorization)) db.sessions }
      (L.TrimSpace (L.ToLower p.Email)) s.user_id = true := htaken
  unfold RequestEmailChangeHandler
  simp only [hbearer, hg, hl, hvalid, hdb, hu, hdiff, htaken2, ResponseWriter.WriteHeader,
    Bool.not_true, Bool.false_eq_true, if_false, if_true]

/-- C18. In-flight email-change targets block competing requests. For a request
of an authenticated account `a` (live session, no store failure) with a
well-formed address that differs from the account's own: if another account
holds the address, or another account has a pending email-change token for it
with `now - created_at ≤ 24 hours`, addresses being compared through `LOWER`,
`RequestEmailChangeHandler` answers 409, stores no token and sends nothing.
If the only accounts holding the address are `a` and every pending token for the
address is older than 24 hours or belongs to `a`, the request is not blocked:
with a generated token it answers 204 and stores the token for `a`. -/
theorem RequestEmailChangeHandler_in_flight_block (L : Lib) (env : Env) (db : DB)
    (authorization : String) (p : EmailPayload) (s : Session) (u : User)
    (hdb : ∀ k, env.dbErr k = false)
    (hbearer : bearer authorization ≠ "")
    (hs : db.sessions.find? (sessionLive env.now (HashToken L (bearer authorization))) = some s)
    (hlen : len (L.TrimSpace (L.ToLower p.Email)) ≤ 254)
    (hvalid : L.ParseAddress (L.TrimSpace (L.ToLower p.Email)) = true)
    (hu : db.users.find? (fun u => decide (u.id = s.user_id)) = some u)
    (hdiff : L.TrimSpace (L.ToLower p.Email) ≠ u.email) :
    (((∃ v ∈ db.users, L.LOWER v.email = L.LOWER (L.TrimSpace (L.ToLower p.Email))
          ∧ v.id ≠ s.user_id)
        ∨ (∃ r ∈ db.email_change_tokens,
            L.LOWER r.new_email = L.LOWER (L.TrimSpace (L.ToLower p.Email))
            ∧ env.now - r.created_at ≤ 24 * Hour ∧ r.user_id ≠ s.user_id)) →
      (RequestEmailChangeHandler L env db authorization (some p)).w.code = 409
      ∧ (RequestEmailChangeHandler L env db authorization (some p)).db.email_change_tokens
          = db.email_change_tokens
      ∧ (RequestEmailChangeHandler L env db authorization (some p)).db.users = db.users
      ∧ (RequestEmailChangeHandler L env db authorization (some p)).mail = none)
    ∧ (∀ t : String, env.New = some t →
      (∀ v ∈ db.users, L.LOWER v.email = L.LOWER (L.TrimSpace (L.ToLower p.Email)) →
        v.id = s.user_id) →
      (∀ r ∈ db.email_change_tokens,
        L.LOWER r.new_email = L.LOWER (L.TrimSpace (L.ToLower p.Email)) →
        24 * Hour < env.now - r.created_at ∨ r.user_id = s.user_id) →
      (RequestEmailChangeHandler L env db authorization (some p)).w.code = 204
      ∧ (RequestEmailChangeHandler L env db authorization (some p)).db.email_change_tokens
          = upsertEmailChangeToken env.now s.user_id (HashToken L t)
              (L.TrimSpace (L.ToLower p.Email)) db.email_change_tokens
      ∧ (RequestEmailChangeHandler L env db authorization (some p)).mail
          = some { kind := .emailChange, address := L.TrimSpace (L.ToLower p.Email),
                   rawToken := t }) := by
  have hday : (24 * Hour : Int) = Day := by decide
  constructor
  · intro hblock
    have htaken : emailTaken L env.now db (L.TrimSpace (L.ToLower p.Email)) s.user_id = true := by
      rw [emailTaken_iff, ← hday]; exact hblock
    rw [RequestEmailChangeHandler_taken L env db authorization p s u hdb hbearer hs hlen hvalid hu
      hdiff htaken]
    exact ⟨rfl, rfl, rfl, rfl⟩
  · intro t ht husers htokens
    have hfree : emailTaken L env.now db (L.TrimSpace (L.ToLower p.Email)) s.user_id = false := by
      rw [← Bool.not_eq_true, emailTaken_iff, ← hday]
      rintro (⟨v, hv, h1, h2⟩ | ⟨r, hr, h1, h2, h3⟩)
      · exact h2 (husers v hv h1)
      · rcases htokens r hr h1 with h | h
        · omega
        · exact h3 h
    obtain ⟨hw, hm, htab, _⟩ := RequestEmailChangeHandler_issues L env db authorization p s u t
      hdb hbearer hs hlen hvalid hu hdiff hfree ht
    rw [hw, hm, htab]
    exact ⟨rfl, rfl, rfl⟩

/-- C18, on a concrete store: Ada has a pending change towards `new1@x.com`
created at instant 0. Bob's request for that address one hour later is answered
409 and the table is unchanged; 25 hours later it is answered 204; Ada's own
request for it is answered 204. -/
theorem RequestEmailChangeHandler_in_flight_block_witness :
    ((RequestEmailChangeHandler sampleLib (sampleEnv Hour "t2") adaBobDB "Bearer tokb"
        (some ⟨"new1@x.com"⟩)).w.code = 409
      ∧ (RequestEmailChangeHandler sampleLib (sampleEnv Hour "t2") adaBobDB "Bearer tokb"
        (some ⟨"new1@x.com"⟩)).db.email_change_tokens = adaBobDB.email_change_tokens
      ∧ (RequestEmailChangeHandler sampleLib (sampleEnv Hour "t2") adaBobDB "Bearer tokb"
        (some ⟨"new1@x.com"⟩)).db.users = adaBobDB.users
      ∧ (RequestEmailChangeHandler sampleLib (sampleEnv Hour "t2") adaBobDB "Bearer tokb"
        (some ⟨"new1@x.com"⟩)).mail = none)
    ∧ (RequestEmailChangeHandler sampleLib (sampleEnv (25 * Hour) "t2") adaBobDB "Bearer tokb"
        (some ⟨"new1@x.com"⟩)).w.code = 204
    ∧ (RequestEmailChangeHandler sampleLib (sampleEnv Hour "t2") adaBobDB "Bearer tok"
        (some ⟨"new1@x.com"⟩)).w.code = 204 :=
  ⟨(RequestEmailChangeHandler_in_flight_block sampleLib (sampleEnv Hour "t2") adaBobDB
      "Bearer tokb" ⟨"new1@x.com"⟩
      { id := "2", user_id := 8, token_hash := HashToken sampleLib "tokb", created_at := 0,
        last_used_at := 0 }
      bob (fun _ => rfl) (by decide) (by decide) (by decide) (by decide) (by decide)
      (by decide)).1
      (Or.inr ⟨{ user_id := 7, token_hash := HashToken sampleLib "t1",
                 new_email := "new1@x.com", created_at := 0 },
        by decide, by decide, by decide, by decide⟩),
   by decide, by decide⟩

/-! ## Password length is validated first -/

theorem RegistrationHandler_short (L : Lib) (env : Env) (db : DB) (p : RegistrationPayload)
    (h : len p.Password < 8) :
    RegistrationHandler L env db (some p) = { w := { status := some 422 }, db := db } := by
  have hv : (decide (len p.Name > 64) || decide (len (L.TrimSpace (L.ToLower p.Email)) > 254)
      || decide (len p.Password < 8)) = true := by
    simp only [Bool.or_eq_true, decide_eq_true_eq]
    exact Or.inr h
  cases hp : L.ParseAddress (L.TrimSpace (L.ToLower p.Email)) <;>
    simp only [RegistrationHandler, hp, hv, ResponseWriter.WriteHeader, Bool.not_true,
      Bool.not_false, Bool.false_eq_true, if_false, if_true]

theorem LoginHandler_short (L : Lib) (env : Env) (db : DB) (p : LoginPayload)
    (h : len p.Password < 8) :
    LoginHandler L env db (some p) = { w := { status := some 422 }, db := db } := by
  have hv : (decide (len p.Email > 254) || decide (len p.Password < 8)) = true := by
    simp only [Bool.or_eq_true, decide_eq_true_eq]
    exact Or.inr h
  simp only [LoginHandler, hv, ResponseWriter.WriteHeader, if_true]

theorem PasswordResetHandler_short (L : Lib) (env : Env) (db : DB) (rawToken : String)
    (p : PasswordPayload) (h : len p.Password < 8) :
    PasswordResetHandler L env db rawToken (some p) = { w := { status := some 422 }, db := db } := by
  simp only [PasswordResetHandler, h, ResponseWriter.WriteHeader, if_true]

theorem PasswordChangeHandler_short (L : Lib) (env : Env) (db : DB) (authorization : String)
    (p : PasswordChangePayload) (a : Int)
    (h : len p.Password < 8 ∨ len p.NewPassword < 8)
    (hauth : (GetId L env (bearer authorization) {} db).1 = some a) :
    PasswordChangeHandler L env db authorization (some p) =
      { w := { status := some 422 },
        db := { db with
          sessions := touchSessions env.now (HashToken L (bearer authorization)) db.sessions } } := by
  have hv : (decide (len p.Password < 8) || decide (len p.NewPassword < 8)) = true := by
    simp only [Bool.or_eq_true, decide_eq_true_eq]
    exact h
  have hg : ∃ r : Session, GetId L env (bearer authorization) {} db = (some r.user_id, {},
      { db with
        sessions := touchSessions env.now (HashToken L (bearer authorization)) db.sessions }) := by
    unfold GetId at hauth ⊢
    simp only [] at hauth ⊢
    cases h0 : env.dbErr 0
    · simp only [h0, Bool.false_eq_true, if_false] at hauth ⊢
      cases hf : db.sessions.find? (sessionLive env.now (HashToken L (bearer authorization))) with
      | none => rw [hf] at hauth; simp at hauth
      | some r => exact ⟨r, rfl⟩
    · simp [h0] at hauth
  obtain ⟨r, hg⟩ := hg
  unfold PasswordChangeHandler
  simp only [hg, hv, ResponseWriter.WriteHeader, if_true]

theorem GetId_writer (L : Lib) (env : Env) (rawToken : String) (w w2 : ResponseWriter)
    (db db2 : DB) (r : Option Int) (h : GetId L env rawToken w db = (r, w2, db2)) :
    w2 = w ∨ w2 = w.WriteHeader 401 ∨ w2 = w.WriteHeader 500 := by
  unfold GetId at h
  simp only [] at h
  split at h
  · simp only [Prod.mk.injEq] at h; exact Or.inr (Or.inr h.2.1.symm)
  · split at h
    · simp only [Prod.mk.injEq] at h; exact Or.inr (Or.inl h.2.1.symm)
    · simp only [Prod.mk.injEq] at h; exact Or.inl h.2.1.symm

theorem RegistrationHandler_long (L : Lib) (env : Env) (db : DB) (p : RegistrationPayload)
    (hparse : L.ParseAddress (L.TrimSpace (L.ToLower p.Email)) = true)
    (hv : (decide (len p.Name > 64) || decide (len (L.TrimSpace (L.ToLower p.Email)) > 254)
      || decide (len p.Password < 8)) = false) :
    ∀ o, o = RegistrationHandler L env db (some p) → o.w.code ≠ 422 := by
  unfold RegistrationHandler
  simp only [hparse, hv, Bool.not_true, Bool.false_eq_true, if_false]
  repeat' split
  all_goals intro o ho
  all_goals subst ho
  all_goals simp [ResponseWriter.WriteHeader, ResponseWriter.code]

theorem LoginHandler_long (L : Lib) (env : Env) (db : DB) (p : LoginPayload)
    (hparse : L.ParseAddress (L.TrimSpace (L.ToLower p.Email)) = true)
    (hv : (decide (len p.Email > 254) || decide (len p.Password < 8)) = false) :
    ∀ o, o = LoginHandler L env db (some p) → o.w.code ≠ 422 := by
  unfold LoginHandler
  simp only [hparse, hv, Bool.not_true, Bool.false_eq_true, if_false]
  repeat' split
  all_goals intro o ho
  all_goals subst ho
  all_goals simp [ResponseWriter.WriteHeader, ResponseWriter.code]

theorem PasswordResetHandler_long (L : Lib) (env : Env) (db : DB) (rawToken : String)
    (p : PasswordPayload) (hv : ¬ len p.Password < 8) :
    ∀ o, o = PasswordResetHandler L env db rawToken (some p) → o.w.code ≠ 422 := by
  unfold PasswordResetHandler
  simp only [hv, if_false]
  repeat' split
  all_goals intro o ho
  all_goals subst ho
  all_goals simp [ResponseWriter.WriteHeader, ResponseWriter.code]

theorem PasswordChangeHandler_long (L : Lib) (env : Env) (db : DB) (authorization : String)
    (p : PasswordChangePayload)
    (hv : (decide (len p.Password < 8) || decide (len p.NewPassword < 8)) = false) :
    ∀ o, o = PasswordChangeHandler L env db authorization (some p) → o.w.code ≠ 422 := by
  unfold PasswordChangeHandler
  simp only [hv, Bool.false_eq_true, if_false]
  split
  all_goals rename_i hg
  all_goals have hw := GetId_writer _ _ _ _ _ _ _ _ hg
  · intro o ho; subst ho
    rcases hw with h | h | h <;> simp [h, ResponseWriter.WriteHeader, ResponseWriter.code]
  · repeat' split
    all_goals intro o ho
    all_goals subst ho
    all_goals rcases hw with h | h | h <;>
      simp [h, ResponseWriter.WriteHeader, ResponseWriter.code]
theorem PasswordChangeHandler_unauthenticated (L : Lib) (env : Env) (db : DB)
    (authorization : String) (body : Option PasswordChangePayload)
    (h0 : env.dbErr 0 = false)
    (hauth : (GetId L env (bearer authorization) {} db).1 = none) :
    PasswordChangeHandler L env db authorization body
      = { w := { status := some 401 }, db := db } := by
  have hg : GetId L env (bearer authorization) {} db
      = (none, ({} : ResponseWriter).WriteHeader 401, db) := by
    unfold GetId at hauth ⊢
    simp only [h0, Bool.false_eq_true, if_false] at hauth ⊢
    cases hf : db.sessions.find? (sessionLive env.now (HashToken L (bearer authorization))) with
    | none => rfl
    | some r => rw [hf] at hauth; simp at hauth
  unfold PasswordChangeHandler
  simp only [hg, ResponseWriter.WriteHeader]

/-- C19, the claim as stated fails for `PasswordChangeHandler`: a request with a
7-byte new password that presents no live session (the token `nope` is unknown)
is answered 401, not 422; the handler validates the session before it reads the
payload. -/
theorem password_length_counterexample :
    len "short77" < 8
    ∧ (GetId sampleLib (sampleEnv Hour "") (bearer "Bearer nope") {} adaDB).1 = none
    ∧ (PasswordChangeHandler sampleLib (sampleEnv Hour "") adaDB "Bearer nope"
        (some ⟨"password1", "short77"⟩)).w.code = 401
    ∧ (PasswordChangeHandler sampleLib (sampleEnv Hour "") adaDB "Bearer nope"
        (some ⟨"password1", "short77"⟩)).w.code ≠ 422
    ∧ ¬ (∀ (L : Lib) (env : Env) (db : DB) (authorization : String)
          (p : PasswordChangePayload),
          len p.Password < 8 ∨ len p.NewPassword < 8 →
          (PasswordChangeHandler L env db authorization (some p)).w.code = 422) := by
  refine ⟨by decide, by decide, by decide, by decide, ?_⟩
  intro h
  have h2 := h sampleLib (sampleEnv Hour "") adaDB "Bearer nope" ⟨"password1", "short77"⟩
    (Or.inr (by decide))
  exact absurd h2 (by decide)

/-- C19 (amended). Password length is validated before any hashing or mutation.
For every store and every payload that decodes with a password shorter than 8
bytes, `RegistrationHandler`, `LoginHandler` and `PasswordResetHandler` answer
422 and leave the store exactly as it was. `PasswordChangeHandler` validates the
session first: a request presenting a live session in which the current or the
new password is shorter than 8 bytes is answered 422 and leaves the store as
session validation left it (only `last_used_at` of the presented session
refreshed), and a request presenting no live session is answered 401, whatever
its payload, with the store unchanged. No hashing takes place: the outcome is
the same whatever `argon2id.CreateHash` and `argon2id.ComparePasswordAndHash`
would return. No upper bound is enforced: a password of any length of at least 8
bytes, in an otherwise valid payload, is never answered 422. -/
theorem password_length_validated_first (L : Lib) (env : Env) (db : DB) :
    (∀ p : RegistrationPayload, len p.Password < 8 →
        RegistrationHandler L env db (some p) = { w := { status := some 422 }, db := db }
        ∧ ∀ f g, RegistrationHandler { L with ComparePasswordAndHash := g }
            { env with CreateHash := f } db (some p) = RegistrationHandler L env db (some p))
    ∧ (∀ p : LoginPayload, len p.Password < 8 →
        LoginHandler L env db (some p) = { w := { status := some 422 }, db := db }
        ∧ ∀ f g, LoginHandler { L with ComparePasswordAndHash := g }
            { env with CreateHash := f } db (some p) = LoginHandler L env db (some p))
    ∧ (∀ (rawToken : String) (p : PasswordPayload), len p.Password < 8 →
        PasswordResetHandler L env db rawToken (some p) = { w := { status := some 422 }, db := db }
        ∧ ∀ f g, PasswordResetHandler { L with ComparePasswordAndHash := g }
            { env with CreateHash := f } db rawToken (some p)
              = PasswordResetHandler L env db rawToken (some p))
    ∧ (∀ (authorization : String) (p : PasswordChangePayload) (a : Int),
        len p.Password < 8 ∨ len p.NewPassword < 8 →
        (GetId L env (bearer authorization) {} db).1 = some a →
        PasswordChangeHandler L env db authorization (some p) =
          { w := { status := some 422 },
            db := { db with
              sessions :=
                touchSessions env.now (HashToken L (bearer authorization)) db.sessions } }
        ∧ ∀ f g, PasswordChangeHandler { L with ComparePasswordAndHash := g }
            { env with CreateHash := f } db authorization (some p)
              = PasswordChangeHandler L env db authorization (some p))
    ∧ (∀ p : RegistrationPayload, 8 ≤ len p.Password →
        L.ParseAddress (L.TrimSpace (L.ToLower p.Email)) = true → len p.Name ≤ 64 →
        len (L.TrimSpace (L.ToLower p.Email)) ≤ 254 →
        (RegistrationHandler L env db (some p)).w.code ≠ 422)
    ∧ (∀ p : LoginPayload, 8 ≤ len p.Password →
        L.ParseAddress (L.TrimSpace (L.ToLower p.Email)) = true → len p.Email ≤ 254 →
        (LoginHandler L env db (some p)).w.code ≠ 422)
    ∧ (∀ (rawToken : String) (p : PasswordPayload), 8 ≤ len p.Password →
        (PasswordResetHandler L env db rawToken (some p)).w.code ≠ 422)
    ∧ (∀ (authorization : String) (p : PasswordChangePayload), 8 ≤ len p.Password →
        8 ≤ len p.NewPassword →
        (PasswordChangeHandler L env db authorization (some p)).w.code ≠ 422)
    ∧ (∀ (authorization : String) (body : Option PasswordChangePayload),
        env.dbErr 0 = false →
        (GetId L env (bearer authorization) {} db).1 = none →
        PasswordChangeHandler L env db authorization body
          = { w := { status := some 401 }, db := db }) := by
  refine ⟨?_, ?_, ?_, ?_, ?_, ?_, ?_, ?_, ?_⟩
  · intro p h
    refine ⟨RegistrationHandler_short L env db p h, fun f g => ?_⟩
    rw [RegistrationHandler_short L env db p h]
    exact RegistrationHandler_short _ _ db p h
  · intro p h
    refine ⟨LoginHandler_short L env db p h, fun f g => ?_⟩
    rw [LoginHandler_short L env db p h]
    exact LoginHandler_short _ _ db p h
  · intro rawToken p h
    refine ⟨PasswordResetHandler_short L env db rawToken p h, fun f g => ?_⟩
    rw [PasswordResetHandler_short L env db rawToken p h]
    exact PasswordResetHandler_short _ _ db rawToken p h
  · intro authorization p a h hauth
    refine ⟨PasswordChangeHandler_short L env db authorization p a h hauth, fun f g => ?_⟩
    rw [PasswordChangeHandler_short L env db authorization p a h hauth]
    exact PasswordChangeHandler_short { L with ComparePasswordAndHash := g }
      { env with CreateHash := f } db authorization p a h hauth
  · intro p h hparse hname hmail
    refine RegistrationHandler_long L env db p hparse ?_ _ rfl
    simp only [Bool.or_eq_false_iff, decide_eq_false_iff_not]
    omega
  · intro p h hparse hmail
    refine LoginHandler_long L env db p hparse ?_ _ rfl
    simp only [Bool.or_eq_false_iff, decide_eq_false_iff_not]
    omega
  · intro rawToken p h
    exact PasswordResetHandler_long L env db rawToken p (by omega) _ rfl
  · intro authorization p h1 h2
    refine PasswordChangeHandler_long L env db authorization p ?_ _ rfl
    simp only [Bool.or_eq_false_iff, decide_eq_false_iff_not]
    omega
  · intro authorization body h0 hauth
    exact PasswordChangeHandler_unauthenticated L env db authorization body h0 hauth

/-- C19 (amended), on a concrete store: Ada, authenticated, asks to change her
password to the 7-byte `short77`; the answer is 422 and her digest is
unchanged. -/
theorem password_length_validated_first_witness :
    (PasswordChangeHandler sampleLib (sampleEnv Hour "") adaDB "Bearer tok"
        (some ⟨"password1", "short77"⟩)).w.code = 422
    ∧ (PasswordChangeHandler sampleLib (sampleEnv Hour "") adaDB "Bearer tok"
        (some ⟨"password1", "short77"⟩)).db.users = adaDB.users :=
  ⟨congrArg (fun o => o.w.code)
      ((password_length_validated_first sampleLib (sampleEnv Hour "") adaDB).2.2.2.1
        "Bearer tok" ⟨"password1", "short77"⟩ 7 (Or.inr (by decide)) (by decide)).1,
   congrArg (fun o => o.db.users)
      ((password_length_validated_first sampleLib (sampleEnv Hour "") adaDB).2.2.2.1
        "Bearer tok" ⟨"password1", "short77"⟩ 7 (Or.inr (by decide)) (by decide)).1⟩

/-! ## Request body limit -/

/-- C20, the claim as stated fails: under the limit `1 << 20` of `NewRouter`, a
POST whose declared content length is one byte above the limit is answered 413
by `MaxBody`, not 400. -/
theorem MaxBody_oversized_counterexample :
    (MaxBody 1048576 (fun w _ => w.WriteHeader 204) {}
        { Method := "POST", ContentLength := 1048577 }).code = 413
    ∧ (MaxBody 1048576 (fun w _ => w.WriteHeader 204) {}
        { Method := "POST", ContentLength := 1048577 }).code ≠ 400 := by
  decide

/-- C20 (amended). An oversized request body is answered with status 413. For
every POST, PUT or PATCH request whose declared content length (one other than
-1, which stands for an unknown length) exceeds the limit `n`, `MaxBody` writes
status 413 and does not invoke the wrapped handler: the response is the same
whatever the handler is. A request with another method reaches the wrapped
handler unchanged, and a POST, PUT or PATCH request with content length at most
`n` reaches it with its body capped at `n` bytes. -/
theorem MaxBody_oversized_413 (n : Int) (next : ResponseWriter → HTTPRequest → ResponseWriter)
    (w : ResponseWriter) (r : HTTPRequest) :
    ((r.Method = "POST" ∨ r.Method = "PUT" ∨ r.Method = "PATCH") →
      r.ContentLength > n → r.ContentLength ≠ -1 →
      MaxBody n next w r = w.WriteHeader 413
      ∧ (w.status = none → (MaxBody n next w r).code = 413)
      ∧ ∀ next2, MaxBody n next2 w r = MaxBody n next w r)
    ∧ (¬ (r.Method = "POST" ∨ r.Method = "PUT" ∨ r.Method = "PATCH") →
      MaxBody n next w r = next w r)
    ∧ ((r.Method = "POST" ∨ r.Method = "PUT" ∨ r.Method = "PATCH") →
      r.ContentLength ≤ n →
      MaxBody n next w r = next w { r with MaxBytes := some n }) := by
  refine ⟨?_, ?_, ?_⟩
  · intro hm hgt hne
    have key : ∀ f, MaxBody n f w r = w.WriteHeader 413 := by
      intro f
      unfold MaxBody
      rw [if_pos hm, if_pos ⟨hgt, hne⟩]
    refine ⟨key next, ?_, fun next2 => by rw [key next2, key next]⟩
    intro hw
    rw [key next]
    simp [ResponseWriter.WriteHeader, ResponseWriter.code, hw]
  · intro hm
    unfold MaxBody
    rw [if_neg hm]
  · intro hm hle
    have hgt : ¬ (r.ContentLength > n ∧ r.ContentLength ≠ -1) := fun h => by omega
    unfold MaxBody
    rw [if_pos hm, if_neg hgt]

/-- C20 (amended), on a concrete request: a PUT of 2,000,000 declared bytes under
the limit `1 << 20` is answered 413. -/
theorem MaxBody_oversized_413_witness :
    MaxBody 1048576 (fun w _ => w.WriteHeader 204) {} { Method := "PUT", ContentLength := 2000000 }
      = ({} : ResponseWriter).WriteHeader 413 :=
  ((MaxBody_oversized_413 1048576 (fun w _ => w.WriteHeader 204) {}
    { Method := "PUT", ContentLength := 2000000 }).1 (Or.inr (Or.inl rfl)) (by decide)
    (by decide)).1

/-! ## Failure of the password comparison -/

/-- C21. What the two comparing handlers answer when
`argon2id.ComparePasswordAndHash` returns an error. `LoginHandler`, for a valid
payload naming an account, writes 500 and leaves accounts and sessions as they
were. `PasswordChangeHandler`, for an authenticated request with passwords of at
least 8 bytes, logs the error and returns without writing any status, so the
client receives 200; the accounts are as they were and the sessions are as
session validation left them. -/
theorem compare_error_status (L : Lib) (env : Env) (db : DB) :
    (∀ (p : LoginPayload) (u : User),
      len p.Email ≤ 254 → 8 ≤ len p.Password →
      L.ParseAddress (L.TrimSpace (L.ToLower p.Email)) = true →
      env.dbErr 0 = false →
      db.users.find? (fun u => decide (u.email = L.TrimSpace (L.ToLower p.Email))) = some u →
      L.ComparePasswordAndHash p.Password u.password_hash = none →
      (LoginHandler L env db (some p)).w.code = 500
      ∧ (LoginHandler L env db (some p)).db.users = db.users
      ∧ (LoginHandler L env db (some p)).db.sessions = db.sessions)
    ∧ (∀ (authorization : String) (p : PasswordChangePayload) (s : Session) (u : User),
      8 ≤ len p.Password → 8 ≤ len p.NewPassword →
      env.dbErr 0 = false → env.dbErr 1 = false →
      db.sessions.find? (sessionLive env.now (HashToken L (bearer authorization))) = some s →
      db.users.find? (fun u => decide (u.id = s.user_id)) = some u →
      L.ComparePasswordAndHash p.Password u.password_hash = none →
      (PasswordChangeHandler L env db authorization (some p)).w.status = none
      ∧ (PasswordChangeHandler L env db authorization (some p)).w.code = 200
      ∧ (PasswordChangeHandler L env db authorization (some p)).db.users = db.users
      ∧ (PasswordChangeHandler L env db authorization (some p)).db.sessions
          = touchSessions env.now (HashToken L (bearer authorization)) db.sessions) := by
  constructor
  · intro p u hemail hpw hparse h0 hf hc
    have hv : (decide (len p.Email > 254) || decide (len p.Password < 8)) = false := by
      simp only [Bool.or_eq_false_iff, decide_eq_false_iff_not]
      omega
    simp only [LoginHandler, hv, hparse, h0, hf, hc, ResponseWriter.WriteHeader,
      ResponseWriter.code, Bool.false_eq_true, if_false, Bool.not_true, Err_users, Err_sessions,
      Option.getD_some, and_self]
  · intro authorization p s u hp hnp h0 h1 hs hu hc
    have hv : (decide (len p.Password < 8) || decide (len p.NewPassword < 8)) = false := by
      simp only [Bool.or_eq_false_iff, decide_eq_false_iff_not]
      omega
    have hg := GetId_of_find_some L env (bearer authorization) {} db s h0 hs
    unfold PasswordChangeHandler
    simp only [hg, hv, h1, hu, hc, ResponseWriter.code, Bool.false_eq_true, if_false,
      Err_users, Err_sessions, Option.getD_none, and_self]

/-- C21, on a concrete store: Ada's stored digest is malformed. Her login is
answered 500; her authenticated password change is answered 200, with her
digest and her session still in the store. -/
theorem compare_error_status_witness :
    (LoginHandler strictLib (sampleEnv Hour "t") adaCorruptDB
        (some ⟨"ada@x.com", "password1"⟩)).w.code = 500
    ∧ ((PasswordChangeHandler strictLib (sampleEnv Hour "") adaCorruptDB "Bearer tok"
        (some ⟨"password1", "password2"⟩)).w.status = none
      ∧ (PasswordChangeHandler strictLib (sampleEnv Hour "") adaCorruptDB "Bearer tok"
        (some ⟨"password1", "password2"⟩)).w.code = 200
      ∧ (PasswordChangeHandler strictLib (sampleEnv Hour "") adaCorruptDB "Bearer tok"
        (some ⟨"password1", "password2"⟩)).db.users = adaCorruptDB.users
      ∧ (PasswordChangeHandler strictLib (sampleEnv Hour "") adaCorruptDB "Bearer tok"
        (some ⟨"password1", "password2"⟩)).db.sessions
          = touchSessions Hour (HashToken strictLib "tok") adaCorruptDB.sessions) :=
  ⟨by decide,
   (compare_error_status strictLib (sampleEnv Hour "") adaCorruptDB).2 "Bearer tok"
     ⟨"password1", "password2"⟩
     { id := "1", user_id := 7, token_hash := HashToken sampleLib "tok", created_at := 0,
       last_used_at := 0 }
     { ada with email_verified := true, password_hash := "corrupt" }
     (by decide) (by decide) rfl rfl (by decide) (by decide) (by decide)⟩

/-! ## Outcome of the notification -/

@[simp] theorem Err_contents (env : Env) (db : DB) (n m : String) (u : Int) :
    (Err env db n m u).contents = db.contents := by
  unfold Err DB.contents; split <;> rfl

theorem ResendEmailVerificationHandler_mail (L : Lib) (env : Env) (db : DB)
    (body : Option EmailPayload) (b : Bool) :
    (ResendEmailVerificationHandler L { env with mailOk := b } db body).w
        = (ResendEmailVerificationHandler L env db body).w
    ∧ (ResendEmailVerificationHandler L { env with mailOk := b } db body).db.contents
        = (ResendEmailVerificationHandler L env db body).db.contents
    ∧ (ResendEmailVerificationHandler L { env with mailOk := b } db body).mail
        = (ResendEmailVerificationHandler L env db body).mail := by
  unfold ResendEmailVerificationHandler
  simp only []
  repeat' split
  all_goals simp_all
theorem SendPasswordResetHandler_mail (L : Lib) (env : Env) (db : DB)
    (body : Option EmailPayload) (b : Bool) :
    (SendPasswordResetHandler L { env with mailOk := b } db body).w
        = (SendPasswordResetHandler L env db body).w
    ∧ (SendPasswordResetHandler L { env with mailOk := b } db body).db.contents
        = (SendPasswordResetHandler L env db body).db.contents
    ∧ (SendPasswordResetHandler L { env with mailOk := b } db body).mail
        = (SendPasswordResetHandler L env db body).mail := by
  unfold SendPasswordResetHandler
  simp only []
  repeat' split
  all_goals simp_all

theorem RequestEmailChangeHandler_mail (L : Lib) (env : Env) (db : DB) (authorization : String)
    (body : Option EmailPayload) (b : Bool) :
    (RequestEmailChangeHandler L { env with mailOk := b } db authorization body).w
        = (RequestEmailChangeHandler L env db authorization body).w
    ∧ (RequestEmailChangeHandler L { env with mailOk := b } db authorization body).db.contents
        = (RequestEmailChangeHandler L env db authorization body).db.contents
    ∧ (RequestEmailChangeHandler L { env with mailOk := b } db authorization body).mail
        = (RequestEmailChangeHandler L env db authorization body).mail := by
  have hg : GetId L { env with mailOk := b } (bearer authorization) {} db
      = GetId L env (bearer authorization) {} db := rfl
  unfold RequestEmailChangeHandler
  simp only [hg]
  by_cases ht : bearer authorization = ""
  · rw [if_pos ht, if_pos ht]; exact ⟨rfl, rfl, rfl⟩
  · rw [if_neg ht, if_neg ht]
    repeat' split
    all_goals simp_all

theorem RegistrationHandler_mail (L : Lib) (env : Env) (db : DB)
    (body : Option RegistrationPayload) :
    (RegistrationHandler L { env with mailOk := false } db body).db.contents
        = (RegistrationHandler L { env with mailOk := true } db body).db.contents
    ∧ (RegistrationHandler L { env with mailOk := false } db body).mail
        = (RegistrationHandler L { env with mailOk := true } db body).mail
    ∧ ((RegistrationHandler L { env with mailOk := true } db body).w.code = 201 →
        (RegistrationHandler L { env with mailOk := false } db body).w.code = 500)
    ∧ ((RegistrationHandler L { env with mailOk := true } db body).w.code ≠ 201 →
        (RegistrationHandler L { env with mailOk := false } db body).w
          = (RegistrationHandler L { env with mailOk := true } db body).w) := by
  unfold RegistrationHandler
  simp only []
  repeat' split
  all_goals simp_all [ResponseWriter.WriteHeader, ResponseWriter.code]
/-- C22. Whether the outcome of the notification influences the response. For
`ResendEmailVerificationHandler`, `SendPasswordResetHandler` and
`RequestEmailChangeHandler`, which send in a goroutine, a run in which the
notification succeeds and one in which it fails write the same response, leave
the same store contents apart from the audit log and attempt the same
notification. `RegistrationHandler` calls `SendVerification` before answering:
the two runs leave the same store contents apart from the audit log, but where
the run with a delivered notification answers 201, the run with a failed one
answers 500. In all four handlers a notification is attempted only when the row
holding the digest of its token is in the store. -/
theorem notification_outcome (L : Lib) (env : Env) (db : DB) :
    (∀ (body : Option EmailPayload) (b : Bool),
      (ResendEmailVerificationHandler L { env with mailOk := b } db body).w
          = (ResendEmailVerificationHandler L env db body).w
      ∧ (ResendEmailVerificationHandler L { env with mailOk := b } db body).db.contents
          = (ResendEmailVerificationHandler L env db body).db.contents
      ∧ (ResendEmailVerificationHandler L { env with mailOk := b } db body).mail
          = (ResendEmailVerificationHandler L env db body).mail)
    ∧ (∀ (body : Option EmailPayload) (b : Bool),
      (SendPasswordResetHandler L { env with mailOk := b } db body).w
          = (SendPasswordResetHandler L env db body).w
      ∧ (SendPasswordResetHandler L { env with mailOk := b } db body).db.contents
          = (SendPasswordResetHandler L env db body).db.contents
      ∧ (SendPasswordResetHandler L { env with mailOk := b } db body).mail
          = (SendPasswordResetHandler L env db body).mail)
    ∧ (∀ (authorization : String) (body : Option EmailPayload) (b : Bool),
      (RequestEmailChangeHandler L { env with mailOk := b } db authorization body).w
          = (RequestEmailChangeHandler L env db authorization body).w
      ∧ (RequestEmailChangeHandler L { env with mailOk := b } db authorization body).db.contents
          = (RequestEmailChangeHandler L env db authorization body).db.contents
      ∧ (RequestEmailChangeHandler L { env with mailOk := b } db authorization body).mail
          = (RequestEmailChangeHandler L env db authorization body).mail)
    ∧ (∀ body : Option RegistrationPayload,
      (RegistrationHandler L { env with mailOk := false } db body).db.contents
          = (RegistrationHandler L { env with mailOk := true } db body).db.contents
      ∧ (RegistrationHandler L { env with mailOk := false } db body).mail
          = (RegistrationHandler L { env with mailOk := true } db body).mail
      ∧ ((RegistrationHandler L { env with mailOk := true } db body).w.code = 201 →
          (RegistrationHandler L { env with mailOk := false } db body).w.code = 500))
    ∧ (∀ (m : Mail),
      (∀ body, (RegistrationHandler L env db body).mail = some m →
        ∃ x ∈ (RegistrationHandler L env db body).db.verification_tokens,
          x.token_hash = HashToken L m.rawToken)
      ∧ (∀ body, (ResendEmailVerificationHandler L env db body).mail = some m →
        ∃ x ∈ (ResendEmailVerificationHandler L env db body).db.verification_tokens,
          x.token_hash = HashToken L m.rawToken)
      ∧ (∀ body, (SendPasswordResetHandler L env db body).mail = some m →
        ∃ x ∈ (SendPasswordResetHandler L env db body).db.reset_tokens,
          x.token_hash = HashToken L m.rawToken)
      ∧ (∀ authorization body,
        (RequestEmailChangeHandler L env db authorization body).mail = some m →
        ∃ x ∈ (RequestEmailChangeHandler L env db authorization body).db.email_change_tokens,
          x.token_hash = HashToken L m.rawToken)) := by
  refine ⟨fun body b => ResendEmailVerificationHandler_mail L env db body b,
    fun body b => SendPasswordResetHandler_mail L env db body b,
    fun a body b => RequestEmailChangeHandler_mail L env db a body b, ?_, ?_⟩
  · intro body
    obtain ⟨h1, h2, h3, _⟩ := RegistrationHandler_mail L env db body
    exact ⟨h1, h2, h3⟩
  · intro m
    refine ⟨?_, ?_, ?_, ?_⟩
    · intro body hm
      obtain ⟨id, _, _, _, ht, _⟩ := RegistrationHandler_issued L env db body m hm
      rw [ht]
      obtain ⟨x, hx, _, h, _⟩ := exists_upsertVerificationToken env.now (Int.ofNat id)
        (HashToken L m.rawToken) db.verification_tokens
      exact ⟨x, hx, h⟩
    · intro body hm
      obtain ⟨u, _, ht, _⟩ := ResendEmailVerificationHandler_issued L env db body m hm
      rw [ht]
      obtain ⟨x, hx, _, h, _⟩ := exists_upsertVerificationToken env.now u.id
        (HashToken L m.rawToken) db.verification_tokens
      exact ⟨x, hx, h⟩
    · intro body hm
      obtain ⟨u, _, ht, _⟩ := SendPasswordResetHandler_issued L env db body m hm
      rw [ht]
      obtain ⟨x, hx, _, h, _⟩ := exists_upsertResetToken env.now u.id
        (HashToken L m.rawToken) db.reset_tokens
      exact ⟨x, hx, h⟩
    · intro authorization body hm
      obtain ⟨a, _, ht, _⟩ := RequestEmailChangeHandler_issued L env db authorization body m hm
      rw [ht]
      obtain ⟨x, hx, _, h, _⟩ := exists_upsertEmailChangeToken env.now a
        (HashToken L m.rawToken) m.address db.email_change_tokens
      exact ⟨x, hx, h⟩

/-- C22, on a concrete store: Bob registers on the store holding Ada. With the
verification mail delivered the answer is 201; with the delivery failing the
answer is 500, and Bob's account is in the store all the same. -/
theorem notification_outcome_witness :
    (RegistrationHandler sampleLib { sampleEnv Hour "t1" with mailOk := true } adaDB
        (some ⟨"Bob", "bob@x.com", "password1"⟩)).w.code = 201
    ∧ (RegistrationHandler sampleLib { sampleEnv Hour "t1" with mailOk := false } adaDB
        (some ⟨"Bob", "bob@x.com", "password1"⟩)).w.code = 500
    ∧ (RegistrationHandler sampleLib { sampleEnv Hour "t1" with mailOk := false } adaDB
        (some ⟨"Bob", "bob@x.com", "password1"⟩)).db.users.map (fun u => u.email)
          = ["ada@x.com", "bob@x.com"] :=
  ⟨by decide,
   ((notification_outcome sampleLib (sampleEnv Hour "t1") adaDB).2.2.2.1
      (some ⟨"Bob", "bob@x.com", "password1"⟩)).2.2 (by decide),
   by decide⟩

/-! ## A failed email-change redemption burns the token -/

theorem UpdateEmail_tokens (L : Lib) (env : Env) (db : DB) (rawToken : String)
    (row : EmailChangeToken) (h0 : env.dbErr 0 = false)
    (hf : db.email_change_tokens.find? (fun r => decide (r.token_hash = HashToken L rawToken))
      = some row) :
    ∀ o, o = UpdateEmail L env db rawToken →
    o.db.email_change_tokens
      = db.email_change_tokens.filter (fun r => !decide (r.token_hash = HashToken L rawToken)) := by
  unfold UpdateEmail
  simp only [h0, hf, Bool.false_eq_true, if_false]
  repeat' split
  all_goals intro o ho
  all_goals subst ho
  all_goals simp only [Err_email_change_tokens]

/-- C23. A failed redemption of an email-change token still burns the token.
When a row of `email_change_tokens` carries `HashToken raw` and the
`DELETE ... RETURNING` statement does not fail, `UpdateEmail` leaves the table
without the rows carrying that digest, whatever it answers: no such row is left
and every row with another digest is kept. The attempt is answered 410 when the
row is older than 24 hours, and 409 when it is not and its `new_email` is held
by an account. A retry with the same raw token is answered 404 and changes
nothing. The rows carrying the digest belonging to one account, the rows of the
other accounts are unchanged. -/
theorem UpdateEmail_burns_token (L : Lib) (env env2 : Env) (db : DB) (rawToken : String)
    (row : EmailChangeToken) (h0 : env.dbErr 0 = false)
    (hf : db.email_change_tokens.find? (fun r => decide (r.token_hash = HashToken L rawToken))
      = some row) :
    (UpdateEmail L env db rawToken).db.email_change_tokens
        = db.email_change_tokens.filter (fun r => !decide (r.token_hash = HashToken L rawToken))
    ∧ (∀ r ∈ (UpdateEmail L env db rawToken).db.email_change_tokens,
        r.token_hash ≠ HashToken L rawToken)
    ∧ (∀ r ∈ db.email_change_tokens, r.token_hash ≠ HashToken L rawToken →
        r ∈ (UpdateEmail L env db rawToken).db.email_change_tokens)
    ∧ (env.now - row.created_at > 24 * Hour → (UpdateEmail L env db rawToken).w.code = 410)
    ∧ (env.now - row.created_at ≤ 24 * Hour → env.dbErr 1 = false →
        db.users.any (fun u => decide (u.email = row.new_email)) = true →
        (UpdateEmail L env db rawToken).w.code = 409)
    ∧ (env2.dbErr 0 = false →
        UpdateEmail L env2 (UpdateEmail L env db rawToken).db rawToken
          = { w := { status := some 404 }, db := (UpdateEmail L env db rawToken).db })
    ∧ ((∀ r ∈ db.email_change_tokens, r.token_hash = HashToken L rawToken →
          r.user_id = row.user_id) →
        (UpdateEmail L env db rawToken).db.email_change_tokens.filter
            (fun r => !decide (r.user_id = row.user_id))
          = db.email_change_tokens.filter (fun r => !decide (r.user_id = row.user_id))) := by
  have ht := UpdateEmail_tokens L env db rawToken row h0 hf _ rfl
  have hgone : ∀ r ∈ (UpdateEmail L env db rawToken).db.email_change_tokens,
      r.token_hash ≠ HashToken L rawToken := by
    intro r hr
    rw [ht] at hr
    simpa using (List.mem_filter.1 hr).2
  refine ⟨ht, hgone, ?_, ?_, ?_, ?_, ?_⟩
  · intro r hr hne
    rw [ht]
    exact List.mem_filter.2 ⟨hr, by simpa using hne⟩
  · intro hexp
    simp only [UpdateEmail, h0, hf, hexp, ResponseWriter.WriteHeader, ResponseWriter.code,
      Bool.false_eq_true, if_false, if_true, Option.getD_some]
  · intro hfresh h1 hheld
    have hexp : ¬ env.now - row.created_at > 24 * Hour := by omega
    simp only [UpdateEmail, h0, h1, hf, hexp, hheld, ResponseWriter.WriteHeader,
      ResponseWriter.code, Bool.false_eq_true, if_false, if_true, Option.getD_some]
  · intro h02
    exact UpdateEmail_notFound L env2 _ rawToken h02 hgone
  · intro hown
    rw [ht, List.filter_filter, List.filter_congr]
    intro r hr
    by_cases hu : r.user_id = row.user_id
    · simp [hu]
    · have : r.token_hash ≠ HashToken L rawToken := fun h => hu (hown r hr h)
      simp [hu, this]

/-- C23, on a concrete store: Ada's email-change token `t1`, created at instant
0, is redeemed 25 hours later. The answer is 410, the table is left empty, and a
retry is answered 404. -/
theorem UpdateEmail_burns_token_witness :
    (UpdateEmail sampleLib (sampleEnv (25 * Hour) "") adaChangeDB "t1").w.code = 410
    ∧ (UpdateEmail sampleLib (sampleEnv (25 * Hour) "") adaChangeDB "t1").db.email_change_tokens
        = []
    ∧ UpdateEmail sampleLib (sampleEnv (26 * Hour) "")
          (UpdateEmail sampleLib (sampleEnv (25 * Hour) "") adaChangeDB "t1").db "t1"
        = { w := { status := some 404 },
            db := (UpdateEmail sampleLib (sampleEnv (25 * Hour) "") adaChangeDB "t1").db } :=
  ⟨(UpdateEmail_burns_token sampleLib (sampleEnv (25 * Hour) "") (sampleEnv (26 * Hour) "")
      adaChangeDB "t1"
      { user_id := 7, token_hash := HashToken sampleLib "t1", new_email := "new1@x.com",
        created_at := 0 } rfl (by decide)).2.2.2.1 (by decide),
   by decide,
   (UpdateEmail_burns_token sampleLib (sampleEnv (25 * Hour) "") (sampleEnv (26 * Hour) "")
      adaChangeDB "t1"
      { user_id := 7, token_hash := HashToken sampleLib "t1", new_email := "new1@x.com",
        created_at := 0 } rfl (by decide)).2.2.2.2.2.1 rfl⟩

end GoAuth
